import Mathlib

/-!
# Carousel pager of `assets/global.js` (`SliderComponent`)

A shallow embedding of the scroll-position pager: `initPages`, `update`,
`isSlideVisible`, `setSlidePosition`, `initDots`, `onDotClick`, `updateDots`, `onButtonClick`,
of the looping variant `SlideshowComponent` with its autoplay controller, of the timer and
the quantity selector of `AddToCartButton`, and of `SectionId`, the `keydown` handler of
`trapFocus`, `throttle` and the queue of `BulkAdd`.

Modelling conventions.

* JavaScript numbers are the type `JSVal`: `undefined`, `NaN`, the two infinities and the
  finite numbers, the latter taken as exact rationals (no rounding error; the sign of zero is
  not tracked, which no operation below can observe: `sliderItemOffset` is a difference of
  integers, never `-0`, and a remainder `-0` is only compared with a number or used as an
  array index, where it behaves as `0`).
* `offsetLeft` and `clientWidth` are DOM integers; `scrollLeft` is a finite number.
* `setTimeout` and `setInterval` add an entry to a table of pending timers and return a fresh
  positive handle; `clearTimeout` and `clearInterval` remove the entry of a handle.
* A method is a function from the component state to an `Outcome`: the state it leaves, the
  effects it performed (events dispatched, scroll requests) and the error that ended it, if any.
  State changes and effects made before a `TypeError` are kept, as in JavaScript.
-/

namespace Slider

/-! ## JavaScript values and arithmetic -/

/-- The values a pager field can hold. -/
inductive JSVal where
  | undefined
  | nan
  | posInf
  | negInf
  | num (q : ℚ)
  deriving DecidableEq, Repr

namespace JSVal

/-- Sign of a number: `1`, `-1` or `0` (`0` also for `NaN` and `undefined`). -/
def sgn : JSVal → Int
  | posInf => 1
  | negInf => -1
  | num q => q.num.sign
  | _ => 0

/-- The infinity of the given sign; `NaN` for sign `0`. -/
def ofSign (s : Int) : JSVal :=
  if 0 < s then posInf else if s < 0 then negInf else nan

/-- Unary minus. -/
def neg : JSVal → JSVal
  | posInf => negInf
  | negInf => posInf
  | num q => num (-q)
  | _ => nan

/-- JavaScript `a + b` on numbers (`undefined` converts to `NaN`). -/
def add : JSVal → JSVal → JSVal
  | num x, num y => num (x + y)
  | undefined, _ => nan
  | _, undefined => nan
  | nan, _ => nan
  | _, nan => nan
  | posInf, negInf => nan
  | negInf, posInf => nan
  | posInf, _ => posInf
  | _, posInf => posInf
  | negInf, _ => negInf
  | _, negInf => negInf

/-- JavaScript `a - b`. -/
def sub (a b : JSVal) : JSVal := add a (neg b)

/-- JavaScript `a * b`. -/
def mul : JSVal → JSVal → JSVal
  | num x, num y => num (x * y)
  | undefined, _ => nan
  | _, undefined => nan
  | nan, _ => nan
  | _, nan => nan
  | a, b => ofSign (sgn a * sgn b)

/-- JavaScript `a / b`: a finite number over zero is an infinity of the sign of the numerator,
`0 / 0` is `NaN`. -/
def div : JSVal → JSVal → JSVal
  | num x, num y => if y = 0 then ofSign x.num.sign else num (x / y)
  | undefined, _ => nan
  | _, undefined => nan
  | nan, _ => nan
  | _, nan => nan
  | num _, _ => num 0
  | posInf, num y => if y < 0 then negInf else posInf
  | negInf, num y => if y < 0 then posInf else negInf
  | _, _ => nan

/-- JavaScript `a % b`: the remainder has the sign of the dividend. -/
def mod : JSVal → JSVal → JSVal
  | num x, num y =>
    if y = 0 then nan
    else num (x - y * (if 0 ≤ x / y then ⌊x / y⌋ else ⌈x / y⌉ : Int))
  | num x, posInf => num x
  | num x, negInf => num x
  | _, _ => nan

/-- JavaScript `Math.floor`. -/
def floor : JSVal → JSVal
  | num q => num (⌊q⌋ : Int)
  | undefined => nan
  | v => v

/-- JavaScript `Math.round`: the nearest integer, a tie going up (`floor (x + 1/2)`). -/
def round : JSVal → JSVal
  | num q => num (⌊q + 1 / 2⌋ : Int)
  | undefined => nan
  | v => v

/-- JavaScript `a < b`. -/
def lt : JSVal → JSVal → Bool
  | num x, num y => decide (x < y)
  | undefined, _ => false
  | _, undefined => false
  | nan, _ => false
  | _, nan => false
  | negInf, negInf => false
  | negInf, _ => true
  | posInf, _ => false
  | _, posInf => true
  | _, negInf => false

/-- JavaScript `a <= b`. -/
def le : JSVal → JSVal → Bool
  | num x, num y => decide (x ≤ y)
  | undefined, _ => false
  | _, undefined => false
  | nan, _ => false
  | _, nan => false
  | negInf, _ => true
  | _, posInf => true
  | _, _ => false

/-- JavaScript `a === b`: `NaN` equals nothing, itself included. -/
def strictEq : JSVal → JSVal → Bool
  | nan, _ => false
  | _, nan => false
  | a, b => decide (a = b)

/-- JavaScript `a != b`; on `undefined` and numbers it is the negation of `===`. -/
def looseNe (a b : JSVal) : Bool := !strictEq a b

/-- The array index a value denotes in `xs[v]`: a non-negative integer, or none. -/
def arrayIndex : JSVal → Option Nat
  | num q => if q.isInt ∧ 0 ≤ q then some q.num.toNat else none
  | _ => none

/-- Number of iterations of `for (let i = 0; i < v; i++)`; `none` when the loop never exits. -/
def loopCount : JSVal → Option Nat
  | num q => some ⌈q⌉.toNat
  | posInf => none
  | _ => some 0

end JSVal

open JSVal

/-- JavaScript `xs[v]`: the element at index `v`, `undefined` outside the array. -/
def jsIndex {α : Type} (xs : List α) (v : JSVal) : Option α :=
  match arrayIndex v with
  | some k => xs[k]?
  | none => none

/-- JavaScript truthiness of a flag that is `undefined`, `false` or `true`. -/
def truthy : Option Bool → Bool
  | some true => true
  | _ => false

/-! ## DOM elements and component state -/

/-- A slide element (`[id^="Slide-"]`) with its layout geometry. -/
structure Slide where
  id : Nat
  offsetLeft : Int
  clientWidth : Int
  deriving DecidableEq, Repr

/-- The scroll container (`[id^="Slider-"]`). -/
structure SliderElement where
  clientWidth : Int
  scrollLeft : ℚ
  deriving DecidableEq, Repr

/-- A navigation button; `disabled` is the presence of the `disabled` attribute. -/
structure Button where
  disabled : Bool
  deriving DecidableEq, Repr

/-- A navigation dot; `isActive` is the presence of the class `is-active`. -/
structure Dot where
  index : Nat
  isActive : Bool
  deriving DecidableEq, Repr

/-- A counter element; `textContent` holds the value last written to it. -/
structure TextElement where
  textContent : JSVal
  deriving DecidableEq, Repr

/-- How a method can fail to complete. -/
inductive JSError where
  | typeError
  | nonTermination
  deriving DecidableEq, Repr

/-- The `name` of a navigation button: `button[name="previous"]` or `button[name="next"]`. -/
inductive ButtonName where
  | previous
  | next
  deriving DecidableEq, Repr

/-- Observable effects of a method: the `slideChanged` event, a call of `slider.scrollTo`, and
the announcement bar's fade class (`fade-in` or `fade-out`, with a direction) put on or taken
off a slide. -/
inductive Effect where
  | slideChanged (currentPage : JSVal) (currentElement : Option Slide)
  | scrollTo (left : JSVal)
  | fadeClassAdded (slide : Slide) (fadeIn : Bool) (direction : ButtonName)
  | fadeClassRemoved (slide : Slide) (fadeIn : Bool) (direction : ButtonName)
  deriving DecidableEq, Repr

/-- The fields of a `SliderComponent`. An absent element (`null`) or an unset array is `none`;
an unset number field is `JSVal.undefined`. `dotsContainer` says whether the container element
exists; once `initDots` has run its children are the elements of `dots`. -/
structure SliderComponent where
  slider : Option SliderElement
  sliderItems : List Slide
  enableSliderLooping : Bool
  currentPageElement : Option TextElement
  pageTotalElement : Option TextElement
  prevButton : Option Button
  nextButton : Option Button
  dotsContainer : Bool
  dots : Option (List Dot)
  sliderItemsToShow : Option (List Slide)
  sliderItemOffset : JSVal
  slidesPerPage : JSVal
  totalPages : JSVal
  currentPage : JSVal
  slideScrollPosition : JSVal
  deriving DecidableEq, Repr

/-- Result of running a method: final state, effects in order, and the error if it threw. -/
structure Outcome where
  state : SliderComponent
  effects : List Effect
  error : Option JSError
  deriving DecidableEq, Repr

/-! ## Methods -/

/-- The filter callback of `initPages()`: `(element) => element.clientWidth > 0`. -/
def isShown (element : Slide) : Bool := decide (element.clientWidth > 0)

/-- `isSlideVisible(element, offset)` (lines 811-814), for a present slider; reading
`offsetLeft` of an `undefined` element throws. -/
def isSlideVisible (slider : SliderElement) (element : Option Slide) (offset : ℚ) :
    Except JSError Bool :=
  let lastVisibleSlide : ℚ := slider.clientWidth + slider.scrollLeft - offset
  match element with
  | none => .error .typeError
  | some element =>
    .ok (decide ((element.offsetLeft : ℚ) + element.clientWidth ≤ lastVisibleSlide)
      && decide (slider.scrollLeft ≤ element.offsetLeft))

/-- `updateDots()` (lines 854-859). -/
def updateDots (c : SliderComponent) : SliderComponent :=
  match c.dots with
  | none => c
  | some dots =>
    if dots.length = 0 then c
    else
      let cleared := dots.map fun dot => { dot with isActive := false }
      let activeIndex := sub c.currentPage (num 1)
      match arrayIndex activeIndex with
      | some k => { c with dots := some (cleared.modify (fun dot => { dot with isActive := true }) k) }
      | none => { c with dots := some cleared }

/-- `initDots()` (lines 832-846): one dot per `i < totalPages`. -/
def initDots (c : SliderComponent) : Outcome :=
  if c.dotsContainer then
    match loopCount c.totalPages with
    | none => ⟨{ c with dots := some [] }, [], some .nonTermination⟩
    | some n =>
      ⟨{ c with dots := some ((List.range n).map fun i =>
          { index := i, isActive := strictEq (num i) (sub c.currentPage (num 1)) }) }, [], none⟩
  else ⟨{ c with dots := some [] }, [], some .typeError⟩

/-- Lines 798-808 of `update()`: toggling of the two buttons (looping disabled). -/
def updateButtons (c : SliderComponent) (slider : SliderElement) (effects : List Effect) :
    Outcome :=
  match c.sliderItemsToShow with
  | none => ⟨c, effects, some .typeError⟩
  | some items =>
    match isSlideVisible slider items.head? 0 with
    | .error e => ⟨c, effects, some e⟩
    | .ok firstVisible =>
      match c.prevButton with
      | none => ⟨c, effects, some .typeError⟩
      | some prevButton =>
        let isAtStart := firstVisible && decide (slider.scrollLeft = 0)
        let c := { c with prevButton := some { prevButton with disabled := isAtStart } }
        match isSlideVisible slider items.getLast? 0 with
        | .error e => ⟨c, effects, some e⟩
        | .ok lastVisible =>
          match c.nextButton with
          | none => ⟨c, effects, some .typeError⟩
          | some nextButton =>
            ⟨{ c with nextButton := some { nextButton with disabled := lastVisible } },
              effects, none⟩

/-- Lines 780-783 of `update()`: the page counter texts, written when both elements exist. -/
def updateCounter (c : SliderComponent) : SliderComponent :=
  match c.currentPageElement, c.pageTotalElement with
  | some cur, some tot =>
    { c with
      currentPageElement := some { cur with textContent := c.currentPage },
      pageTotalElement := some { tot with textContent := c.totalPages } }
  | _, _ => c

/-- `update()` (lines 772-809). -/
def update (c : SliderComponent) : Outcome :=
  match c.slider, c.nextButton with
  | none, _ => ⟨c, [], none⟩
  | _, none => ⟨c, [], none⟩
  | some slider, some _ =>
    let previousPage := c.currentPage
    let c := { c with
      currentPage := add (round (div (num slider.scrollLeft) c.sliderItemOffset)) (num 1) }
    let c := updateDots c
    let c := updateCounter c
    if looseNe c.currentPage previousPage then
      match c.sliderItemsToShow with
      | none => ⟨c, [], some .typeError⟩
      | some items =>
        let effects :=
          [Effect.slideChanged c.currentPage (jsIndex items (sub c.currentPage (num 1)))]
        if c.enableSliderLooping then ⟨c, effects, none⟩ else updateButtons c slider effects
    else
      if c.enableSliderLooping then ⟨c, [], none⟩ else updateButtons c slider []

/-- `initPages()` (lines 755-765). The last branch is `sliderItemsToShow.length < 2`. -/
def initPages (c : SliderComponent) : Outcome :=
  let sliderItemsToShow := c.sliderItems.filter isShown
  let c := { c with sliderItemsToShow := some sliderItemsToShow }
  match sliderItemsToShow with
  | first :: second :: _ =>
    let c := { c with sliderItemOffset := num ((second.offsetLeft - first.offsetLeft : Int) : ℚ) }
    match c.slider with
    | none => ⟨c, [], some .typeError⟩
    | some slider =>
      let available : Int := slider.clientWidth - first.offsetLeft
      let c := { c with slidesPerPage := floor (div (num (available : ℚ)) c.sliderItemOffset) }
      let dotsOutcome : Outcome := if c.dotsContainer then initDots c else ⟨c, [], none⟩
      match dotsOutcome.error with
      | some e => ⟨dotsOutcome.state, [], some e⟩
      | none =>
        let c := { dotsOutcome.state with
          totalPages := add (sub (num (sliderItemsToShow.length : ℚ)) c.slidesPerPage) (num 1) }
        update c
  | _ => ⟨c, [], none⟩

/-- `setSlidePosition(position)` (lines 826-830): `slider.scrollTo({ left: position })`. -/
def setSlidePosition (c : SliderComponent) (position : JSVal) : Outcome :=
  match c.slider with
  | none => ⟨c, [], some .typeError⟩
  | some _ => ⟨c, [Effect.scrollTo position], none⟩

/-- `onDotClick(event)` (lines 848-852); `index` is `parseInt(dataset.index, 10)` of the
clicked dot, the `i` that `initDots` stored there. -/
def onDotClick (c : SliderComponent) (index : Nat) : Outcome :=
  let newPosition := mul (num (index : ℚ)) c.sliderItemOffset
  setSlidePosition c newPosition

/-- The button a click event comes from (`event.currentTarget`): its `name`, and `dataset.step`
read as a number, `none` when the attribute is missing or empty (a falsy `dataset.step`). -/
structure ClickTarget where
  name : ButtonName
  step : Option JSVal
  deriving DecidableEq, Repr

/-- Lines 818-822 of `onButtonClick(event)`: the scroll position a click asks for. -/
def buttonScrollPosition (slider : SliderElement) (sliderItemOffset : JSVal)
    (target : ClickTarget) : JSVal :=
  let step :=
    match target.step with
    | some configured => configured
    | none => num 1
  if target.name = ButtonName.next then add (num slider.scrollLeft) (mul step sliderItemOffset)
  else sub (num slider.scrollLeft) (mul step sliderItemOffset)

/-- `SliderComponent.onButtonClick(event)` (lines 816-824). -/
def onButtonClick (c : SliderComponent) (target : ClickTarget) : Outcome :=
  match c.slider with
  | none => ⟨c, [], some .typeError⟩
  | some slider =>
    let c := { c with slideScrollPosition := buttonScrollPosition slider c.sliderItemOffset target }
    setSlidePosition c c.slideScrollPosition

/-! ## Timers -/

/-- What a scheduled callback does when it fires: the scroll of `setSlidePosition`, the
autoplay tick of `play`, the class removal of `applyAnimationToAnnouncementBar`, and the
request of `AddToCartButton.resetTimer`. -/
inductive TimerAction where
  | scrollTo (left : JSVal)
  | autoRotateSlides
  | endAnimation (currentSlide nextSlide : Slide) (direction : ButtonName)
  | addToCart
  deriving DecidableEq, Repr

/-- A pending `setTimeout` (`repeating = false`) or `setInterval` (`repeating = true`). -/
structure Timer where
  handle : Nat
  repeating : Bool
  delay : JSVal
  action : TimerAction
  deriving DecidableEq, Repr

/-- The timer table: the last handle given out and the pending timers, oldest first. -/
structure Timers where
  lastHandle : Nat
  pending : List Timer
  deriving DecidableEq, Repr

namespace Timers

/-- `setTimeout` / `setInterval`: the new timer gets the handle `lastHandle + 1`, which is the
`lastHandle` of the result. -/
def schedule (t : Timers) (repeating : Bool) (delay : JSVal) (action : TimerAction) : Timers :=
  { lastHandle := t.lastHandle + 1
    pending := t.pending ++ [⟨t.lastHandle + 1, repeating, delay, action⟩] }

/-- `clearTimeout` / `clearInterval`: without effect for `undefined`, `null` or a handle that
is not pending. -/
def clear (t : Timers) (handle : Option Nat) : Timers :=
  match handle with
  | none => t
  | some h => { t with pending := t.pending.filter fun timer => timer.handle != h }

/-- The pending autoplay intervals. -/
def autoplayTimers (t : Timers) : List Timer :=
  t.pending.filter fun timer => timer.action == TimerAction.autoRotateSlides

/-- Is the action a scroll scheduled by `setSlidePosition`? -/
def isScroll : TimerAction → Bool
  | .scrollTo _ => true
  | _ => false

/-- The pending scroll transitions. -/
def scrollTimers (t : Timers) : List Timer :=
  t.pending.filter fun timer => isScroll timer.action

/-- The pending add-to-cart timeouts. -/
def addToCartTimers (t : Timers) : List Timer :=
  t.pending.filter fun timer => timer.action == TimerAction.addToCart

end Timers

/-! ## The looping variant: `SlideshowComponent` -/

/-- The `aria-live` attribute of the slider. -/
inductive AriaLive where
  | off
  | polite
  deriving DecidableEq, Repr

/-- The two labels of the play/pause control (`window.accessibilityStrings`). -/
inductive PlayLabel where
  | playSlideshow
  | pauseSlideshow
  deriving DecidableEq, Repr

/-- The play/pause control `.slideshow__autoplay`: the class `slideshow__autoplay--paused` and
the `aria-label` last written (`none`: as rendered by the server). -/
structure AutoplayButton where
  paused : Bool
  ariaLabel : Option PlayLabel
  deriving DecidableEq, Repr

/-- A page link `.slider-counter__link`; `active` is the class
`slider-counter__link--active` together with `aria-current`. -/
structure CounterLink where
  active : Bool
  deriving DecidableEq, Repr

/-- Where a hover or focus event comes from: is its target the play/pause control or inside
it, and is it inside the element `.announcement-bar-slider`. -/
structure PointerTarget where
  onAutoplayButton : Bool
  insideAnnouncementBar : Bool
  deriving DecidableEq, Repr

/-- The fields of a `SlideshowComponent` on top of those of the slider. Elements of the
document: `sliderControlWrapper`, `announcementBarSlider` (present or not),
`sliderFirstItemNode`, `sliderControlLinks`, `slideshowAutoplay` (the play/pause control),
`dataSpeed` (`slider.dataset.speed` as a number) and `ariaLive` (attribute of the slider).
`reducedMotion` says whether the media query list was created, `prefersReducedMotion` is what
its `matches` reports. `sliderAutoplayButton` says whether that field was assigned; it then
refers to `slideshowAutoplay`. `timers` is the timer table of the window. -/
structure SlideshowComponent extends SliderComponent where
  sliderControlWrapper : Bool
  sliderFirstItemNode : Option Slide
  announcementBarSlider : Bool
  announcerBarAnimationDelay : JSVal
  sliderControlLinks : List CounterLink
  announcementBarArrowButtonWasClicked : Option Bool
  reducedMotion : Bool
  prefersReducedMotion : Bool
  slideshowAutoplay : Option AutoplayButton
  sliderAutoplayButton : Bool
  autoplayButtonIsSetToPlay : Option Bool
  dataSpeed : JSVal
  autoplaySpeed : JSVal
  ariaLive : Option AriaLive
  wasClicked : Option Bool
  setPositionTimeout : Option Nat
  autoplay : Option Nat
  timers : Timers
  deriving DecidableEq, Repr

/-- Result of running a method of the slideshow. -/
structure SlideshowOutcome where
  state : SlideshowComponent
  effects : List Effect
  error : Option JSError
  deriving DecidableEq, Repr

namespace SlideshowComponent

/-- The autoplay controller is `Playing` when an autoplay interval is pending, `Paused`
otherwise. -/
def isPlaying (c : SlideshowComponent) : Bool :=
  !c.timers.autoplayTimers.isEmpty

/-- `play()` (lines 1003-1007). -/
def play (c : SlideshowComponent) : SlideshowOutcome :=
  match c.slider with
  | none => ⟨c, [], some .typeError⟩
  | some _ =>
    let c := { c with ariaLive := some AriaLive.off }
    let c := { c with timers := c.timers.clear c.autoplay }
    let timers := c.timers.schedule true c.autoplaySpeed TimerAction.autoRotateSlides
    ⟨{ c with timers := timers, autoplay := some timers.lastHandle }, [], none⟩

/-- `pause()` (lines 1009-1012). -/
def pause (c : SlideshowComponent) : SlideshowOutcome :=
  match c.slider with
  | none => ⟨c, [], some .typeError⟩
  | some _ =>
    let c := { c with ariaLive := some AriaLive.polite }
    ⟨{ c with timers := c.timers.clear c.autoplay }, [], none⟩

/-- `togglePlayButtonState(pauseAutoplay)` (lines 1014-1022). -/
def togglePlayButtonState (c : SlideshowComponent) (pauseAutoplay : Bool) : SlideshowOutcome :=
  match c.sliderAutoplayButton, c.slideshowAutoplay with
  | true, some button =>
    if pauseAutoplay then
      let button := { button with paused := true, ariaLabel := some PlayLabel.playSlideshow }
      ⟨{ c with slideshowAutoplay := some button }, [], none⟩
    else
      let button := { button with paused := false, ariaLabel := some PlayLabel.pauseSlideshow }
      ⟨{ c with slideshowAutoplay := some button }, [], none⟩
  | _, _ => ⟨c, [], some .typeError⟩

/-- `autoPlayToggle()` (lines 972-976). -/
def autoPlayToggle (c : SlideshowComponent) : SlideshowOutcome :=
  let toggled := togglePlayButtonState c (truthy c.autoplayButtonIsSetToPlay)
  match toggled.error with
  | some e => ⟨toggled.state, [], some e⟩
  | none =>
    let c := toggled.state
    let switched := if truthy c.autoplayButtonIsSetToPlay then pause c else play c
    match switched.error with
    | some e => ⟨switched.state, [], some e⟩
    | none =>
      let flipped := !truthy switched.state.autoplayButtonIsSetToPlay
      ⟨{ switched.state with autoplayButtonIsSetToPlay := some flipped }, [], none⟩

/-- `focusOutHandling(event)` (lines 978-987). -/
def focusOutHandling (c : SlideshowComponent) (target : PointerTarget) : SlideshowOutcome :=
  if c.sliderAutoplayButton then
    let focusedOnAutoplayButton := target.onAutoplayButton
    if !truthy c.autoplayButtonIsSetToPlay || focusedOnAutoplayButton then ⟨c, [], none⟩
    else play c
  else if !c.reducedMotion then ⟨c, [], some .typeError⟩
  else if !c.prefersReducedMotion && !truthy c.announcementBarArrowButtonWasClicked then play c
  else ⟨c, [], none⟩

/-- `focusInHandling(event)` (lines 989-1001). -/
def focusInHandling (c : SlideshowComponent) (target : PointerTarget) : SlideshowOutcome :=
  if c.sliderAutoplayButton then
    let focusedOnAutoplayButton := target.onAutoplayButton
    if focusedOnAutoplayButton && truthy c.autoplayButtonIsSetToPlay then play c
    else if truthy c.autoplayButtonIsSetToPlay then pause c
    else ⟨c, [], none⟩
  else if !c.announcementBarSlider then ⟨c, [], some .typeError⟩
  else if target.insideAnnouncementBar then pause c
  else ⟨c, [], none⟩

/-- `setAutoPlay()` (lines 907-922); the four listeners it registers are the handlers
`focusInHandling` and `focusOutHandling`. -/
def setAutoPlay (c : SlideshowComponent) : SlideshowOutcome :=
  match c.slider with
  | none => ⟨c, [], some .typeError⟩
  | some _ =>
    let c := { c with autoplaySpeed := mul c.dataSpeed (num 1000) }
    match c.slideshowAutoplay with
    | some _ =>
      let c := { c with sliderAutoplayButton := true }
      let c := { c with autoplayButtonIsSetToPlay := some true }
      play c
    | none =>
      if !c.reducedMotion then ⟨c, [], some .typeError⟩
      else if c.prefersReducedMotion || truthy c.announcementBarArrowButtonWasClicked then pause c
      else play c

/-- `SlideshowComponent.setSlidePosition(position)` (lines 948-955): a handle is truthy when
it is a non-zero number. -/
def setSlidePosition (c : SlideshowComponent) (position : JSVal) : SlideshowOutcome :=
  let timers :=
    match c.setPositionTimeout with
    | some h => if h = 0 then c.timers else c.timers.clear (some h)
    | none => c.timers
  let timers := timers.schedule false c.announcerBarAnimationDelay (TimerAction.scrollTo position)
  ⟨{ c with timers := timers, setPositionTimeout := some timers.lastHandle }, [], none⟩

/-- Lines 1057-1062 of `applyAnimationToAnnouncementBar(button)`: the constant `nextIndex`,
the index of the slide shown next. -/
def nextIndex (c : SlideshowComponent) (button : ButtonName) : JSVal :=
  let itemsCount := num (c.sliderItems.length : ℚ)
  let increment := if button = ButtonName.next then num 1 else num (-1)
  let currentIndex := sub c.currentPage (num 1)
  let nextIndex := mod (add currentIndex increment) itemsCount
  if strictEq nextIndex (num (-1)) then sub itemsCount (num 1) else nextIndex

/-- `applyAnimationToAnnouncementBar(button)` (lines 1054-1083). -/
def applyAnimationToAnnouncementBar (c : SlideshowComponent) (button : ButtonName) :
    SlideshowOutcome :=
  if !c.announcementBarSlider then ⟨c, [], none⟩
  else
    let itemsCount := num (c.sliderItems.length : ℚ)
    let currentIndex := sub c.currentPage (num 1)
    let nextIndex := c.nextIndex button
    let nextSlide := jsIndex c.sliderItems nextIndex
    let currentSlide := jsIndex c.sliderItems currentIndex
    let isFirstSlide := strictEq currentIndex (num 0)
    let isLastSlide := strictEq currentIndex (sub itemsCount (num 1))
    let shouldMoveNext := (decide (button = ButtonName.next) && !isLastSlide)
      || (decide (button = ButtonName.previous) && isFirstSlide)
    let direction := if shouldMoveNext then ButtonName.next else ButtonName.previous
    match currentSlide with
    | none => ⟨c, [], some .typeError⟩
    | some current =>
      match nextSlide with
      | none => ⟨c, [Effect.fadeClassAdded current false direction], some .typeError⟩
      | some following =>
        let timers := c.timers.schedule false (mul c.announcerBarAnimationDelay (num 2))
          (TimerAction.endAnimation current following direction)
        ⟨{ c with timers := timers },
          [Effect.fadeClassAdded current false direction,
            Effect.fadeClassAdded following true direction], none⟩

/-- `SlideshowComponent.onButtonClick(event)` (lines 924-946). The first three steps are
`super.onButtonClick(event)`, whose call of `this.setSlidePosition` runs the override. -/
def onButtonClick (c : SlideshowComponent) (target : ClickTarget) : SlideshowOutcome :=
  match c.slider with
  | none => ⟨c, [], some .typeError⟩
  | some slider =>
    let c := { c with slideScrollPosition := buttonScrollPosition slider c.sliderItemOffset target }
    let c := (setSlidePosition c c.slideScrollPosition).state
    let c := { c with wasClicked := some true }
    let isFirstSlide := strictEq c.currentPage (num 1)
    match c.sliderItemsToShow with
    | none => ⟨c, [], some .typeError⟩
    | some sliderItemsToShow =>
      let isLastSlide := strictEq c.currentPage (num (sliderItemsToShow.length : ℚ))
      if !isFirstSlide && !isLastSlide then applyAnimationToAnnouncementBar c target.name
      else if isFirstSlide && decide (target.name = ButtonName.previous) then
        match c.sliderFirstItemNode with
        | none => ⟨c, [], some .typeError⟩
        | some node =>
          let width := mul (num (node.clientWidth : ℚ)) (num (sliderItemsToShow.length : ℚ))
          let c := { c with slideScrollPosition := add (num slider.scrollLeft) width }
          let c := (setSlidePosition c c.slideScrollPosition).state
          applyAnimationToAnnouncementBar c target.name
      else
        let c :=
          if isLastSlide && decide (target.name = ButtonName.next) then
            { c with slideScrollPosition := num 0 }
          else c
        let c := (setSlidePosition c c.slideScrollPosition).state
        applyAnimationToAnnouncementBar c target.name

/-- `autoRotateSlides()` (lines 1024-1030). -/
def autoRotateSlides (c : SlideshowComponent) : SlideshowOutcome :=
  if strictEq c.currentPage (num (c.sliderItems.length : ℚ)) then
    applyAnimationToAnnouncementBar (setSlidePosition c (num 0)).state ButtonName.next
  else
    match c.slider with
    | none => ⟨c, [], some .typeError⟩
    | some slider =>
      let slideScrollPosition := add (num slider.scrollLeft) c.sliderItemOffset
      applyAnimationToAnnouncementBar (setSlidePosition c slideScrollPosition).state
        ButtonName.next

/-- `SlideshowComponent.update()` (lines 957-970). -/
def update (c : SlideshowComponent) : SlideshowOutcome :=
  let base := Slider.update c.toSliderComponent
  let c := { c with toSliderComponent := base.state }
  match base.error with
  | some e => ⟨c, base.effects, some e⟩
  | none =>
    match c.prevButton with
    | none => ⟨c, base.effects, some .typeError⟩
    | some prevButton =>
      let c := { c with prevButton := some { prevButton with disabled := false } }
      if c.sliderControlLinks.length = 0 then ⟨c, base.effects, none⟩
      else
        let cleared := c.sliderControlLinks.map fun link => { link with active := false }
        let c := { c with sliderControlLinks := cleared }
        match arrayIndex (sub c.currentPage (num 1)) with
        | none => ⟨c, base.effects, some .typeError⟩
        | some k =>
          if k < cleared.length then
            let marked := cleared.modify (fun link => { link with active := true }) k
            ⟨{ c with sliderControlLinks := marked }, base.effects, none⟩
          else ⟨c, base.effects, some .typeError⟩

/-- The callback of a pending timer runs: a timeout leaves the table, an interval stays. -/
def fireTimer (c : SlideshowComponent) (timer : Timer) : SlideshowOutcome :=
  let c :=
    if timer.repeating then c
    else { c with timers := c.timers.clear (some timer.handle) }
  match timer.action with
  | .scrollTo left =>
    match c.slider with
    | none => ⟨c, [], some .typeError⟩
    | some _ => ⟨c, [Effect.scrollTo left], none⟩
  | .autoRotateSlides => autoRotateSlides c
  | .endAnimation current following direction =>
    ⟨c, [Effect.fadeClassRemoved current false direction,
      Effect.fadeClassRemoved following true direction], none⟩
  | .addToCart => ⟨c, [], none⟩

end SlideshowComponent

/-! ## The timer of `AddToCartButton` -/

/-- The fields of an `AddToCartButton` that its timer and quantity logic use. `qtyDisplay` is
the text of the `#qty` span that `renderQtySelector()` creates, `none` while there is no such
span. -/
structure AddToCartButton where
  timeout : Option Nat
  quantity : Int
  available : Bool
  timers : Timers
  qtyDisplay : Option Int
  deriving DecidableEq, Repr

namespace AddToCartButton

/-- `resetTimer()` (lines 1526-1529). -/
def resetTimer (b : AddToCartButton) : AddToCartButton :=
  let timers := b.timers.clear b.timeout
  let timers := timers.schedule false (num 3000) TimerAction.addToCart
  { b with timers := timers, timeout := some timers.lastHandle }

/-- `updateQtyDisplay()` (lines 1522-1524), called by the two click handlers, which exist
together with the `#qty` span. -/
def updateQtyDisplay (b : AddToCartButton) : AddToCartButton :=
  { b with qtyDisplay := some b.quantity }

/-- The `onclick` handler of the `#decrease` button (lines 1507-1511). -/
def onDecreaseClick (b : AddToCartButton) : AddToCartButton :=
  let b := if b.quantity > 1 then { b with quantity := b.quantity - 1 } else b
  let b := updateQtyDisplay b
  resetTimer b

/-- The `onclick` handler of the `#increase` button (lines 1513-1517). -/
def onIncreaseClick (b : AddToCartButton) : AddToCartButton :=
  let b := { b with quantity := b.quantity + 1 }
  let b := updateQtyDisplay b
  resetTimer b

end AddToCartButton

/-! ## Layouts used in statements -/

/-- A row of `n` slides of width `w` whose left edges are `d` apart, the first at `off0`. -/
def equallySpaced (off0 d w : Int) (n : Nat) : List Slide :=
  (List.range n).map fun k => { id := k, offsetLeft := off0 + k * d, clientWidth := w }

/-- A freshly constructed non-looping component over the given slider and slides, with both
buttons present and no pager field set yet. -/
def freshComponent (slider : SliderElement) (items : List Slide) : SliderComponent :=
  { slider := some slider
    sliderItems := items
    enableSliderLooping := false
    currentPageElement := none
    pageTotalElement := none
    prevButton := some ⟨false⟩
    nextButton := some ⟨false⟩
    dotsContainer := false
    dots := none
    sliderItemsToShow := none
    sliderItemOffset := .undefined
    slidesPerPage := .undefined
    totalPages := .undefined
    currentPage := .undefined
    slideScrollPosition := .undefined }

/-- The component after the container has been scrolled to `scrollLeft`. -/
def scrolledTo (c : SliderComponent) (scrollLeft : ℚ) : SliderComponent :=
  { c with slider := c.slider.map fun s => { s with scrollLeft := scrollLeft } }

/-! ## Concrete layouts -/

/-- Five slides of width 100, 100 apart, in a viewport of width 200 (two slides per page). -/
def fiveSlides : SliderComponent :=
  freshComponent ⟨200, 0⟩ (equallySpaced 0 100 100 5)

/-- Two slides of width 100 in a viewport of width 1000. -/
def wideViewport : SliderComponent :=
  freshComponent ⟨1000, 0⟩ (equallySpaced 0 100 100 2)

/-- A single visible slide and a hidden one. -/
def oneVisible : SliderComponent :=
  freshComponent ⟨200, 0⟩ [⟨0, 0, 100⟩, ⟨1, 0, 0⟩]

/-- Two slides of width 200 stacked vertically: both have `offsetLeft = 0`. -/
def stackedSlides : SliderComponent :=
  freshComponent ⟨200, 0⟩ [⟨0, 0, 200⟩, ⟨1, 0, 200⟩]

/-! ## Invariants, call sequences and concrete states of the slideshow -/

namespace SlideshowComponent

/-- Every pending autoplay interval is the one whose handle `autoplay` holds, and there is at
most one. Holds when no timer is pending and is kept by `play()` and `pause()`. -/
def AutoplayInv (c : SlideshowComponent) : Prop :=
  c.timers.autoplayTimers.length ≤ 1 ∧
  ∀ timer ∈ c.timers.pending, timer.action = TimerAction.autoRotateSlides →
    c.autoplay = some timer.handle

/-- Every pending scroll transition is the one whose handle `setPositionTimeout` holds, a
non-zero number. Holds when no timer is pending and is kept by `setSlidePosition`. -/
def PositionInv (c : SlideshowComponent) : Prop :=
  ∀ timer ∈ c.timers.pending, Timers.isScroll timer.action = true →
    c.setPositionTimeout = some timer.handle ∧ timer.handle ≠ 0

/-- The calls `setSlidePosition(p1)`, ..., `setSlidePosition(pn)` in a row, no timer firing in
between. -/
def requestPositions (c : SlideshowComponent) (positions : List JSVal) : SlideshowComponent :=
  positions.foldl (fun state position => (setSlidePosition state position).state) c

/-- A call of `play()` or of `pause()`. -/
inductive AutoplayCall where
  | play
  | pause
  deriving DecidableEq, Repr

/-- A sequence of `play()` and `pause()` calls. -/
def runAutoplayCalls (c : SlideshowComponent) (calls : List AutoplayCall) : SlideshowComponent :=
  calls.foldl (fun state call =>
    match call with
    | AutoplayCall.play => (play state).state
    | AutoplayCall.pause => (pause state).state) c

end SlideshowComponent

namespace AddToCartButton

/-- Every pending add-to-cart timeout is the one whose handle `timeout` holds, and there is at
most one. -/
def TimeoutInv (b : AddToCartButton) : Prop :=
  b.timers.addToCartTimers.length ≤ 1 ∧
  ∀ timer ∈ b.timers.pending, timer.action = TimerAction.addToCart →
    b.timeout = some timer.handle

/-- `resetTimer()` called `n` times in a row. -/
def resetTimerTimes (b : AddToCartButton) : Nat → AddToCartButton
  | 0 => b
  | n + 1 => resetTimer (resetTimerTimes b n)

/-- A click on one of the two buttons of the quantity selector. -/
inductive QtyClick where
  | decrease
  | increase
  deriving DecidableEq, Repr

/-- The button after a sequence of clicks on the quantity selector. -/
def clicks (b : AddToCartButton) : List QtyClick → AddToCartButton
  | [] => b
  | QtyClick.decrease :: rest => clicks (onDecreaseClick b) rest
  | QtyClick.increase :: rest => clicks (onIncreaseClick b) rest

end AddToCartButton

/-- A slideshow over a paged slider: looping enabled, autoplay not yet set up, no timer
pending. `announcementBar` says whether `.announcement-bar-slider` exists (then the animation
delay is 250, the arrow flag is `false` and the media query list exists), `control` is the
play/pause control of the document, if any. -/
def slideshowOver (base : SliderComponent) (announcementBar : Bool)
    (control : Option AutoplayButton) (prefersReducedMotion : Bool) : SlideshowComponent :=
  { toSliderComponent := { base with enableSliderLooping := true }
    sliderControlWrapper := true
    sliderFirstItemNode := base.sliderItems.head?
    announcementBarSlider := announcementBar
    announcerBarAnimationDelay := if announcementBar then num 250 else num 0
    sliderControlLinks := []
    announcementBarArrowButtonWasClicked := if announcementBar then some false else none
    reducedMotion := announcementBar
    prefersReducedMotion := prefersReducedMotion
    slideshowAutoplay := control
    sliderAutoplayButton := false
    autoplayButtonIsSetToPlay := none
    dataSpeed := num 5
    autoplaySpeed := .undefined
    ariaLive := none
    wasClicked := none
    setPositionTimeout := none
    autoplay := none
    timers := ⟨0, []⟩ }

/-- Three slides of width 200 in a viewport of width 200, one slide per page, paged. -/
def threeSlides : SliderComponent :=
  (initPages (freshComponent ⟨200, 0⟩ (equallySpaced 0 200 200 3))).state

/-- Two visible slides of width 200 and a hidden third one, paged and scrolled to the
second slide. -/
def hiddenThird : SliderComponent :=
  (update (scrolledTo (initPages (freshComponent ⟨200, 0⟩
    [⟨0, 0, 200⟩, ⟨1, 200, 200⟩, ⟨2, 0, 0⟩])).state 200)).state

/-- An add-to-cart button as constructed: quantity 1, no timer. -/
def freshAddToCart : AddToCartButton :=
  { timeout := none, quantity := 1, available := true, timers := ⟨0, []⟩, qtyDisplay := none }

/-- A slideshow with a play/pause control over three slides, as constructed. -/
def controlSlideshow (prefersReducedMotion : Bool) : SlideshowComponent :=
  slideshowOver threeSlides false (some ⟨false, none⟩) prefersReducedMotion

/-- An announcement bar (no play/pause control) over three slides, as constructed. -/
def announcementBar (prefersReducedMotion : Bool) : SlideshowComponent :=
  slideshowOver threeSlides true none prefersReducedMotion

/-- A slideshow with a play/pause control under the reduced-motion preference, autoplay
started by `setAutoPlay()` and then paused by a hover over a slide. -/
def hoverPaused : SlideshowComponent :=
  ((controlSlideshow true).setAutoPlay.state.focusInHandling ⟨false, false⟩).state

/-- An announcement bar whose third slide is hidden, on the page of its last visible slide. -/
def hiddenThirdBar : SlideshowComponent :=
  slideshowOver hiddenThird true none false

/-- An announcement bar over three slides, scrolled to its last slide (offset 400, page 3). -/
def lastSlideBar : SlideshowComponent :=
  slideshowOver (update (scrolledTo threeSlides 400)).state true none false

/-! ## States used in the claims on recomputation and dots -/

/-- The component with other prior values of the derived fields: `o`, `p`, `t`, `q` for
`sliderItemOffset`, `slidesPerPage`, `totalPages`, `currentPage`, and `items` for
`sliderItemsToShow`. -/
def withPriorState (c : SliderComponent) (o p t q : JSVal) (items : Option (List Slide)) :
    SliderComponent :=
  { c with sliderItemOffset := o, slidesPerPage := p, totalPages := t, currentPage := q, sliderItemsToShow := items }

/-- The five-slide component with a dots container, as its constructor leaves it (lines
740-752): `initPages()` runs before `dotsContainer` is set, then `initDots()`. -/
def fiveSlidesWithDots : SliderComponent :=
  (initDots { (initPages fiveSlides).state with dotsContainer := true }).state

/-- The same component after its viewport has grown to a width of 300. -/
def fiveSlidesResized : SliderComponent :=
  { fiveSlidesWithDots with slider := some ⟨300, 0⟩ }

/-! ## `SectionId` -/

namespace SectionId

/-- JavaScript `chars.split(sep)` for a separator `sep` made of the two characters `a`, `b`:
the pieces between the occurrences of `sep`, which are found from left to right. -/
def splitOnPair (a b : Char) : List Char → List (List Char)
  | [] => [[]]
  | [c] => [[c]]
  | c :: d :: rest =>
    if c = a ∧ d = b then [] :: splitOnPair a b rest
    else
      match splitOnPair a b (d :: rest) with
      | [] => [[c]]
      | piece :: pieces => (c :: piece) :: pieces

/-- The private static field `#separator` (line 10). -/
def separator : String := "__"

/-- The call `qualifiedSectionId.split(SectionId.#separator)` of lines 14 and 19. -/
def split (qualifiedSectionId : String) : List String :=
  (splitOnPair '_' '_' qualifiedSectionId.data).map String.mk

/-- `SectionId.parseId(qualifiedSectionId)` (lines 13-15); `none` is `undefined`. -/
def parseId (qualifiedSectionId : String) : Option String :=
  (split qualifiedSectionId)[0]?

/-- `SectionId.parseSectionName(qualifiedSectionId)` (lines 18-20); `none` is `undefined`. -/
def parseSectionName (qualifiedSectionId : String) : Option String :=
  (split qualifiedSectionId)[1]?

/-- `SectionId.getIdForSection(sectionId, sectionName)` (lines 23-25). -/
def getIdForSection (sectionId sectionName : String) : String :=
  sectionId ++ separator ++ sectionName

end SectionId

/-! ## `trapFocus` -/

/-- The fields of a `keydown` event that the handler reads: `isTab` is
`event.code.toUpperCase() === 'TAB'`, `target` the element the event comes from. Elements are
told apart by a number. -/
structure KeyboardEvent where
  isTab : Bool
  shiftKey : Bool
  target : Nat
  deriving DecidableEq, Repr

/-- What a run of the `keydown` handler does: whether `event.preventDefault()` was called, the
elements given focus in order, and the error if it threw. -/
structure KeydownResult where
  defaultPrevented : Bool
  focused : List Nat
  error : Option JSError
  deriving DecidableEq, Repr

/-- The variables of `trapFocus(container)` that its `keydown` handler closes over (lines
89-92): `elements` is `getFocusableElements(container)`. -/
structure TrapFocus where
  container : Nat
  elements : List Nat
  deriving DecidableEq, Repr

namespace TrapFocus

/-- Line 91: `var first = elements[0]`. -/
def first (t : TrapFocus) : Option Nat := t.elements[0]?

/-- Line 92: `var last = elements[elements.length - 1]`, `undefined` for an empty array. -/
def last (t : TrapFocus) : Option Nat :=
  if t.elements.length = 0 then none else t.elements[t.elements.length - 1]?

/-- `trapFocusHandlers.keydown` (lines 106-119). -/
def keydown (t : TrapFocus) (event : KeyboardEvent) : KeydownResult :=
  if !event.isTab then ⟨false, [], none⟩
  else
    let forward : KeydownResult :=
      if decide (some event.target = t.last) && !event.shiftKey then
        match t.first with
        | some first => ⟨true, [first], none⟩
        | none => ⟨true, [], some .typeError⟩
      else ⟨false, [], none⟩
    match forward.error with
    | some _ => forward
    | none =>
      if (decide (event.target = t.container) || decide (some event.target = t.first))
          && event.shiftKey then
        match t.last with
        | some last => ⟨true, forward.focused ++ [last], none⟩
        | none => ⟨true, forward.focused, some .typeError⟩
      else forward

end TrapFocus

/-! ## `throttle` -/

/-- The function `throttle(fn, delay)` returns, with the variable `lastCall` it closes over.
Times are the integer milliseconds of `new Date().getTime()`. -/
structure Throttled (α β : Type) where
  fn : α → β
  delay : ℚ
  lastCall : Int

/-- `throttle(fn, delay)` (lines 291-301): `lastCall` starts at `0`. -/
def throttle {α β : Type} (fn : α → β) (delay : ℚ) : Throttled α β :=
  ⟨fn, delay, 0⟩

namespace Throttled

/-- One call of the throttled function at time `now` (lines 294-299); the result `none` is
the `undefined` of the bare `return`. -/
def call {α β : Type} (t : Throttled α β) (now : Int) (args : α) : Throttled α β × Option β :=
  if ((now - t.lastCall : Int) : ℚ) < t.delay then (t, none)
  else ({ t with lastCall := now }, some (t.fn args))

/-- The throttled function after a sequence of calls, each given as its time and arguments. -/
def after {α β : Type} (t : Throttled α β) : List (Int × α) → Throttled α β
  | [] => t
  | (now, args) :: rest => after (t.call now args).1 rest

/-- The times at which a sequence of calls invokes `fn`. -/
def invocations {α β : Type} (t : Throttled α β) : List (Int × α) → List Int
  | [] => []
  | (now, args) :: rest =>
    if (t.call now args).2.isSome then now :: invocations (t.call now args).1 rest
    else invocations (t.call now args).1 rest

end Throttled

/-! ## `BulkAdd` -/

/-- The three messages `validateQuantity` reports (`min_error`, `max_error`, `step_error` of
`window.quickOrderListStrings`). -/
inductive ValidationError where
  | minError
  | maxError
  | stepError
  deriving DecidableEq, Repr

/-- A quantity `<input>`, its strings read as the numbers the code converts them to:
`value` is `parseInt(value)`, `valueAttribute` is `getAttribute('value')` read the same way,
`min` is `dataset.min` as a number (the conversion `<` applies), `max` and `step` are
`parseInt(max)` and `parseInt(step)`. `index` is `dataset.index`, a variant id, given as the
natural number whose decimal string it is; `quantityId` is `n` when the `id` attribute is
`Quantity-n`. `customValidity` is the message set by `setCustomValidity`, `none` for `''`. -/
structure QuantityInput where
  quantityId : Option Nat
  value : JSVal
  valueAttribute : JSVal
  index : Nat
  min : JSVal
  max : JSVal
  step : JSVal
  customValidity : Option ValidationError
  deriving DecidableEq, Repr

/-- An entry `{ id, quantity }` of the queue. Every entry is an object of its own: `ref`
tells the objects apart, so that equal entries are the same object. `id` is the
`dataset.index` of an input, given as the natural number whose decimal string it is, so that
`parseInt(id)` is that number. -/
structure QueueItem where
  ref : Nat
  id : Nat
  quantity : JSVal
  deriving DecidableEq, Repr

/-- The object `items` of `sendRequest`: the value stored under each key, `none` for a key
that is not set. -/
abbrev ItemMap : Type := Nat → Option JSVal

/-- What the methods of `BulkAdd` do outside the component: calls of `reportValidity()` and
`select()` on the input at a position, `setInterval` and `clearInterval`, and the call of
`updateMultipleQty(items)`, a method the subclasses of `BulkAdd` define. -/
inductive BulkEffect where
  | reportValidity (target : Nat)
  | select (target : Nat)
  | setInterval (delay : JSVal)
  | clearInterval
  | updateMultipleQty (items : ItemMap)

/-- The fields of a `BulkAdd` element: `inputs` are the quantity inputs of the page in
document order, `allocated` counts the queue entries created so far. -/
structure BulkAdd where
  queue : List QueueItem
  requestStarted : Bool
  isEnterPressed : Option Bool
  inputs : List QuantityInput
  allocated : Nat

/-- Result of running a method of `BulkAdd`. -/
structure BulkOutcome where
  state : BulkAdd
  effects : List BulkEffect
  error : Option JSError

namespace BulkAdd

/-- The static field `ASYNC_REQUEST_DELAY` (line 1237). -/
def ASYNC_REQUEST_DELAY : JSVal := num 250

/-- The assignment `items[key] = value`. -/
def setItem (items : ItemMap) (key : Nat) (value : JSVal) : ItemMap :=
  fun k => if k = key then some value else items k

/-- `sendRequest(queue)` (lines 1260-1270); the key `parseInt(queueItem.id)` is the number
`queueItem.id`, and `includes` compares the entries as objects. -/
def sendRequest (b : BulkAdd) (queue : List QueueItem) : BulkOutcome :=
  let b := { b with requestStarted := true }
  let items : ItemMap :=
    queue.foldl (fun items queueItem => setItem items queueItem.id queueItem.quantity)
      (fun _ => none)
  let b := { b with queue := b.queue.filter fun queueElement => !queue.contains queueElement }
  ⟨b, [BulkEffect.updateMultipleQty items], none⟩

/-- `startQueue(id, quantity)` (lines 1246-1258): the entry is pushed and the interval set. -/
def startQueue (b : BulkAdd) (id : Nat) (quantity : JSVal) : BulkOutcome :=
  ⟨{ b with queue := b.queue ++ [⟨b.allocated, id, quantity⟩], allocated := b.allocated + 1 },
    [BulkEffect.setInterval ASYNC_REQUEST_DELAY], none⟩

/-- The callback `startQueue` passes to `setInterval` (lines 1249-1257). -/
def intervalTick (b : BulkAdd) : BulkOutcome :=
  if b.queue.length > 0 then
    if !b.requestStarted then sendRequest b b.queue else ⟨b, [], none⟩
  else ⟨b, [BulkEffect.clearInterval], none⟩

/-- The call `this.querySelector('#Quantity-' + id)` of line 1281: the position of the first
input whose `id` attribute is `Quantity-id`, `none` (`null`) when there is none. -/
def querySelector (b : BulkAdd) (id : Nat) : Option Nat :=
  (b.inputs.map fun input => input.quantityId).indexOf? (some id)

/-- `resetQuantityInput(id)` (lines 1280-1284). -/
def resetQuantityInput (b : BulkAdd) (id : Nat) : BulkOutcome :=
  match b.querySelector id with
  | none => ⟨b, [], some .typeError⟩
  | some position =>
    let inputs := b.inputs.modify (fun input => { input with value := input.valueAttribute }) position
    ⟨{ b with inputs := inputs, isEnterPressed := some false }, [], none⟩

/-- `setValidity(event, index, message)` (lines 1286-1291); `target` is the position of
`event.target` among the inputs. -/
def setValidity (b : BulkAdd) (target : Nat) (index : Nat)
    (message : Option ValidationError) : BulkOutcome :=
  let inputs := b.inputs.modify (fun input => { input with customValidity := message }) target
  let b := { b with inputs := inputs }
  let reset := resetQuantityInput b index
  match reset.error with
  | some e => ⟨reset.state, [BulkEffect.reportValidity target], some e⟩
  | none => ⟨reset.state, [BulkEffect.reportValidity target, BulkEffect.select target], none⟩

/-- `validateQuantity(event)` (lines 1293-1309); `target` is the position of `event.target`
among the inputs (an event always has a target: a position outside the list is an error). -/
def validateQuantity (b : BulkAdd) (target : Nat) : BulkOutcome :=
  match b.inputs[target]? with
  | none => ⟨b, [], some .typeError⟩
  | some input =>
    let inputValue := input.value
    let index := input.index
    if lt inputValue input.min then setValidity b target index (some .minError)
    else if lt input.max inputValue then setValidity b target index (some .maxError)
    else if looseNe (mod inputValue input.step) (num 0) then
      setValidity b target index (some .stepError)
    else
      let inputs := b.inputs.modify
        (fun input => { input with customValidity := none, valueAttribute := inputValue }) target
      let started := startQueue { b with inputs := inputs } index inputValue
      ⟨started.state, BulkEffect.reportValidity target :: started.effects, none⟩

end BulkAdd

/-! ## A concrete `BulkAdd` -/

/-- A `BulkAdd` element as constructed, over two quantity inputs: `#Quantity-7` (value
attribute `2`, between `2` and `10` in steps of `2`) in which `4` has been entered, and
`#Quantity-8` (value attribute `1`, between `1` and `5` in steps of `1`) in which `9` has been
entered. -/
def twoInputs : BulkAdd :=
  { queue := []
    requestStarted := false
    isEnterPressed := none
    inputs := [⟨some 7, num 4, num 2, 7, num 2, num 10, num 2, none⟩,
      ⟨some 8, num 9, num 1, 8, num 1, num 5, num 1, none⟩]
    allocated := 0 }

/-! ## Frame lemmas -/

/-- `updateDots` touches the dots only. -/
theorem updateDots_eq (c : SliderComponent) :
    updateDots c = { c with dots := (updateDots c).dots } := by
  unfold updateDots
  dsimp only
  repeat' split
  all_goals rfl

/-- `updateCounter` touches the two counter elements only. -/
theorem updateCounter_eq (c : SliderComponent) :
    updateCounter c = { c with currentPageElement := (updateCounter c).currentPageElement,
                               pageTotalElement := (updateCounter c).pageTotalElement } := by
  unfold updateCounter
  split <;> rfl

/-- `updateButtons` touches the two buttons only. -/
theorem updateButtons_eq (c : SliderComponent) (s : SliderElement) (effs : List Effect) :
    (updateButtons c s effs).state =
      { c with prevButton := (updateButtons c s effs).state.prevButton,
               nextButton := (updateButtons c s effs).state.nextButton } := by
  unfold updateButtons
  dsimp only
  repeat' split
  all_goals rfl

/-- `updateButtons` passes the effects through. -/
theorem updateButtons_effects (c : SliderComponent) (s : SliderElement) (effs : List Effect) :
    (updateButtons c s effs).effects = effs := by
  unfold updateButtons
  dsimp only
  repeat' split
  all_goals rfl

/-- `updateButtons` neither creates nor removes a button. -/
theorem updateButtons_isSome (c : SliderComponent) (s : SliderElement) (effs : List Effect) :
    (updateButtons c s effs).state.prevButton.isSome = c.prevButton.isSome ∧
    (updateButtons c s effs).state.nextButton.isSome = c.nextButton.isSome := by
  unfold updateButtons
  dsimp only
  repeat' split
  all_goals simp_all

/-- `initDots` touches the dots only. -/
theorem initDots_eq (c : SliderComponent) :
    (initDots c).state = { c with dots := (initDots c).state.dots } := by
  unfold initDots
  repeat' split
  all_goals rfl

/-- `initDots` completes unless the container is missing or `totalPages` is `+Infinity`. -/
theorem initDots_error (c : SliderComponent) (hc : c.dotsContainer = true)
    (ht : c.totalPages ≠ posInf) : (initDots c).error = none := by
  unfold initDots
  rw [if_pos hc]
  cases h : c.totalPages <;> simp_all [loopCount]

/-- Frame of `update()`: apart from `currentPage`, the dots, the two counter texts and the two
buttons nothing changes. -/
theorem update_eq (c : SliderComponent) :
    (update c).state =
      { c with currentPage := (update c).state.currentPage,
               dots := (update c).state.dots,
               currentPageElement := (update c).state.currentPageElement,
               pageTotalElement := (update c).state.pageTotalElement,
               prevButton := (update c).state.prevButton,
               nextButton := (update c).state.nextButton } := by
  unfold update
  split
  · rfl
  · rfl
  · dsimp only
    rw [updateDots_eq, updateCounter_eq]
    repeat' split
    all_goals first
      | rfl
      | (rw [updateButtons_eq])

/-- The page `update()` stores once its guard has passed. -/
theorem update_currentPage (c : SliderComponent) (s : SliderElement) (nb : Button)
    (hs : c.slider = some s) (hn : c.nextButton = some nb) :
    (update c).state.currentPage =
      add (round (div (num s.scrollLeft) c.sliderItemOffset)) (num 1) := by
  unfold update
  simp only [hs, hn]
  rw [updateDots_eq, updateCounter_eq]
  repeat' split
  all_goals first
    | rfl
    | (rw [updateButtons_eq])

/-- The events `update()` dispatches once its guard has passed and the visible slides are set. -/
theorem update_effects (c : SliderComponent) (s : SliderElement) (nb : Button)
    (items : List Slide) (hs : c.slider = some s) (hn : c.nextButton = some nb)
    (hitems : c.sliderItemsToShow = some items) :
    (update c).effects =
      if looseNe (add (round (div (num s.scrollLeft) c.sliderItemOffset)) (num 1)) c.currentPage
      then [Effect.slideChanged (add (round (div (num s.scrollLeft) c.sliderItemOffset)) (num 1))
        (jsIndex items
          (sub (add (round (div (num s.scrollLeft) c.sliderItemOffset)) (num 1)) (num 1)))]
      else [] := by
  unfold update
  simp only [hs, hn]
  rw [updateDots_eq, updateCounter_eq]
  simp only [hitems]
  split
  · split
    · rfl
    · rw [updateButtons_effects]
  · split
    · rfl
    · rw [updateButtons_effects]

/-- The two buttons after `update()` with looping disabled, all elements present and at least
one visible slide: the call completes and sets both `disabled` flags. -/
theorem update_buttons (c : SliderComponent) (s : SliderElement) (pb nb : Button)
    (first : Slide) (rest : List Slide)
    (hloop : c.enableSliderLooping = false) (hs : c.slider = some s)
    (hp : c.prevButton = some pb) (hn : c.nextButton = some nb)
    (hitems : c.sliderItemsToShow = some (first :: rest)) :
    (update c).error = none ∧
    ∃ pb' nb', (update c).state.prevButton = some pb' ∧ (update c).state.nextButton = some nb' ∧
      (pb'.disabled = true ↔
        (s.scrollLeft = 0 ∧ s.scrollLeft ≤ first.offsetLeft ∧
          (first.offsetLeft : ℚ) + first.clientWidth ≤ s.clientWidth + s.scrollLeft)) ∧
      (nb'.disabled = true ↔
        (s.scrollLeft ≤ ((first :: rest).getLast (List.cons_ne_nil first rest)).offsetLeft ∧
          (((first :: rest).getLast (List.cons_ne_nil first rest)).offsetLeft : ℚ) +
            ((first :: rest).getLast (List.cons_ne_nil first rest)).clientWidth
              ≤ s.clientWidth + s.scrollLeft)) := by
  have hlast : (first :: rest).getLast? =
      some ((first :: rest).getLast (List.cons_ne_nil first rest)) :=
    List.getLast?_eq_getLast _ _
  unfold update
  simp only [hs, hn]
  rw [updateDots_eq, updateCounter_eq]
  simp only [hitems, hloop]
  split <;>
    simp [updateButtons, hitems, hp, hn, isSlideVisible, hlast] <;> tauto

@[simp]
theorem initDots_slider (c : SliderComponent) :
    (initDots c).state.slider = c.slider := by
  rw [initDots_eq]

@[simp]
theorem initDots_sliderItems (c : SliderComponent) :
    (initDots c).state.sliderItems = c.sliderItems := by
  rw [initDots_eq]

@[simp]
theorem initDots_enableSliderLooping (c : SliderComponent) :
    (initDots c).state.enableSliderLooping = c.enableSliderLooping := by
  rw [initDots_eq]

@[simp]
theorem initDots_currentPageElement (c : SliderComponent) :
    (initDots c).state.currentPageElement = c.currentPageElement := by
  rw [initDots_eq]

@[simp]
theorem initDots_pageTotalElement (c : SliderComponent) :
    (initDots c).state.pageTotalElement = c.pageTotalElement := by
  rw [initDots_eq]

@[simp]
theorem initDots_prevButton (c : SliderComponent) :
    (initDots c).state.prevButton = c.prevButton := by
  rw [initDots_eq]

@[simp]
theorem initDots_nextButton (c : SliderComponent) :
    (initDots c).state.nextButton = c.nextButton := by
  rw [initDots_eq]

@[simp]
theorem initDots_dotsContainer (c : SliderComponent) :
    (initDots c).state.dotsContainer = c.dotsContainer := by
  rw [initDots_eq]

@[simp]
theorem initDots_sliderItemsToShow (c : SliderComponent) :
    (initDots c).state.sliderItemsToShow = c.sliderItemsToShow := by
  rw [initDots_eq]

@[simp]
theorem initDots_sliderItemOffset (c : SliderComponent) :
    (initDots c).state.sliderItemOffset = c.sliderItemOffset := by
  rw [initDots_eq]

@[simp]
theorem initDots_slidesPerPage (c : SliderComponent) :
    (initDots c).state.slidesPerPage = c.slidesPerPage := by
  rw [initDots_eq]

@[simp]
theorem initDots_totalPages (c : SliderComponent) :
    (initDots c).state.totalPages = c.totalPages := by
  rw [initDots_eq]

@[simp]
theorem initDots_currentPage (c : SliderComponent) :
    (initDots c).state.currentPage = c.currentPage := by
  rw [initDots_eq]

@[simp]
theorem update_slider (c : SliderComponent) :
    (update c).state.slider = c.slider := by
  rw [update_eq]

@[simp]
theorem update_sliderItems (c : SliderComponent) :
    (update c).state.sliderItems = c.sliderItems := by
  rw [update_eq]

@[simp]
theorem update_enableSliderLooping (c : SliderComponent) :
    (update c).state.enableSliderLooping = c.enableSliderLooping := by
  rw [update_eq]

@[simp]
theorem update_dotsContainer (c : SliderComponent) :
    (update c).state.dotsContainer = c.dotsContainer := by
  rw [update_eq]

@[simp]
theorem update_sliderItemsToShow (c : SliderComponent) :
    (update c).state.sliderItemsToShow = c.sliderItemsToShow := by
  rw [update_eq]

@[simp]
theorem update_sliderItemOffset (c : SliderComponent) :
    (update c).state.sliderItemOffset = c.sliderItemOffset := by
  rw [update_eq]

@[simp]
theorem update_slidesPerPage (c : SliderComponent) :
    (update c).state.slidesPerPage = c.slidesPerPage := by
  rw [update_eq]

@[simp]
theorem update_totalPages (c : SliderComponent) :
    (update c).state.totalPages = c.totalPages := by
  rw [update_eq]

/-- The pager fields `initPages()` computes from two leading visible slides. -/
theorem initPages_of_two (c : SliderComponent) (s : SliderElement) (first second : Slide)
    (rest : List Slide) (hs : c.slider = some s)
    (hvis : c.sliderItems.filter isShown
      = first :: second :: rest)
    (hdots : c.dotsContainer = true → c.totalPages ≠ posInf) :
    ∃ ds, initPages c = update { c with
      sliderItemsToShow := some (first :: second :: rest),
      sliderItemOffset := num ((second.offsetLeft - first.offsetLeft : Int) : ℚ),
      slidesPerPage := floor (div (num ((s.clientWidth - first.offsetLeft : Int) : ℚ))
        (num ((second.offsetLeft - first.offsetLeft : Int) : ℚ))),
      dots := ds,
      totalPages := add (sub (num ((first :: second :: rest).length : ℚ))
        (floor (div (num ((s.clientWidth - first.offsetLeft : Int) : ℚ))
          (num ((second.offsetLeft - first.offsetLeft : Int) : ℚ))))) (num 1) } := by
  unfold initPages
  simp only [hvis, hs]
  by_cases hc : c.dotsContainer = true
  · simp only [hc, if_true]
    rw [initDots_error, initDots_eq]
    · exact ⟨_, rfl⟩
    · rfl
    · exact hdots hc
  · simp only [hc]
    exact ⟨c.dots, rfl⟩

/-- With fewer than two visible slides `initPages()` only records the visible slides. -/
theorem initPages_of_few (c : SliderComponent)
    (hvis : (c.sliderItems.filter isShown).length < 2) :
    initPages c =
      { state := { c with sliderItemsToShow := some (c.sliderItems.filter
          isShown) },
        effects := [], error := none } := by
  unfold initPages
  dsimp only
  split
  · rename_i h
    rw [h] at hvis
    simp only [List.length_cons] at hvis
    omega
  · rfl

/-- What `initPages()` always does first: record the visible slides. -/
theorem initPages_sliderItemsToShow (c : SliderComponent) :
    (initPages c).state.sliderItemsToShow =
      some (c.sliderItems.filter isShown) := by
  unfold initPages
  dsimp only
  repeat' split
  all_goals simp

/-- `update()` neither creates nor removes a button. -/
theorem update_isSome (c : SliderComponent) :
    (update c).state.prevButton.isSome = c.prevButton.isSome ∧
    (update c).state.nextButton.isSome = c.nextButton.isSome := by
  unfold update
  split
  · exact ⟨rfl, rfl⟩
  · exact ⟨rfl, rfl⟩
  · dsimp only
    rw [updateDots_eq, updateCounter_eq]
    repeat' split
    all_goals first
      | exact ⟨rfl, rfl⟩
      | exact updateButtons_isSome _ _ _

/-- A list with at least two elements starts with two elements. -/
theorem exists_two_of_length {α : Type} (l : List α) (h : 2 ≤ l.length) :
    ∃ a b r, l = a :: b :: r := by
  match l, h with
  | a :: b :: r, _ => exact ⟨a, b, r, rfl⟩

/-- The page `update()` stores for a positive item offset, as an integer floor. -/
theorem update_currentPage_of_pos (c : SliderComponent) (s : SliderElement) (nb : Button)
    (d : ℚ) (hs : c.slider = some s) (hn : c.nextButton = some nb)
    (hoff : c.sliderItemOffset = num d) (hd : 0 < d) :
    (update c).state.currentPage = num ((⌊s.scrollLeft / d + 1 / 2⌋ : Int) + 1) := by
  rw [update_currentPage c s nb hs hn, hoff]
  simp [JSVal.div, JSVal.round, JSVal.add, hd.ne']

/-- The buttons after `update()` in terms of the first and last visible slide: with looping disabled, all elements present and at least one visible slide, `update()`
completes and leaves the previous button disabled exactly when `scrollLeft = 0` and the first
visible slide lies inside the viewport (left edge at or after `scrollLeft`, right edge at or
before `scrollLeft + clientWidth`), and the next button disabled exactly when the last visible
slide lies inside the viewport. -/
theorem update_buttons_of_ends (c : SliderComponent) (s : SliderElement) (pb nb : Button)
    (items : List Slide) (first last : Slide)
    (hloop : c.enableSliderLooping = false) (hs : c.slider = some s)
    (hp : c.prevButton = some pb) (hn : c.nextButton = some nb)
    (hitems : c.sliderItemsToShow = some items)
    (hfirst : items.head? = some first) (hlast : items.getLast? = some last) :
    (update c).error = none ∧
    ∃ pb' nb', (update c).state.prevButton = some pb' ∧ (update c).state.nextButton = some nb' ∧
      (pb'.disabled = true ↔
        (s.scrollLeft = 0 ∧ s.scrollLeft ≤ first.offsetLeft ∧
          (first.offsetLeft : ℚ) + first.clientWidth ≤ s.clientWidth + s.scrollLeft)) ∧
      (nb'.disabled = true ↔
        (s.scrollLeft ≤ last.offsetLeft ∧
          (last.offsetLeft : ℚ) + last.clientWidth ≤ s.clientWidth + s.scrollLeft)) := by
  match items, hfirst with
  | x :: rest, hfirst =>
    have hx : x = first := by simpa using hfirst
    subst hx
    have hl : (x :: rest).getLast (List.cons_ne_nil x rest) = last := by
      have := List.getLast?_eq_getLast (x :: rest) (List.cons_ne_nil x rest)
      rw [hlast] at this
      exact (Option.some.inj this).symm
    have h := update_buttons c s pb nb x rest hloop hs hp hn hitems
    rw [hl] at h
    exact h


/-- Exact dispatch condition of `update()`: once its guard has passed, `update()` dispatches `slideChanged` exactly when the newly
computed `currentPage` differs from the one held before the call (JavaScript `!=`: the values
are different, or the new page is `NaN`, which compares unequal to every value); it dispatches
at most one event, whose detail carries the new `currentPage` and the visible slide at index
`currentPage - 1` (`undefined` when there is none). -/
theorem update_effects_iff (c : SliderComponent) (s : SliderElement) (nb : Button)
    (items : List Slide) (hs : c.slider = some s) (hn : c.nextButton = some nb)
    (hitems : c.sliderItemsToShow = some items) :
    ((∃ page element, Effect.slideChanged page element ∈ (update c).effects) ↔
      looseNe (update c).state.currentPage c.currentPage = true) ∧
    (looseNe (update c).state.currentPage c.currentPage = true ↔
      ((update c).state.currentPage ≠ c.currentPage ∨ (update c).state.currentPage = nan)) ∧
    (∀ effect ∈ (update c).effects, effect = Effect.slideChanged (update c).state.currentPage
      (jsIndex items (sub (update c).state.currentPage (num 1)))) ∧
    (update c).effects.length ≤ 1 := by
  rw [update_effects c s nb items hs hn hitems, update_currentPage c s nb hs hn]
  generalize add (round (div (num s.scrollLeft) c.sliderItemOffset)) (num 1) = page
  refine ⟨?_, ?_, ?_, ?_⟩
  · split <;> simp_all
  · cases page <;> cases h : c.currentPage <;> simp [looseNe, strictEq]
  · split <;> simp
  · split <;> simp


/-- Length of an equally spaced row. -/
theorem equallySpaced_length (off0 d w : Int) (n : Nat) :
    (equallySpaced off0 d w n).length = n := by
  simp [equallySpaced]

/-- Element `k` of an equally spaced row. -/
theorem equallySpaced_getElem? (off0 d w : Int) (n k : Nat) (hk : k < n) :
    (equallySpaced off0 d w n)[k]? = some ⟨k, off0 + k * d, w⟩ := by
  simp [equallySpaced, List.getElem?_range hk]

/-- All slides of a row of positive width are shown. -/
theorem equallySpaced_filter (off0 d w : Int) (n : Nat) (hw : 0 < w) :
    (equallySpaced off0 d w n).filter isShown = equallySpaced off0 d w n := by
  rw [List.filter_eq_self]
  intro a ha
  simp only [equallySpaced, List.mem_map] at ha
  obtain ⟨k, _, rfl⟩ := ha
  simpa [isShown] using hw

/-- The first two slides of a row of at least two. -/
theorem equallySpaced_two (off0 d w : Int) (n : Nat) (hN : 2 ≤ n) :
    ∃ rest, equallySpaced off0 d w n = ⟨0, off0, w⟩ :: ⟨1, off0 + d, w⟩ :: rest := by
  obtain ⟨a, b, r, h⟩ := exists_two_of_length (equallySpaced off0 d w n)
    (by rw [equallySpaced_length]; exact hN)
  have h0 := equallySpaced_getElem? off0 d w n 0 (by omega)
  have h1 := equallySpaced_getElem? off0 d w n 1 (by omega)
  rw [h] at h0 h1
  simp at h0 h1
  exact ⟨r, by rw [h, h0, h1]⟩

/-- The last slide of a non-empty row. -/
theorem equallySpaced_getLast? (off0 d w : Int) (n : Nat) (hN : 0 < n) :
    (equallySpaced off0 d w n).getLast? = some ⟨n - 1, off0 + ((n - 1 : Nat) : Int) * d, w⟩ := by
  rw [List.getLast?_eq_getElem?, equallySpaced_length]
  exact equallySpaced_getElem? off0 d w n (n - 1) (by omega)

/-- The state `initPages()` leaves on an equally spaced row of at least two shown slides with
positive spacing: the row is recorded, the item offset is the spacing, and `totalPages` is
`n - floor((clientWidth - off0) / d) + 1`. -/
theorem initPages_equallySpaced (c : SliderComponent) (s : SliderElement) (off0 d w : Int)
    (n : Nat) (hs : c.slider = some s) (hitems : c.sliderItems = equallySpaced off0 d w n)
    (hN : 2 ≤ n) (hd : 0 < d) (hw : 0 < w)
    (hdots : c.dotsContainer = true → c.totalPages ≠ posInf) :
    (initPages c).state.slider = some s ∧
    (initPages c).state.sliderItemsToShow = some (equallySpaced off0 d w n) ∧
    (initPages c).state.sliderItemOffset = num (d : ℚ) ∧
    (initPages c).state.totalPages
      = num ((n : ℚ) - (⌊((s.clientWidth - off0 : Int) : ℚ) / (d : ℚ)⌋ : Int) + 1) ∧
    (initPages c).state.enableSliderLooping = c.enableSliderLooping ∧
    (initPages c).state.prevButton.isSome = c.prevButton.isSome ∧
    (initPages c).state.nextButton.isSome = c.nextButton.isSome := by
  obtain ⟨rest, hrow⟩ := equallySpaced_two off0 d w n hN
  have hvis : c.sliderItems.filter isShown = ⟨0, off0, w⟩ :: ⟨1, off0 + d, w⟩ :: rest := by
    rw [hitems, equallySpaced_filter off0 d w n hw, hrow]
  obtain ⟨ds, h⟩ := initPages_of_two c s _ _ rest hs hvis hdots
  have hlen : (((⟨0, off0, w⟩ : Slide) :: ⟨1, off0 + d, w⟩ :: rest).length : ℚ) = n := by
    rw [← hrow, equallySpaced_length]
  have hdq : ((off0 + d - off0 : Int) : ℚ) = (d : ℚ) := by
    push_cast
    ring
  have hdne : (d : ℚ) ≠ 0 := by
    exact_mod_cast hd.ne'
  rw [h]
  refine ⟨?_, ?_, ?_, ?_, ?_, ?_, ?_⟩
  · rw [update_slider]
    exact hs
  · rw [update_sliderItemsToShow, hrow]
  · rw [update_sliderItemOffset]
    simp only [hdq]
  · rw [update_totalPages]
    simp only [hdq, hlen, JSVal.div, if_neg hdne, JSVal.floor, JSVal.sub, JSVal.neg, JSVal.add]
    congr 1
    ring
  · rw [update_enableSliderLooping]
  · exact (update_isSome _).1
  · exact (update_isSome _).2

/-- Scrolling changes the slider's `scrollLeft` only. -/
theorem scrolledTo_slider (c : SliderComponent) (s : SliderElement) (x : ℚ)
    (hs : c.slider = some s) : (scrolledTo c x).slider = some ⟨s.clientWidth, x⟩ := by
  simp [scrolledTo, hs]

/-- Rounding a non-negative quotient gives a non-negative integer. -/
theorem floor_half_nonneg (x d : ℚ) (hx : 0 ≤ x) (hd : 0 < d) : 0 ≤ ⌊x / d + 1 / 2⌋ := by
  apply Int.floor_nonneg.mpr
  have := div_nonneg hx hd.le
  linarith

/-! ## Claims -/

/-- C1: with at least two visible slides (slider present, dot creation terminating),
after `initPages()` the field `totalPages` is `N - slidesPerPage + 1`, `N` the number of
visible slides and `slidesPerPage` the field `initPages()` has just computed. -/
theorem initPages_totalPages (c : SliderComponent) (s : SliderElement)
    (hs : c.slider = some s)
    (hN : 2 ≤ (c.sliderItems.filter isShown).length)
    (hdots : c.dotsContainer = true → c.totalPages ≠ posInf) :
    (initPages c).state.totalPages =
      add (sub (num ((c.sliderItems.filter isShown).length : ℚ))
        (initPages c).state.slidesPerPage) (num 1) := by
  obtain ⟨first, second, rest, hvis⟩ := exists_two_of_length _ hN
  obtain ⟨ds, h⟩ := initPages_of_two c s first second rest hs hvis hdots
  rw [h, hvis, update_totalPages, update_slidesPerPage]

/-- Witness of C1: five slides, two per page, four pages. -/
theorem initPages_totalPages_witness :
    (initPages fiveSlides).state.totalPages =
      add (sub (num ((fiveSlides.sliderItems.filter isShown).length : ℚ))
        (initPages fiveSlides).state.slidesPerPage) (num 1) :=
  initPages_totalPages fiveSlides ⟨200, 0⟩ rfl (by decide) (by decide)

/-- C2 (amended): on a row of `n ≥ 2` equally spaced slides (spacing `d > 0`, width
`0 < w ≤ d`) on which `initPages()` has left `totalPages ≥ 1`, every `update()` at a scroll
offset between `0` and the largest offset of the content (right edge of the last slide minus
the viewport width, `0` if the content fits) leaves `1 ≤ currentPage ≤ totalPages`. -/
theorem currentPage_in_range (c : SliderComponent) (s : SliderElement) (nb : Button)
    (off0 d w : Int) (n : Nat) (x : ℚ)
    (hs : c.slider = some s) (hn : c.nextButton = some nb)
    (hitems : c.sliderItems = equallySpaced off0 d w n)
    (hN : 2 ≤ n) (hd : 0 < d) (hw : 0 < w) (hwd : w ≤ d)
    (hdots : c.dotsContainer = true → c.totalPages ≠ posInf)
    (htotal : le (num 1) (initPages c).state.totalPages = true)
    (hx0 : 0 ≤ x)
    (hx1 : x ≤ max 0 ((off0 + ((n : Int) - 1) * d + w - s.clientWidth : Int) : ℚ)) :
    le (num 1) (update (scrolledTo (initPages c).state x)).state.currentPage = true ∧
    le (update (scrolledTo (initPages c).state x)).state.currentPage
      (update (scrolledTo (initPages c).state x)).state.totalPages = true := by
  obtain ⟨h1, _, h3, h4, _, _, h7⟩ := initPages_equallySpaced c s off0 d w n hs hitems hN hd hw hdots
  have hdq : (0 : ℚ) < d := by exact_mod_cast hd
  have hnb : ∃ nb', (initPages c).state.nextButton = some nb' := by
    rw [hn] at h7
    exact Option.isSome_iff_exists.mp h7
  obtain ⟨nb', hnb'⟩ := hnb
  have hpage := update_currentPage_of_pos (scrolledTo (initPages c).state x)
    ⟨s.clientWidth, x⟩ nb' d (scrolledTo_slider _ s x h1) hnb' h3 hdq
  have htot : (update (scrolledTo (initPages c).state x)).state.totalPages
      = num ((n : ℚ) - (⌊((s.clientWidth - off0 : Int) : ℚ) / (d : ℚ)⌋ : Int) + 1) := by
    rw [update_totalPages]
    exact h4
  rw [h4] at htotal
  rw [hpage, htot]
  simp only [JSVal.le, decide_eq_true_eq] at htotal ⊢
  have hfl := floor_half_nonneg x d hx0 hdq
  have hflq : (0 : ℚ) ≤ (⌊x / d + 1 / 2⌋ : Int) := by exact_mod_cast hfl
  refine ⟨by linarith, ?_⟩
  -- the upper bound: `floor (x/d + 1/2) + floor ((C - off0)/d) ≤ n`
  have key : ⌊x / (d : ℚ) + 1 / 2⌋ + ⌊((s.clientWidth - off0 : Int) : ℚ) / (d : ℚ)⌋ ≤ (n : Int) := by
    rcases le_max_iff.mp hx1 with hx | hx
    · have hx' : x = 0 := le_antisymm hx hx0
      have hz : ⌊x / (d : ℚ) + 1 / 2⌋ = 0 := by
        rw [hx', zero_div, zero_add, Int.floor_eq_iff]
        norm_num
      rw [hz, zero_add]
      have : ((⌊((s.clientWidth - off0 : Int) : ℚ) / (d : ℚ)⌋ : Int) : ℚ) ≤ (n : ℚ) := by
        linarith
      exact_mod_cast this
    · have hsum := Int.le_floor_add (x / (d : ℚ) + 1 / 2) (((s.clientWidth - off0 : Int) : ℚ) / (d : ℚ))
      have hle : x / (d : ℚ) + 1 / 2 + ((s.clientWidth - off0 : Int) : ℚ) / (d : ℚ)
          < ((n + 1 : Int) : ℚ) := by
        have hwq : (w : ℚ) ≤ d := by exact_mod_cast hwd
        have hsumdiv : x / (d : ℚ) + ((s.clientWidth - off0 : Int) : ℚ) / (d : ℚ) ≤ (n : ℚ) := by
          rw [← add_div, div_le_iff₀ hdq]
          push_cast at hx ⊢
          linarith
        push_cast at hsumdiv ⊢
        linarith
      have := Int.floor_lt.mpr hle
      omega
  have keyq : ((⌊x / (d : ℚ) + 1 / 2⌋ : Int) : ℚ)
      + ((⌊((s.clientWidth - off0 : Int) : ℚ) / (d : ℚ)⌋ : Int) : ℚ) ≤ (n : ℚ) := by
    exact_mod_cast key
  linarith

/-- Witness of C2 (amended): the five-slide layout at scroll offset 250. -/
theorem currentPage_in_range_witness :
    le (num 1) (update (scrolledTo (initPages fiveSlides).state 250)).state.currentPage = true ∧
    le (update (scrolledTo (initPages fiveSlides).state 250)).state.currentPage
      (update (scrolledTo (initPages fiveSlides).state 250)).state.totalPages = true :=
  currentPage_in_range fiveSlides ⟨200, 0⟩ ⟨false⟩ 0 100 100 5 250 rfl rfl rfl
    (by decide) (by decide) (by decide) (by decide) (by decide) (by decide!)
    (by norm_num) (by norm_num)

/-- C2 (counterexample): two slides of width 100 in a viewport of width 1000. After
`initPages()`, `update()` at scroll offset 0 completes with `currentPage = 1` and
`totalPages = -7`, so `currentPage <= totalPages` is false. -/
theorem currentPage_above_totalPages :
    2 ≤ (wideViewport.sliderItems.filter isShown).length ∧
    (initPages wideViewport).error = none ∧
    (update (scrolledTo (initPages wideViewport).state 0)).error = none ∧
    (update (scrolledTo (initPages wideViewport).state 0)).state.currentPage = num 1 ∧
    (update (scrolledTo (initPages wideViewport).state 0)).state.totalPages = num (-7) ∧
    le (update (scrolledTo (initPages wideViewport).state 0)).state.currentPage
      (update (scrolledTo (initPages wideViewport).state 0)).state.totalPages = false := by
  decide!

/-- C3: once the guard of `update()` has passed, with an item offset `d > 0`, the stored
`currentPage` is `round(scrollLeft / d) + 1`, `round` being `floor (x + 1/2)`: the nearest
integer, a tie going up. -/
theorem update_currentPage_round (c : SliderComponent) (s : SliderElement) (nb : Button)
    (d : ℚ) (hs : c.slider = some s) (hn : c.nextButton = some nb)
    (hoff : c.sliderItemOffset = num d) (hd : 0 < d) :
    (update c).state.currentPage = num ((⌊s.scrollLeft / d + 1 / 2⌋ : Int) + 1) :=
  update_currentPage_of_pos c s nb d hs hn hoff hd

/-- Witness of C3: scroll offset 250 with slides 100 apart. -/
theorem update_currentPage_round_witness :
    (update (scrolledTo (initPages fiveSlides).state 250)).state.currentPage
      = num ((⌊(250 : ℚ) / 100 + 1 / 2⌋ : Int) + 1) :=
  update_currentPage_round (scrolledTo (initPages fiveSlides).state 250) ⟨200, 250⟩ ⟨false⟩ 100
    (by decide!) (by decide!) (by decide!) (by norm_num)

/-- C4: a click on dot `i` requests the scroll position `i * d`, and `update()` at
`scrollLeft = i * d` stores `currentPage = i + 1` (item offset `d > 0`). -/
theorem onDotClick_lands_on_page (c : SliderComponent) (s : SliderElement) (nb : Button)
    (d : ℚ) (i : Nat) (hs : c.slider = some s) (hn : c.nextButton = some nb)
    (hoff : c.sliderItemOffset = num d) (hd : 0 < d) :
    (onDotClick c i).effects = [Effect.scrollTo (num (i * d))] ∧
    (onDotClick c i).error = none ∧
    (update (scrolledTo c (i * d))).state.currentPage = num ((i : ℚ) + 1) := by
  refine ⟨?_, ?_, ?_⟩
  · simp [onDotClick, setSlidePosition, hs, hoff, JSVal.mul]
  · simp [onDotClick, setSlidePosition, hs]
  · have h := update_currentPage_of_pos (scrolledTo c (i * d)) ⟨s.clientWidth, i * d⟩ nb d
      (by simp [scrolledTo, hs]) (by simpa [scrolledTo] using hn)
      (by simpa [scrolledTo] using hoff) hd
    rw [h]
    have hfl : ⌊(i : ℚ) * d / d + 1 / 2⌋ = (i : Int) := by
      rw [mul_div_assoc, div_self hd.ne', mul_one, Int.floor_eq_iff]
      constructor <;> push_cast <;> linarith
    simp only [hfl]
    push_cast
    rfl

/-- Witness of C4, the example of the specification: five slides, two per page, give
`totalPages = 4`, and `scrollLeft = 2 * itemOffset` gives `currentPage = 3`. -/
theorem onDotClick_lands_on_page_witness :
    (initPages fiveSlides).state.totalPages = num 4 ∧
    (initPages fiveSlides).state.slidesPerPage = num 2 ∧
    ((onDotClick (initPages fiveSlides).state 2).effects
        = [Effect.scrollTo (num (((2 : Nat) : ℚ) * 100))] ∧
      (onDotClick (initPages fiveSlides).state 2).error = none ∧
      (update (scrolledTo (initPages fiveSlides).state (((2 : Nat) : ℚ) * 100))).state.currentPage
        = num (((2 : Nat) : ℚ) + 1)) :=
  ⟨by decide!, by decide!,
    onDotClick_lands_on_page (initPages fiveSlides).state ⟨200, 0⟩ ⟨false⟩ 100 2
      (by decide!) (by decide!) (by decide!) (by norm_num)⟩

/-- C5: after `initPages()` the list `sliderItemsToShow` is the sublist of `sliderItems` made of
exactly the items of positive `clientWidth`, in their order. -/
theorem initPages_filters_hidden (c : SliderComponent) :
    ∃ shown, (initPages c).state.sliderItemsToShow = some shown ∧
      shown = c.sliderItems.filter (fun element => decide (0 < element.clientWidth)) ∧
      shown.Sublist c.sliderItems ∧
      ∀ element, element ∈ shown ↔ (element ∈ c.sliderItems ∧ 0 < element.clientWidth) := by
  refine ⟨c.sliderItems.filter isShown, initPages_sliderItemsToShow c, ?_, ?_, ?_⟩
  · rfl
  · exact List.filter_sublist _
  · intro element
    simp [List.mem_filter, isShown]

/-- C6: with at least two visible slides and the slider present, `initPages()` sets
`sliderItemOffset` to the difference of the `offsetLeft` of the second and the first visible
slide, and `slidesPerPage` to `Math.floor((slider.clientWidth - first.offsetLeft) /
sliderItemOffset)`; for a non-zero offset that is the integer floor of the exact quotient. -/
theorem initPages_offset_slidesPerPage (c : SliderComponent) (s : SliderElement)
    (first second : Slide) (rest : List Slide) (hs : c.slider = some s)
    (hvis : c.sliderItems.filter isShown = first :: second :: rest) :
    (initPages c).state.sliderItemOffset
      = num ((second.offsetLeft - first.offsetLeft : Int) : ℚ) ∧
    (initPages c).state.slidesPerPage
      = floor (div (num ((s.clientWidth - first.offsetLeft : Int) : ℚ))
          (initPages c).state.sliderItemOffset) ∧
    (second.offsetLeft - first.offsetLeft ≠ 0 →
      (initPages c).state.slidesPerPage
        = num (⌊((s.clientWidth - first.offsetLeft : Int) : ℚ)
            / ((second.offsetLeft - first.offsetLeft : Int) : ℚ)⌋ : Int)) := by
  have hoff : (initPages c).state.sliderItemOffset
      = num ((second.offsetLeft - first.offsetLeft : Int) : ℚ) := by
    unfold initPages
    simp only [hvis, hs]
    repeat' split
    all_goals simp
  have hspp : (initPages c).state.slidesPerPage
      = floor (div (num ((s.clientWidth - first.offsetLeft : Int) : ℚ))
          (num ((second.offsetLeft - first.offsetLeft : Int) : ℚ))) := by
    unfold initPages
    simp only [hvis, hs]
    repeat' split
    all_goals simp
  refine ⟨hoff, ?_, ?_⟩
  · rw [hspp, hoff]
  · intro hne
    have hq : ((second.offsetLeft - first.offsetLeft : Int) : ℚ) ≠ 0 := by
      exact_mod_cast hne
    rw [hspp]
    simp only [JSVal.div, if_neg hq, JSVal.floor]

/-- Witness of C6: the five-slide layout has item offset 100 and two slides per page. -/
theorem initPages_offset_slidesPerPage_witness :
    (initPages fiveSlides).state.sliderItemOffset
      = num (((⟨1, 100, 100⟩ : Slide).offsetLeft - (⟨0, 0, 100⟩ : Slide).offsetLeft : Int) : ℚ) ∧
    (initPages fiveSlides).state.slidesPerPage
      = floor (div (num (((⟨200, 0⟩ : SliderElement).clientWidth
            - (⟨0, 0, 100⟩ : Slide).offsetLeft : Int) : ℚ))
          (initPages fiveSlides).state.sliderItemOffset) ∧
    ((⟨1, 100, 100⟩ : Slide).offsetLeft - (⟨0, 0, 100⟩ : Slide).offsetLeft ≠ 0 →
      (initPages fiveSlides).state.slidesPerPage
        = num (⌊((((⟨200, 0⟩ : SliderElement).clientWidth
              - (⟨0, 0, 100⟩ : Slide).offsetLeft : Int) : ℚ))
            / (((⟨1, 100, 100⟩ : Slide).offsetLeft
              - (⟨0, 0, 100⟩ : Slide).offsetLeft : Int) : ℚ)⌋ : Int)) :=
  initPages_offset_slidesPerPage fiveSlides ⟨200, 0⟩ ⟨0, 0, 100⟩ ⟨1, 100, 100⟩
    [⟨2, 200, 100⟩, ⟨3, 300, 100⟩, ⟨4, 400, 100⟩] rfl (by decide)

/-- C7: with fewer than two visible slides `initPages()` returns normally after recording the
visible slides: `sliderItemOffset`, `slidesPerPage`, `totalPages` and `currentPage` keep their
values, no event is dispatched, and buttons, counter texts and dots are untouched (`update()`
is not run). -/
theorem initPages_few_slides (c : SliderComponent)
    (hvis : (c.sliderItems.filter isShown).length < 2) :
    (initPages c).error = none ∧ (initPages c).effects = [] ∧
    (initPages c).state.sliderItemOffset = c.sliderItemOffset ∧
    (initPages c).state.slidesPerPage = c.slidesPerPage ∧
    (initPages c).state.totalPages = c.totalPages ∧
    (initPages c).state.currentPage = c.currentPage ∧
    (initPages c).state.prevButton = c.prevButton ∧
    (initPages c).state.nextButton = c.nextButton ∧
    (initPages c).state.currentPageElement = c.currentPageElement ∧
    (initPages c).state.pageTotalElement = c.pageTotalElement ∧
    (initPages c).state.dots = c.dots ∧
    (initPages c).state =
      { c with sliderItemsToShow := some (c.sliderItems.filter isShown) } := by
  rw [initPages_of_few c hvis]
  exact ⟨rfl, rfl, rfl, rfl, rfl, rfl, rfl, rfl, rfl, rfl, rfl, rfl⟩

/-- Witness of C7: one visible slide next to a hidden one. -/
theorem initPages_few_slides_witness :
    (initPages oneVisible).error = none ∧ (initPages oneVisible).effects = [] ∧
    (initPages oneVisible).state.sliderItemOffset = oneVisible.sliderItemOffset ∧
    (initPages oneVisible).state.slidesPerPage = oneVisible.slidesPerPage ∧
    (initPages oneVisible).state.totalPages = oneVisible.totalPages ∧
    (initPages oneVisible).state.currentPage = oneVisible.currentPage ∧
    (initPages oneVisible).state.prevButton = oneVisible.prevButton ∧
    (initPages oneVisible).state.nextButton = oneVisible.nextButton ∧
    (initPages oneVisible).state.currentPageElement = oneVisible.currentPageElement ∧
    (initPages oneVisible).state.pageTotalElement = oneVisible.pageTotalElement ∧
    (initPages oneVisible).state.dots = oneVisible.dots ∧
    (initPages oneVisible).state =
      { oneVisible with sliderItemsToShow := some (oneVisible.sliderItems.filter isShown) } :=
  initPages_few_slides oneVisible (by decide)

/-- C8 (code evaluated at the failing input): two visible slides with the same `offsetLeft`
give `sliderItemOffset = 0`; at `scrollLeft = 0` the page is `0 / 0 + 1 = NaN`. A further
`update()` computes `NaN` again, so `currentPage` is unchanged, yet `NaN != NaN` holds and
`slideChanged` is dispatched, with `currentPage: NaN` and no current element. -/
theorem slideChanged_without_change :
    (initPages stackedSlides).error = none ∧
    (initPages stackedSlides).state.currentPage = nan ∧
    (update (initPages stackedSlides).state).error = none ∧
    (update (initPages stackedSlides).state).state.currentPage
      = (initPages stackedSlides).state.currentPage ∧
    (update (initPages stackedSlides).state).effects = [Effect.slideChanged nan none] := by
  decide!

/-- C9: with looping disabled, all elements present and at least one visible slide, `update()`
completes and leaves the previous button disabled exactly when `scrollLeft = 0` and the first
visible slide lies inside the viewport (left edge at or after `scrollLeft`, right edge at or
before `scrollLeft + clientWidth`), and the next button disabled exactly when the last visible
slide lies inside the viewport. -/
theorem update_toggles_buttons (c : SliderComponent) (s : SliderElement) (pb nb : Button)
    (items : List Slide) (first last : Slide)
    (hloop : c.enableSliderLooping = false) (hs : c.slider = some s)
    (hp : c.prevButton = some pb) (hn : c.nextButton = some nb)
    (hitems : c.sliderItemsToShow = some items)
    (hfirst : items.head? = some first) (hlast : items.getLast? = some last) :
    (update c).error = none ∧
    ∃ pb' nb', (update c).state.prevButton = some pb' ∧ (update c).state.nextButton = some nb' ∧
      (pb'.disabled = true ↔
        (s.scrollLeft = 0 ∧ s.scrollLeft ≤ first.offsetLeft ∧
          (first.offsetLeft : ℚ) + first.clientWidth ≤ s.clientWidth + s.scrollLeft)) ∧
      (nb'.disabled = true ↔
        (s.scrollLeft ≤ last.offsetLeft ∧
          (last.offsetLeft : ℚ) + last.clientWidth ≤ s.clientWidth + s.scrollLeft)) :=
  update_buttons_of_ends c s pb nb items first last hloop hs hp hn hitems hfirst hlast

/-- Witness of C9: the five-slide layout scrolled to its end, offset 300. -/
theorem update_toggles_buttons_witness :
    (update (scrolledTo (initPages fiveSlides).state 300)).error = none ∧
    ∃ pb' nb', (update (scrolledTo (initPages fiveSlides).state 300)).state.prevButton = some pb' ∧
      (update (scrolledTo (initPages fiveSlides).state 300)).state.nextButton = some nb' ∧
      (pb'.disabled = true ↔
        ((⟨200, 300⟩ : SliderElement).scrollLeft = 0 ∧
          (⟨200, 300⟩ : SliderElement).scrollLeft ≤ (⟨0, 0, 100⟩ : Slide).offsetLeft ∧
          ((⟨0, 0, 100⟩ : Slide).offsetLeft : ℚ) + (⟨0, 0, 100⟩ : Slide).clientWidth
            ≤ (⟨200, 300⟩ : SliderElement).clientWidth + (⟨200, 300⟩ : SliderElement).scrollLeft)) ∧
      (nb'.disabled = true ↔
        ((⟨200, 300⟩ : SliderElement).scrollLeft ≤ (⟨4, 400, 100⟩ : Slide).offsetLeft ∧
          ((⟨4, 400, 100⟩ : Slide).offsetLeft : ℚ) + (⟨4, 400, 100⟩ : Slide).clientWidth
            ≤ (⟨200, 300⟩ : SliderElement).clientWidth + (⟨200, 300⟩ : SliderElement).scrollLeft)) :=
  update_toggles_buttons (scrolledTo (initPages fiveSlides).state 300) ⟨200, 300⟩ ⟨true⟩ ⟨false⟩
    (equallySpaced 0 100 100 5) ⟨0, 0, 100⟩ ⟨4, 400, 100⟩
    (by decide!) (by decide!) (by decide!) (by decide!) (by decide!) (by decide) (by decide)

/-- C10 (amended): with looping disabled, on a row of `n ≥ 2` equally spaced slides (spacing
`d > 0`, width `0 < w ≤ d`) paged by `initPages()`, every `update()` at a scroll offset at or
beyond the position of the last page, `(totalPages - 1) * sliderItemOffset`, and not beyond the
left edge of the last slide completes with `currentPage >= totalPages` and the next button
disabled. -/
theorem next_disabled_on_last_page (c : SliderComponent) (s : SliderElement) (pb nb : Button)
    (off0 d w : Int) (n : Nat) (x : ℚ)
    (hloop : c.enableSliderLooping = false) (hs : c.slider = some s)
    (hp : c.prevButton = some pb) (hn : c.nextButton = some nb)
    (hitems : c.sliderItems = equallySpaced off0 d w n)
    (hN : 2 ≤ n) (hd : 0 < d) (hw : 0 < w) (hwd : w ≤ d)
    (hdots : c.dotsContainer = true → c.totalPages ≠ posInf)
    (hlast : le (mul (sub (initPages c).state.totalPages (num 1))
      (initPages c).state.sliderItemOffset) (num x) = true)
    (hedge : x ≤ ((off0 + ((n : Int) - 1) * d : Int) : ℚ)) :
    (update (scrolledTo (initPages c).state x)).error = none ∧
    le (update (scrolledTo (initPages c).state x)).state.totalPages
      (update (scrolledTo (initPages c).state x)).state.currentPage = true ∧
    ∃ nb', (update (scrolledTo (initPages c).state x)).state.nextButton = some nb' ∧
      nb'.disabled = true := by
  obtain ⟨h1, h2, h3, h4, h5, h6, h7⟩ :=
    initPages_equallySpaced c s off0 d w n hs hitems hN hd hw hdots
  have hdq : (0 : ℚ) < d := by exact_mod_cast hd
  have hwq : (w : ℚ) ≤ d := by exact_mod_cast hwd
  obtain ⟨nb1, hnb1⟩ : ∃ b, (initPages c).state.nextButton = some b := by
    rw [hn] at h7
    exact Option.isSome_iff_exists.mp h7
  obtain ⟨pb1, hpb1⟩ : ∃ b, (initPages c).state.prevButton = some b := by
    rw [hp] at h6
    exact Option.isSome_iff_exists.mp h6
  obtain ⟨rest, hrow⟩ := equallySpaced_two off0 d w n hN
  have hend := equallySpaced_getLast? off0 d w n (by omega)
  have hbtn := update_buttons_of_ends (scrolledTo (initPages c).state x) ⟨s.clientWidth, x⟩
    pb1 nb1 (equallySpaced off0 d w n) ⟨0, off0, w⟩ ⟨n - 1, off0 + ((n - 1 : Nat) : Int) * d, w⟩
    (by rw [← hloop, ← h5]; rfl) (scrolledTo_slider _ s x h1) hpb1 hnb1 h2
    (by rw [hrow]; rfl) hend
  have hpage := update_currentPage_of_pos (scrolledTo (initPages c).state x)
    ⟨s.clientWidth, x⟩ nb1 d (scrolledTo_slider _ s x h1) hnb1 h3 hdq
  have htot : (update (scrolledTo (initPages c).state x)).state.totalPages
      = num ((n : ℚ) - (⌊((s.clientWidth - off0 : Int) : ℚ) / (d : ℚ)⌋ : Int) + 1) := by
    rw [update_totalPages]
    exact h4
  rw [h4, h3] at hlast
  simp only [JSVal.sub, JSVal.neg, JSVal.add, JSVal.mul, JSVal.le, decide_eq_true_eq] at hlast
  have hK : ((⌊((s.clientWidth - off0 : Int) : ℚ) / (d : ℚ)⌋ : Int) : ℚ) * d
      ≤ ((s.clientWidth - off0 : Int) : ℚ) :=
    (le_div_iff₀ hdq).mp (Int.floor_le _)
  have hn1 : ((n - 1 : Nat) : ℚ) = (n : ℚ) - 1 := by
    have : 1 ≤ n := by omega
    push_cast [Nat.cast_sub this]
    ring
  obtain ⟨herr, pb', nb', _, hnb', _, hdis⟩ := hbtn
  refine ⟨herr, ?_, nb', hnb', ?_⟩
  · rw [hpage, htot]
    simp only [JSVal.le, decide_eq_true_eq]
    have hfloor : (n : Int) - ⌊((s.clientWidth - off0 : Int) : ℚ) / (d : ℚ)⌋
        ≤ ⌊x / (d : ℚ) + 1 / 2⌋ := by
      rw [Int.le_floor]
      have : ((n : ℚ) - (⌊((s.clientWidth - off0 : Int) : ℚ) / (d : ℚ)⌋ : Int)) ≤ x / d := by
        rw [le_div_iff₀ hdq]
        linarith
      push_cast at this ⊢
      linarith
    have hfloorq : ((n : ℚ) - (⌊((s.clientWidth - off0 : Int) : ℚ) / (d : ℚ)⌋ : Int))
        ≤ (⌊x / (d : ℚ) + 1 / 2⌋ : Int) := by
      exact_mod_cast hfloor
    linarith
  · rw [hdis]
    push_cast at hK hedge hlast ⊢
    rw [hn1]
    constructor
    · linarith
    · linarith

/-- Witness of C10 (amended): the five-slide layout at its last page, offset 300. -/
theorem next_disabled_on_last_page_witness :
    (update (scrolledTo (initPages fiveSlides).state 300)).error = none ∧
    le (update (scrolledTo (initPages fiveSlides).state 300)).state.totalPages
      (update (scrolledTo (initPages fiveSlides).state 300)).state.currentPage = true ∧
    ∃ nb', (update (scrolledTo (initPages fiveSlides).state 300)).state.nextButton = some nb' ∧
      nb'.disabled = true :=
  next_disabled_on_last_page fiveSlides ⟨200, 0⟩ ⟨false⟩ ⟨false⟩ 0 100 100 5 300 rfl rfl rfl rfl rfl
    (by decide) (by decide) (by decide) (by decide) (by decide) (by decide!) (by norm_num)

/-- C10 (counterexample): five slides of width 100, 100 apart, in a viewport of width 200.
At scroll offset 250 `update()` completes with `currentPage = totalPages = 4`, yet the next
button is enabled: the last slide (400 to 500) is not inside the viewport (250 to 450). -/
theorem next_enabled_on_last_page :
    fiveSlides.enableSliderLooping = false ∧
    (update (scrolledTo (initPages fiveSlides).state 250)).error = none ∧
    (update (scrolledTo (initPages fiveSlides).state 250)).state.currentPage = num 4 ∧
    (update (scrolledTo (initPages fiveSlides).state 250)).state.totalPages = num 4 ∧
    (update (scrolledTo (initPages fiveSlides).state 250)).state.nextButton
      = some ⟨false⟩ := by
  decide!

/-! ## Lemmas on timers, autoplay and scroll transitions -/

namespace Timers

/-- Clearing a handle removes every timer of a kind all of whose timers carry that handle. -/
theorem filter_clear (f : TimerAction → Bool) (t : Timers) (h : Option Nat)
    (hinv : ∀ x ∈ t.pending, f x.action = true → h = some x.handle) :
    (t.clear h).pending.filter (fun x => f x.action) = [] := by
  rw [List.filter_eq_nil_iff]
  intro x hx hf
  cases h with
  | none =>
    have := hinv x (by simpa [clear] using hx) hf
    simp at this
  | some k =>
    simp only [clear, List.mem_filter] at hx
    have hk := hinv x hx.1 hf
    have : x.handle = k := (Option.some.inj hk).symm
    simp [this] at hx

/-- Clearing never adds a timer. -/
theorem filter_clear_sublist (f : TimerAction → Bool) (t : Timers) (h : Option Nat) :
    ((t.clear h).pending.filter (fun x => f x.action)).Sublist
      (t.pending.filter (fun x => f x.action)) := by
  cases h with
  | none => exact List.Sublist.refl _
  | some k => exact List.Sublist.filter _ (List.filter_sublist _)

/-- Scheduling appends the new timer to the timers of its kind. -/
theorem filter_schedule (f : TimerAction → Bool) (t : Timers) (r : Bool) (d : JSVal)
    (a : TimerAction) :
    (t.schedule r d a).pending.filter (fun x => f x.action) =
      t.pending.filter (fun x => f x.action)
        ++ (if f a then [⟨t.lastHandle + 1, r, d, a⟩] else []) := by
  simp only [schedule, List.filter_append]
  congr 1
  by_cases hf : f a = true <;> simp [List.filter, hf]

end Timers

namespace SlideshowComponent

/-- No member of a list whose filter is empty passes the filter. -/
theorem not_of_filter_nil {α : Type} (p : α → Bool) (l : List α) (h : l.filter p = [])
    (x : α) (hx : x ∈ l) : p x = false := by
  rw [List.filter_eq_nil_iff] at h
  simpa using h x hx

/-- `play()` with the slider present. -/
theorem play_eq (c : SlideshowComponent) (s : SliderElement) (hs : c.slider = some s) :
    play c =
      { state := { c with
          ariaLive := some AriaLive.off,
          timers := (c.timers.clear c.autoplay).schedule true c.autoplaySpeed
            TimerAction.autoRotateSlides,
          autoplay := some (c.timers.lastHandle + 1) },
        effects := [], error := none } := by
  unfold play
  simp only [hs]
  cases h : c.autoplay <;> rfl

/-- `pause()` with the slider present. -/
theorem pause_eq (c : SlideshowComponent) (s : SliderElement) (hs : c.slider = some s) :
    pause c =
      { state := { c with
          ariaLive := some AriaLive.polite,
          timers := c.timers.clear c.autoplay },
        effects := [], error := none } := by
  unfold pause
  simp only [hs]

/-- After `play()` exactly one autoplay interval is pending, the new one. -/
theorem play_autoplayTimers (c : SlideshowComponent) (s : SliderElement)
    (hs : c.slider = some s) (hinv : AutoplayInv c) :
    (play c).state.timers.autoplayTimers
      = [⟨c.timers.lastHandle + 1, true, c.autoplaySpeed, TimerAction.autoRotateSlides⟩] := by
  rw [play_eq c s hs]
  show ((c.timers.clear c.autoplay).schedule true c.autoplaySpeed
    TimerAction.autoRotateSlides).pending.filter
      (fun x => x.action == TimerAction.autoRotateSlides) = _
  rw [Timers.filter_schedule (fun a => a == TimerAction.autoRotateSlides),
    Timers.filter_clear (fun a => a == TimerAction.autoRotateSlides)]
  · simp [Timers.clear]
    cases c.autoplay <;> rfl
  · intro x hx hf
    exact hinv.2 x hx (by simpa using hf)

/-- After `pause()` no autoplay interval is pending. -/
theorem pause_autoplayTimers (c : SlideshowComponent) (s : SliderElement)
    (hs : c.slider = some s) (hinv : AutoplayInv c) :
    (pause c).state.timers.autoplayTimers = [] := by
  rw [pause_eq c s hs]
  show (c.timers.clear c.autoplay).pending.filter
      (fun x => x.action == TimerAction.autoRotateSlides) = _
  rw [Timers.filter_clear (fun a => a == TimerAction.autoRotateSlides)]
  intro x hx hf
  exact hinv.2 x hx (by simpa using hf)

/-- `play()` keeps the autoplay invariant. -/
theorem play_inv (c : SlideshowComponent) (hinv : AutoplayInv c) :
    AutoplayInv (play c).state := by
  cases hs : c.slider with
  | none =>
    have : play c = ⟨c, [], some .typeError⟩ := by
      unfold play
      simp only [hs]
    rw [this]
    exact hinv
  | some s =>
    refine ⟨by rw [play_autoplayTimers c s hs hinv]; simp, ?_⟩
    have hnil : (c.timers.clear c.autoplay).pending.filter
        (fun x => x.action == TimerAction.autoRotateSlides) = [] :=
      Timers.filter_clear (fun a => a == TimerAction.autoRotateSlides) _ _
        (fun x hx hf => hinv.2 x hx (by simpa using hf))
    rw [play_eq c s hs]
    intro timer hmem hact
    simp only [Timers.schedule, List.mem_append, List.mem_singleton] at hmem
    rcases hmem with hmem | hmem
    · have := not_of_filter_nil _ _ hnil timer hmem
      simp [hact] at this
    · rw [hmem]
      cases c.autoplay <;> rfl

/-- `pause()` keeps the autoplay invariant. -/
theorem pause_inv (c : SlideshowComponent) (hinv : AutoplayInv c) :
    AutoplayInv (pause c).state := by
  cases hs : c.slider with
  | none =>
    have : pause c = ⟨c, [], some .typeError⟩ := by
      unfold pause
      simp only [hs]
    rw [this]
    exact hinv
  | some s =>
    have hnil := pause_autoplayTimers c s hs hinv
    refine ⟨by rw [hnil]; simp, ?_⟩
    intro timer hmem hact
    have := not_of_filter_nil _ _ hnil timer hmem
    simp [hact] at this

/-- `play()` and `pause()` leave the slider element alone. -/
theorem play_slider (c : SlideshowComponent) : (play c).state.slider = c.slider := by
  unfold play
  split <;> rfl

theorem pause_slider (c : SlideshowComponent) : (pause c).state.slider = c.slider := by
  unfold pause
  split <;> rfl

/-- The table `setSlidePosition` schedules on: the pending one cleared when its handle is
truthy. -/
theorem setSlidePosition_eq (c : SlideshowComponent) (position : JSVal) :
    ∃ table : Timers, table.lastHandle = c.timers.lastHandle ∧
      (table.pending.filter (fun x => Timers.isScroll x.action)).Sublist
        (c.timers.pending.filter (fun x => Timers.isScroll x.action)) ∧
      (PositionInv c → table.pending.filter (fun x => Timers.isScroll x.action) = []) ∧
      setSlidePosition c position =
        { state := { c with
            timers := table.schedule false c.announcerBarAnimationDelay
              (TimerAction.scrollTo position),
            setPositionTimeout := some (c.timers.lastHandle + 1) },
          effects := [], error := none } := by
  unfold setSlidePosition
  cases hto : c.setPositionTimeout with
  | none =>
    refine ⟨c.timers, rfl, List.Sublist.refl _, ?_, rfl⟩
    intro hinv
    rw [List.filter_eq_nil_iff]
    intro x hx hf
    have := (hinv x hx hf).1
    rw [hto] at this
    simp at this
  | some h =>
    by_cases h0 : h = 0
    · refine ⟨c.timers, rfl, List.Sublist.refl _, ?_, by simp [h0, Timers.schedule]⟩
      intro hinv
      rw [List.filter_eq_nil_iff]
      intro x hx hf
      have hh := hinv x hx hf
      rw [hto] at hh
      exact absurd ((Option.some.inj hh.1).symm.trans h0) hh.2
    · refine ⟨c.timers.clear (some h), rfl, Timers.filter_clear_sublist _ _ _, ?_,
        by simp [h0, Timers.schedule, Timers.clear]⟩
      intro hinv
      apply Timers.filter_clear
      intro x hx hf
      rw [← hto]
      exact (hinv x hx hf).1.symm ▸ rfl

/-- After `setSlidePosition(position)` exactly one scroll transition is pending, to
`position`. -/
theorem setSlidePosition_scrollTimers (c : SlideshowComponent) (position : JSVal)
    (hinv : PositionInv c) :
    (setSlidePosition c position).state.timers.scrollTimers
      = [⟨c.timers.lastHandle + 1, false, c.announcerBarAnimationDelay,
          TimerAction.scrollTo position⟩] := by
  obtain ⟨table, hlast, _, hnil, heq⟩ := setSlidePosition_eq c position
  rw [heq]
  show (table.schedule false c.announcerBarAnimationDelay
    (TimerAction.scrollTo position)).pending.filter (fun x => Timers.isScroll x.action) = _
  rw [Timers.filter_schedule Timers.isScroll, hnil hinv, hlast]
  rfl

/-- `setSlidePosition` keeps the scroll invariant. -/
theorem setSlidePosition_inv (c : SlideshowComponent) (position : JSVal)
    (hinv : PositionInv c) : PositionInv (setSlidePosition c position).state := by
  obtain ⟨table, hlast, _, hnil, heq⟩ := setSlidePosition_eq c position
  rw [heq]
  intro timer hmem hscroll
  simp only [Timers.schedule, List.mem_append, List.mem_singleton] at hmem
  rcases hmem with hmem | hmem
  · have := not_of_filter_nil _ _ (hnil hinv) timer hmem
    simp [hscroll] at this
  · rw [hmem, hlast]
    exact ⟨rfl, Nat.succ_ne_zero _⟩

/-- `setSlidePosition` changes the timer table and `setPositionTimeout` only. -/
theorem setSlidePosition_frame (c : SlideshowComponent) (position : JSVal) :
    (setSlidePosition c position).state =
      { c with timers := (setSlidePosition c position).state.timers,
               setPositionTimeout := (setSlidePosition c position).state.setPositionTimeout } ∧
    (setSlidePosition c position).state.timers.lastHandle = c.timers.lastHandle + 1 := by
  obtain ⟨table, hlast, _, _, heq⟩ := setSlidePosition_eq c position
  rw [heq]
  exact ⟨rfl, by simp [Timers.schedule, hlast]⟩

/-- `applyAnimationToAnnouncementBar` changes the timer table only, and adds no scroll
transition. -/
theorem applyAnimation_frame (c : SlideshowComponent) (button : ButtonName) :
    (applyAnimationToAnnouncementBar c button).state =
      { c with timers := (applyAnimationToAnnouncementBar c button).state.timers } ∧
    (applyAnimationToAnnouncementBar c button).state.timers.scrollTimers
      = c.timers.scrollTimers := by
  unfold applyAnimationToAnnouncementBar
  dsimp only
  repeat' split
  all_goals first
    | exact ⟨rfl, rfl⟩
    | refine ⟨rfl, ?_⟩
      show (c.timers.schedule _ _ _).pending.filter (fun x => Timers.isScroll x.action) = _
      rw [Timers.filter_schedule Timers.isScroll]
      simp [Timers.isScroll, Timers.scrollTimers]

/-- `setSlidePosition` leaves the fields of the slider alone. -/
@[simp]
theorem setSlidePosition_toSliderComponent (c : SlideshowComponent) (position : JSVal) :
    (setSlidePosition c position).state.toSliderComponent = c.toSliderComponent := by
  rw [(setSlidePosition_frame c position).1]

@[simp]
theorem setSlidePosition_sliderFirstItemNode (c : SlideshowComponent) (position : JSVal) :
    (setSlidePosition c position).state.sliderFirstItemNode = c.sliderFirstItemNode := by
  rw [(setSlidePosition_frame c position).1]

@[simp]
theorem setSlidePosition_delay (c : SlideshowComponent) (position : JSVal) :
    (setSlidePosition c position).state.announcerBarAnimationDelay
      = c.announcerBarAnimationDelay := by
  rw [(setSlidePosition_frame c position).1]

@[simp]
theorem applyAnimation_toSliderComponent (c : SlideshowComponent) (button : ButtonName) :
    (applyAnimationToAnnouncementBar c button).state.toSliderComponent
      = c.toSliderComponent := by
  rw [(applyAnimation_frame c button).1]

/-- The scroll invariant only reads the timer table and `setPositionTimeout`. -/
theorem PositionInv_congr (c c' : SlideshowComponent) (ht : c'.timers = c.timers)
    (hp : c'.setPositionTimeout = c.setPositionTimeout) (hinv : PositionInv c) :
    PositionInv c' := by
  unfold PositionInv
  rw [ht, hp]
  exact hinv

/-- A sequence of `setSlidePosition` calls keeps the scroll invariant. -/
theorem requestPositions_inv (positions : List JSVal) :
    ∀ c : SlideshowComponent, PositionInv c → PositionInv (requestPositions c positions) := by
  induction positions with
  | nil => intro c h; exact h
  | cons p ps ih =>
    intro c h
    exact ih _ (setSlidePosition_inv c p h)

/-- A sequence of `setSlidePosition` calls splits at its last call. -/
theorem requestPositions_append (c : SlideshowComponent) (positions : List JSVal)
    (position : JSVal) :
    requestPositions c (positions ++ [position])
      = (setSlidePosition (requestPositions c positions) position).state := by
  simp [requestPositions, List.foldl_append]

/-- Firing the only pending scroll transition performs that scroll and leaves none pending. -/
theorem fireTimer_scroll (c : SlideshowComponent) (s : SliderElement) (timer : Timer)
    (left : JSVal) (hs : c.slider = some s) (hact : timer.action = TimerAction.scrollTo left)
    (hrep : timer.repeating = false) (honly : c.timers.scrollTimers = [timer]) :
    (fireTimer c timer).effects = [Effect.scrollTo left] ∧
    (fireTimer c timer).error = none ∧
    (fireTimer c timer).state.timers.scrollTimers = [] := by
  have hnil : (c.timers.clear (some timer.handle)).pending.filter
      (fun x => Timers.isScroll x.action) = [] := by
    rw [List.filter_eq_nil_iff]
    intro x hx hf
    simp only [Timers.clear, List.mem_filter] at hx
    have hmem : x ∈ c.timers.scrollTimers := by
      simp only [Timers.scrollTimers, List.mem_filter]
      exact ⟨hx.1, hf⟩
    rw [honly, List.mem_singleton] at hmem
    simp [hmem] at hx
  have hfire : fireTimer c timer =
      { state := { c with timers := c.timers.clear (some timer.handle) },
        effects := [Effect.scrollTo left], error := none } := by
    unfold fireTimer
    simp [hrep, hact, hs]
  rw [hfire]
  exact ⟨rfl, rfl, hnil⟩

/-- The scroll an autoplay tick asks for: position 0 when `currentPage` equals the number of
slider items, `scrollLeft + sliderItemOffset` otherwise. -/
theorem autoRotateSlides_scrollTimers (c : SlideshowComponent) (s : SliderElement)
    (hs : c.slider = some s) (hinv : PositionInv c) :
    (autoRotateSlides c).state.timers.scrollTimers.map (fun timer => timer.action)
      = [TimerAction.scrollTo
          (if strictEq c.currentPage (num (c.sliderItems.length : ℚ)) then num 0
            else add (num s.scrollLeft) c.sliderItemOffset)] := by
  unfold autoRotateSlides
  simp only [hs]
  split
  · rw [(applyAnimation_frame _ _).2, setSlidePosition_scrollTimers c _ hinv]
    rfl
  · rw [(applyAnimation_frame _ _).2, setSlidePosition_scrollTimers c _ hinv]
    rfl

end SlideshowComponent

/-- With looping enabled and the visible slides set, `SliderComponent.update()` completes and
leaves both buttons as they are. -/
theorem update_looping_buttons (c : SliderComponent) (items : List Slide)
    (hloop : c.enableSliderLooping = true) (hitems : c.sliderItemsToShow = some items) :
    (update c).error = none ∧ (update c).state.prevButton = c.prevButton ∧
    (update c).state.nextButton = c.nextButton := by
  unfold update
  split
  · exact ⟨rfl, rfl, rfl⟩
  · exact ⟨rfl, rfl, rfl⟩
  · dsimp only
    rw [updateDots_eq, updateCounter_eq]
    simp only [hitems, hloop]
    split <;> exact ⟨rfl, rfl, rfl⟩

namespace SlideshowComponent

/-- A sequence of `setSlidePosition` calls leaves the fields of the slider alone. -/
theorem requestPositions_toSliderComponent (positions : List JSVal) :
    ∀ c : SlideshowComponent,
      (requestPositions c positions).toSliderComponent = c.toSliderComponent := by
  induction positions with
  | nil => intro c; rfl
  | cons p ps ih =>
    intro c
    exact (ih _).trans (setSlidePosition_toSliderComponent c p)

/-- A sequence of `play()` and `pause()` calls keeps the autoplay invariant and the slider. -/
theorem runAutoplayCalls_inv (calls : List AutoplayCall) :
    ∀ c : SlideshowComponent, AutoplayInv c →
      AutoplayInv (runAutoplayCalls c calls) ∧ (runAutoplayCalls c calls).slider = c.slider := by
  induction calls with
  | nil => intro c h; exact ⟨h, rfl⟩
  | cons call rest ih =>
    intro c h
    cases call with
    | play =>
      obtain ⟨h1, h2⟩ := ih (play c).state (play_inv c h)
      exact ⟨h1, h2.trans (play_slider c)⟩
    | pause =>
      obtain ⟨h1, h2⟩ := ih (pause c).state (pause_inv c h)
      exact ⟨h1, h2.trans (pause_slider c)⟩

/-- A sequence of `play()` and `pause()` calls splits at its last call. -/
theorem runAutoplayCalls_append (c : SlideshowComponent) (calls : List AutoplayCall)
    (call : AutoplayCall) :
    runAutoplayCalls c (calls ++ [call]) =
      match call with
      | AutoplayCall.play => (play (runAutoplayCalls c calls)).state
      | AutoplayCall.pause => (pause (runAutoplayCalls c calls)).state := by
  simp [runAutoplayCalls, List.foldl_append]

end SlideshowComponent

namespace AddToCartButton

/-- After `resetTimer()` exactly one add-to-cart timeout is pending, the new one. -/
theorem resetTimer_timers (b : AddToCartButton) (hinv : TimeoutInv b) :
    (resetTimer b).timers.addToCartTimers
      = [⟨b.timers.lastHandle + 1, false, num 3000, TimerAction.addToCart⟩] := by
  show ((b.timers.clear b.timeout).schedule false (num 3000)
    TimerAction.addToCart).pending.filter (fun x => x.action == TimerAction.addToCart) = _
  rw [Timers.filter_schedule (fun a => a == TimerAction.addToCart),
    Timers.filter_clear (fun a => a == TimerAction.addToCart)]
  · simp [Timers.clear]
    cases b.timeout <;> rfl
  · intro x hx hf
    exact hinv.2 x hx (by simpa using hf)

/-- `resetTimer()` keeps the timeout invariant. -/
theorem resetTimer_inv (b : AddToCartButton) (hinv : TimeoutInv b) :
    TimeoutInv (resetTimer b) := by
  refine ⟨by rw [resetTimer_timers b hinv]; simp, ?_⟩
  have hnil : (b.timers.clear b.timeout).pending.filter
      (fun x => x.action == TimerAction.addToCart) = [] :=
    Timers.filter_clear (fun a => a == TimerAction.addToCart) _ _
      (fun x hx hf => hinv.2 x hx (by simpa using hf))
  intro timer hmem hact
  simp only [resetTimer, Timers.schedule, List.mem_append, List.mem_singleton] at hmem
  rcases hmem with hmem | hmem
  · have := SlideshowComponent.not_of_filter_nil _ _ hnil timer hmem
    simp [hact] at this
  · rw [hmem]
    simp only [resetTimer, Timers.schedule]

/-- Repeated `resetTimer()` keeps the timeout invariant. -/
theorem resetTimerTimes_inv (b : AddToCartButton) (hinv : TimeoutInv b) (n : Nat) :
    TimeoutInv (resetTimerTimes b n) := by
  induction n with
  | zero => exact hinv
  | succ n ih => exact resetTimer_inv _ ih

end AddToCartButton

namespace SlideshowComponent

/-- The autoplay invariant only reads the timer table and `autoplay`. -/
theorem AutoplayInv_congr (c c' : SlideshowComponent) (ht : c'.timers = c.timers)
    (ha : c'.autoplay = c.autoplay) (hinv : AutoplayInv c) : AutoplayInv c' := by
  unfold AutoplayInv
  rw [ht, ha]
  exact hinv

/-- After `play()` the controller is playing. -/
theorem play_isPlaying (c : SlideshowComponent) (s : SliderElement) (hs : c.slider = some s) :
    (play c).error = none ∧ (play c).state.isPlaying = true := by
  rw [play_eq c s hs]
  refine ⟨rfl, ?_⟩
  show (!(((c.timers.clear c.autoplay).schedule true c.autoplaySpeed
    TimerAction.autoRotateSlides).pending.filter
      (fun x => x.action == TimerAction.autoRotateSlides)).isEmpty) = true
  rw [Timers.filter_schedule (fun a => a == TimerAction.autoRotateSlides)]
  simp

/-- After `pause()` the controller is paused. -/
theorem pause_isPlaying (c : SlideshowComponent) (s : SliderElement) (hs : c.slider = some s)
    (hinv : AutoplayInv c) : (pause c).error = none ∧ (pause c).state.isPlaying = false := by
  have h := pause_autoplayTimers c s hs hinv
  refine ⟨by rw [pause_eq c s hs], ?_⟩
  simp [isPlaying, h]

/-- `togglePlayButtonState` with the control assigned and present rewrites the control only. -/
theorem togglePlayButtonState_eq (c : SlideshowComponent) (button : AutoplayButton)
    (pauseAutoplay : Bool) (hctl : c.sliderAutoplayButton = true)
    (hbutton : c.slideshowAutoplay = some button) :
    ∃ marked : AutoplayButton, c.togglePlayButtonState pauseAutoplay =
      { state := { c with slideshowAutoplay := some marked }, effects := [], error := none } := by
  unfold togglePlayButtonState
  cases pauseAutoplay
  · exact ⟨_, by simp [hctl, hbutton]; rfl⟩
  · exact ⟨_, by simp [hctl, hbutton]; rfl⟩

end SlideshowComponent

/-! ## Claims on navigation, autoplay and timers -/

/-- C11: in the slideshow, a click on next while `currentPage` is the page of the last
visible slide (`currentPage === sliderItemsToShow.length`) leaves exactly one scroll
transition pending, to position 0, and `slideScrollPosition = 0`: the request
`scrollLeft + step * sliderItemOffset` made first by `super.onButtonClick` is cancelled;
when the timer fires it scrolls to 0. -/
theorem onButtonClick_next_on_last_wraps (c : SlideshowComponent) (s : SliderElement)
    (items : List Slide) (target : ClickTarget)
    (hs : c.slider = some s) (hitems : c.sliderItemsToShow = some items)
    (hlast : strictEq c.currentPage (num (items.length : ℚ)) = true)
    (hnext : target.name = ButtonName.next) (hinv : SlideshowComponent.PositionInv c) :
    (c.onButtonClick target).state.slideScrollPosition = num 0 ∧
    (c.onButtonClick target).state.timers.scrollTimers
      = [⟨c.timers.lastHandle + 2, false, c.announcerBarAnimationDelay,
          TimerAction.scrollTo (num 0)⟩] ∧
    ∀ timer ∈ (c.onButtonClick target).state.timers.scrollTimers,
      (SlideshowComponent.fireTimer (c.onButtonClick target).state timer).effects
        = [Effect.scrollTo (num 0)] := by
  have hc0 : SlideshowComponent.PositionInv
      { c with slideScrollPosition := buttonScrollPosition s c.sliderItemOffset target } :=
    SlideshowComponent.PositionInv_congr c _ rfl rfl hinv
  have hc1 := SlideshowComponent.setSlidePosition_inv _
    (buttonScrollPosition s c.sliderItemOffset target) hc0
  have hl1 := (SlideshowComponent.setSlidePosition_frame
    { c with slideScrollPosition := buttonScrollPosition s c.sliderItemOffset target }
    (buttonScrollPosition s c.sliderItemOffset target)).2
  have hrun : c.onButtonClick target =
      SlideshowComponent.applyAnimationToAnnouncementBar
        (SlideshowComponent.setSlidePosition
          { (SlideshowComponent.setSlidePosition
              { c with slideScrollPosition := buttonScrollPosition s c.sliderItemOffset target }
              (buttonScrollPosition s c.sliderItemOffset target)).state with
            wasClicked := some true, slideScrollPosition := num 0 } (num 0)).state
        ButtonName.next := by
    unfold SlideshowComponent.onButtonClick
    simp [hs, hitems, hlast, hnext]
  have hc3 : SlideshowComponent.PositionInv
      { (SlideshowComponent.setSlidePosition
          { c with slideScrollPosition := buttonScrollPosition s c.sliderItemOffset target }
          (buttonScrollPosition s c.sliderItemOffset target)).state with
        wasClicked := some true, slideScrollPosition := num 0 } :=
    SlideshowComponent.PositionInv_congr _ _ rfl rfl hc1
  have htimers := SlideshowComponent.setSlidePosition_scrollTimers _ (num 0) hc3
  have hscroll : (c.onButtonClick target).state.timers.scrollTimers
      = [⟨c.timers.lastHandle + 2, false, c.announcerBarAnimationDelay,
          TimerAction.scrollTo (num 0)⟩] := by
    rw [hrun, (SlideshowComponent.applyAnimation_frame _ _).2, htimers]
    simp only [SlideshowComponent.setSlidePosition_delay]
    have : (SlideshowComponent.setSlidePosition
        { c with slideScrollPosition := buttonScrollPosition s c.sliderItemOffset target }
        (buttonScrollPosition s c.sliderItemOffset target)).state.timers.lastHandle + 1
        = c.timers.lastHandle + 2 := by
      rw [hl1]
    simp only [this]
  refine ⟨?_, hscroll, ?_⟩
  · rw [hrun]
    simp
  · intro timer hmem
    have hslider : (c.onButtonClick target).state.slider = some s := by
      rw [hrun]
      simpa using hs
    rw [hscroll, List.mem_singleton] at hmem
    have honly : (c.onButtonClick target).state.timers.scrollTimers = [timer] := by
      rw [hscroll, hmem]
    exact (SlideshowComponent.fireTimer_scroll _ s timer (num 0) hslider
      (by rw [hmem]) (by rw [hmem]) honly).1

/-- Witness of C11: the announcement bar on its third and last slide, scroll offset 400. -/
theorem onButtonClick_next_on_last_wraps_witness :
    (lastSlideBar.onButtonClick ⟨ButtonName.next, none⟩).state.slideScrollPosition = num 0 ∧
    (lastSlideBar.onButtonClick ⟨ButtonName.next, none⟩).state.timers.scrollTimers
      = [⟨lastSlideBar.timers.lastHandle + 2, false, lastSlideBar.announcerBarAnimationDelay,
          TimerAction.scrollTo (num 0)⟩] ∧
    ∀ timer ∈ (lastSlideBar.onButtonClick ⟨ButtonName.next, none⟩).state.timers.scrollTimers,
      (SlideshowComponent.fireTimer
        (lastSlideBar.onButtonClick ⟨ButtonName.next, none⟩).state timer).effects
        = [Effect.scrollTo (num 0)] :=
  onButtonClick_next_on_last_wraps lastSlideBar ⟨200, 400⟩ (equallySpaced 0 200 200 3)
    ⟨ButtonName.next, none⟩ (by decide!) (by decide!) (by decide!) rfl
    (by unfold SlideshowComponent.PositionInv; decide!)

/-- C12: in the looping variant (`enableSliderLooping = true`, previous button present,
visible slides set) `SlideshowComponent.update()` leaves the previous button enabled and the
next button exactly as it was, whatever the scroll position. -/
theorem update_looping_keeps_controls (c : SlideshowComponent) (pb : Button)
    (items : List Slide) (hloop : c.enableSliderLooping = true)
    (hp : c.prevButton = some pb) (hitems : c.sliderItemsToShow = some items) :
    (c.update).state.prevButton = some { pb with disabled := false } ∧
    (c.update).state.nextButton = c.nextButton := by
  obtain ⟨herr, hprev, hnext⟩ := update_looping_buttons c.toSliderComponent items hloop hitems
  unfold SlideshowComponent.update
  simp only [herr, hprev, hp]
  repeat' split
  all_goals exact ⟨rfl, hnext⟩

/-- Witness of C12: the announcement bar at scroll offset 0, where the previous button had
been disabled. -/
theorem update_looping_keeps_controls_witness :
    ((announcementBar false).update).state.prevButton
      = some { (⟨true⟩ : Button) with disabled := false } ∧
    ((announcementBar false).update).state.nextButton = (announcementBar false).nextButton :=
  update_looping_keeps_controls (announcementBar false) ⟨true⟩ (equallySpaced 0 200 200 3)
    (by decide!) (by decide!) (by decide!)

/-- C13: `SliderComponent.onButtonClick` asks `slider.scrollTo` for
`scrollLeft + step * sliderItemOffset` on the next button and for
`scrollLeft - step * sliderItemOffset` on any other button, `step` being the button's
`data-step` and `1` when none is configured; for numeric `step = k` and offset `d` these are
the numbers `scrollLeft + k * d` and `scrollLeft - k * d`. -/
theorem onButtonClick_requests (c : SliderComponent) (s : SliderElement) (target : ClickTarget)
    (hs : c.slider = some s) :
    (onButtonClick c target).error = none ∧
    (target.name = ButtonName.next →
      (onButtonClick c target).effects = [Effect.scrollTo
        (add (num s.scrollLeft) (mul (target.step.getD (num 1)) c.sliderItemOffset))]) ∧
    (target.name = ButtonName.previous →
      (onButtonClick c target).effects = [Effect.scrollTo
        (sub (num s.scrollLeft) (mul (target.step.getD (num 1)) c.sliderItemOffset))]) ∧
    (∀ k d : ℚ, target.step.getD (num 1) = num k → c.sliderItemOffset = num d →
      (onButtonClick c target).effects = [Effect.scrollTo
        (num (if target.name = ButtonName.next then s.scrollLeft + k * d
          else s.scrollLeft - k * d))]) := by
  have hstep : (match target.step with
      | some configured => configured
      | none => num 1) = target.step.getD (num 1) := by
    cases target.step <;> rfl
  have hrun : onButtonClick c target =
      { state := { c with slideScrollPosition := buttonScrollPosition s c.sliderItemOffset target },
        effects := [Effect.scrollTo (buttonScrollPosition s c.sliderItemOffset target)],
        error := none } := by
    unfold onButtonClick
    simp [hs, setSlidePosition]
  rw [hrun]
  refine ⟨rfl, ?_, ?_, ?_⟩
  · intro hn
    simp [buttonScrollPosition, hn, hstep]
  · intro hn
    simp [buttonScrollPosition, hn, hstep]
  · intro k d hk hd
    by_cases hn : target.name = ButtonName.next
    · simp [buttonScrollPosition, hn, hstep, hk, hd, JSVal.add, JSVal.mul]
    · simp [buttonScrollPosition, hn, hstep, hk, hd, JSVal.sub, JSVal.neg, JSVal.add, JSVal.mul]
      ring

/-- Witness of C13: the next button with `data-step="2"` at scroll offset 0 of the five-slide
layout. -/
theorem onButtonClick_requests_witness :
    (onButtonClick (initPages fiveSlides).state ⟨ButtonName.next, some (num 2)⟩).error = none ∧
    ((⟨ButtonName.next, some (num 2)⟩ : ClickTarget).name = ButtonName.next →
      (onButtonClick (initPages fiveSlides).state ⟨ButtonName.next, some (num 2)⟩).effects
        = [Effect.scrollTo (add (num (⟨200, 0⟩ : SliderElement).scrollLeft)
            (mul ((⟨ButtonName.next, some (num 2)⟩ : ClickTarget).step.getD (num 1))
              (initPages fiveSlides).state.sliderItemOffset))]) ∧
    ((⟨ButtonName.next, some (num 2)⟩ : ClickTarget).name = ButtonName.previous →
      (onButtonClick (initPages fiveSlides).state ⟨ButtonName.next, some (num 2)⟩).effects
        = [Effect.scrollTo (sub (num (⟨200, 0⟩ : SliderElement).scrollLeft)
            (mul ((⟨ButtonName.next, some (num 2)⟩ : ClickTarget).step.getD (num 1))
              (initPages fiveSlides).state.sliderItemOffset))]) ∧
    (∀ k d : ℚ, (⟨ButtonName.next, some (num 2)⟩ : ClickTarget).step.getD (num 1) = num k →
      (initPages fiveSlides).state.sliderItemOffset = num d →
      (onButtonClick (initPages fiveSlides).state ⟨ButtonName.next, some (num 2)⟩).effects
        = [Effect.scrollTo
          (num (if (⟨ButtonName.next, some (num 2)⟩ : ClickTarget).name = ButtonName.next
            then (⟨200, 0⟩ : SliderElement).scrollLeft + k * d
            else (⟨200, 0⟩ : SliderElement).scrollLeft - k * d))]) :=
  onButtonClick_requests (initPages fiveSlides).state ⟨200, 0⟩ ⟨ButtonName.next, some (num 2)⟩
    (by decide!)

/-- C14 (code evaluated at the failing input): an announcement bar with two visible slides
and a hidden third one, on page 2, the page of the last visible slide and the last page
(`totalPages = 2`). The autoplay tick compares `currentPage` with `sliderItems.length = 3`
and asks for `scrollLeft + sliderItemOffset = 400`, past the end, where a click on next, which
compares with `sliderItemsToShow.length = 2`, asks for position 0. -/
theorem autoRotateSlides_misses_last_page :
    hiddenThirdBar.sliderItems.length = 3 ∧
    hiddenThirdBar.sliderItemsToShow = some [⟨0, 0, 200⟩, ⟨1, 200, 200⟩] ∧
    hiddenThirdBar.totalPages = num 2 ∧
    hiddenThirdBar.currentPage = num 2 ∧
    ((hiddenThirdBar.autoRotateSlides).state.timers.scrollTimers.map fun timer => timer.action)
      = [TimerAction.scrollTo (num 400)] ∧
    ((hiddenThirdBar.onButtonClick ⟨ButtonName.next, none⟩).state.timers.scrollTimers.map
      fun timer => timer.action) = [TimerAction.scrollTo (num 0)] := by
  decide!

/-- C15: from a playing slideshow, a focus-in on an element other than the play/pause control
pauses the controller (no autoplay interval pending), and a following focus-out from such an
element, reduced motion not being active, makes it play again (an interval pending). With a
play/pause control the control must be set to play, as it is in every playing state; without
one the target of the focus-in lies inside the announcement bar slider and no manual arrow
has been clicked. -/
theorem focus_in_pauses_focus_out_resumes (c : SlideshowComponent) (s : SliderElement)
    (focusIn focusOut : PointerTarget)
    (hs : c.slider = some s) (hinv : SlideshowComponent.AutoplayInv c)
    (hplaying : c.isPlaying = true) (hmotion : c.prefersReducedMotion = false)
    (hin : focusIn.onAutoplayButton = false) (hout : focusOut.onAutoplayButton = false)
    (hvariant :
      (c.sliderAutoplayButton = true ∧ truthy c.autoplayButtonIsSetToPlay = true) ∨
      (c.sliderAutoplayButton = false ∧ c.announcementBarSlider = true ∧
        c.reducedMotion = true ∧ focusIn.insideAnnouncementBar = true ∧
        truthy c.announcementBarArrowButtonWasClicked = false)) :
    (c.focusInHandling focusIn).error = none ∧
    (c.focusInHandling focusIn).state.isPlaying = false ∧
    ((c.focusInHandling focusIn).state.focusOutHandling focusOut).error = none ∧
    ((c.focusInHandling focusIn).state.focusOutHandling focusOut).state.isPlaying = true := by
  have _ := hplaying
  have hpause := SlideshowComponent.pause_isPlaying c s hs hinv
  have hpe := SlideshowComponent.pause_eq c s hs
  have hin' : c.focusInHandling focusIn = c.pause := by
    unfold SlideshowComponent.focusInHandling
    rcases hvariant with ⟨h1, h2⟩ | ⟨h1, h2, h3, h4, h5⟩
    · simp [h1, h2, hin]
    · simp [h1, h2, h4]
  have hslider : (c.pause).state.slider = some s :=
    (SlideshowComponent.pause_slider c).trans hs
  have hout' : (c.pause).state.focusOutHandling focusOut = (c.pause).state.play := by
    unfold SlideshowComponent.focusOutHandling
    rw [hpe]
    rcases hvariant with ⟨h1, h2⟩ | ⟨h1, h2, h3, h4, h5⟩
    · simp [h1, h2, hout]
    · simp [h1, h3, h5, hmotion]
  have hplay := SlideshowComponent.play_isPlaying (c.pause).state s hslider
  rw [hin', hout']
  exact ⟨hpause.1, hpause.2, hplay.1, hplay.2⟩

/-- Witness of C15: the announcement bar right after `setAutoPlay()` has started autoplay. -/
theorem focus_in_pauses_focus_out_resumes_witness :
    ((announcementBar false).setAutoPlay.state.focusInHandling ⟨false, true⟩).error = none ∧
    ((announcementBar false).setAutoPlay.state.focusInHandling ⟨false, true⟩).state.isPlaying
      = false ∧
    (((announcementBar false).setAutoPlay.state.focusInHandling
      ⟨false, true⟩).state.focusOutHandling ⟨false, true⟩).error = none ∧
    (((announcementBar false).setAutoPlay.state.focusInHandling
      ⟨false, true⟩).state.focusOutHandling ⟨false, true⟩).state.isPlaying = true :=
  focus_in_pauses_focus_out_resumes (announcementBar false).setAutoPlay.state ⟨200, 0⟩
    ⟨false, true⟩ ⟨false, true⟩ (by decide!)
    (by unfold SlideshowComponent.AutoplayInv; decide!) (by decide!) (by decide!) rfl rfl
    (Or.inr (by decide!))

/-- C16 (amended): a hover-out or focus-out event either calls `play()` and leaves the
controller playing, or changes nothing. Without a play/pause control it plays exactly when
reduced motion is not active and no manual arrow has been clicked. With a play/pause control
it plays exactly when the control is set to play and the target is not the control or inside
it, whatever the reduced-motion preference. -/
theorem focusOut_resumes_iff (c : SlideshowComponent) (s : SliderElement)
    (target : PointerTarget) (hs : c.slider = some s) :
    (c.sliderAutoplayButton = true →
      (truthy c.autoplayButtonIsSetToPlay = true ∧ target.onAutoplayButton = false →
        (c.focusOutHandling target).error = none ∧
        (c.focusOutHandling target).state.isPlaying = true) ∧
      (¬(truthy c.autoplayButtonIsSetToPlay = true ∧ target.onAutoplayButton = false) →
        c.focusOutHandling target = ⟨c, [], none⟩)) ∧
    (c.sliderAutoplayButton = false → c.reducedMotion = true →
      (c.prefersReducedMotion = false ∧ truthy c.announcementBarArrowButtonWasClicked = false →
        (c.focusOutHandling target).error = none ∧
        (c.focusOutHandling target).state.isPlaying = true) ∧
      (¬(c.prefersReducedMotion = false ∧
          truthy c.announcementBarArrowButtonWasClicked = false) →
        c.focusOutHandling target = ⟨c, [], none⟩)) := by
  have hplay := SlideshowComponent.play_isPlaying c s hs
  refine ⟨fun hctl => ⟨?_, ?_⟩, fun hctl hmq => ⟨?_, ?_⟩⟩
  · rintro ⟨h1, h2⟩
    have : c.focusOutHandling target = c.play := by
      unfold SlideshowComponent.focusOutHandling
      simp [hctl, h1, h2]
    rw [this]
    exact hplay
  · intro h
    unfold SlideshowComponent.focusOutHandling
    simp only [hctl, if_true]
    by_cases h1 : truthy c.autoplayButtonIsSetToPlay = true
    · have h2 : target.onAutoplayButton = true := by
        by_contra hne
        exact h ⟨h1, by simpa using hne⟩
      simp [h2]
    · simp [h1]
  · rintro ⟨h1, h2⟩
    have : c.focusOutHandling target = c.play := by
      unfold SlideshowComponent.focusOutHandling
      simp [hctl, hmq, h1, h2]
    rw [this]
    exact hplay
  · intro h
    unfold SlideshowComponent.focusOutHandling
    simp only [hctl, hmq]
    by_cases h1 : c.prefersReducedMotion = false
    · have h2 : truthy c.announcementBarArrowButtonWasClicked = true := by
        by_contra hne
        exact h ⟨h1, by simpa using hne⟩
      simp [h1, h2]
    · simp [h1]

/-- Witness of C16 (amended): the announcement bar, autoplay started, paused by a focus-in,
no reduced motion, no arrow clicked. -/
theorem focusOut_resumes_iff_witness :
    SlideshowComponent.focusOutHandling
      ((announcementBar false).setAutoPlay.state.focusInHandling ⟨false, true⟩).state
      ⟨false, true⟩ =
    SlideshowComponent.play
      ((announcementBar false).setAutoPlay.state.focusInHandling ⟨false, true⟩).state ∧
    (SlideshowComponent.focusOutHandling
      ((announcementBar false).setAutoPlay.state.focusInHandling ⟨false, true⟩).state
      ⟨false, true⟩).state.isPlaying = true := by
  have h := (focusOut_resumes_iff
    ((announcementBar false).setAutoPlay.state.focusInHandling ⟨false, true⟩).state
    ⟨200, 0⟩ ⟨false, true⟩ (by decide!)).2 (by decide!) (by decide!)
  exact ⟨by decide!, (h.1 ⟨by decide!, by decide!⟩).2⟩

/-- C16 (counterexample): a slideshow with a play/pause control, the reduced-motion
preference active, paused by a hover over a slide. The hover-out calls `play()`: the
controller is playing although reduced motion is active. -/
theorem focusOut_plays_under_reduced_motion :
    hoverPaused.prefersReducedMotion = true ∧
    hoverPaused.isPlaying = false ∧
    (hoverPaused.focusOutHandling ⟨false, false⟩).error = none ∧
    (hoverPaused.focusOutHandling ⟨false, false⟩).state.isPlaying = true := by
  decide!

/-- C17 (amended): a hover-in or focus-in whose target is the play/pause control never calls
`pause()`: when the control is set to play it calls `play()`, so the controller is playing
afterwards, also when a hover over a slide had paused it; when the control is set to pause
it changes nothing. `autoPlayToggle()` pauses when the control is set to play and plays when
it is set to pause, and flips the setting. -/
theorem focusIn_on_control_and_toggle (c : SlideshowComponent) (s : SliderElement)
    (button : AutoplayButton) (target : PointerTarget)
    (hs : c.slider = some s) (hinv : SlideshowComponent.AutoplayInv c)
    (hctl : c.sliderAutoplayButton = true) (hbutton : c.slideshowAutoplay = some button)
    (hon : target.onAutoplayButton = true) :
    (truthy c.autoplayButtonIsSetToPlay = true →
      (c.focusInHandling target).error = none ∧
      (c.focusInHandling target).state.isPlaying = true) ∧
    (truthy c.autoplayButtonIsSetToPlay = false →
      c.focusInHandling target = ⟨c, [], none⟩) ∧
    (truthy c.autoplayButtonIsSetToPlay = true →
      (c.autoPlayToggle).error = none ∧ (c.autoPlayToggle).state.isPlaying = false ∧
      (c.autoPlayToggle).state.autoplayButtonIsSetToPlay = some false) ∧
    (truthy c.autoplayButtonIsSetToPlay = false →
      (c.autoPlayToggle).error = none ∧ (c.autoPlayToggle).state.isPlaying = true ∧
      (c.autoPlayToggle).state.autoplayButtonIsSetToPlay = some true) := by
  refine ⟨?_, ?_, ?_, ?_⟩
  · intro hset
    have : c.focusInHandling target = c.play := by
      unfold SlideshowComponent.focusInHandling
      simp [hctl, hon, hset]
    rw [this]
    exact SlideshowComponent.play_isPlaying c s hs
  · intro hset
    unfold SlideshowComponent.focusInHandling
    simp [hctl, hon, hset]
  · intro hset
    obtain ⟨marked, htoggle⟩ :=
      SlideshowComponent.togglePlayButtonState_eq c button true hctl hbutton
    have hp := SlideshowComponent.pause_isPlaying
      { c with slideshowAutoplay := some marked } s hs
      (SlideshowComponent.AutoplayInv_congr c _ rfl rfl hinv)
    have hpe := SlideshowComponent.pause_eq { c with slideshowAutoplay := some marked } s hs
    have hrun : c.autoPlayToggle =
        { state := { (SlideshowComponent.pause { c with slideshowAutoplay := some marked }).state
            with autoplayButtonIsSetToPlay := some false },
          effects := [], error := none } := by
      unfold SlideshowComponent.autoPlayToggle
      simp [hset, htoggle, hpe]
    rw [hrun]
    exact ⟨rfl, hp.2, rfl⟩
  · intro hset
    obtain ⟨marked, htoggle⟩ :=
      SlideshowComponent.togglePlayButtonState_eq c button false hctl hbutton
    have hp := SlideshowComponent.play_isPlaying
      { c with slideshowAutoplay := some marked } s hs
    have hpe := SlideshowComponent.play_eq { c with slideshowAutoplay := some marked } s hs
    have hrun : c.autoPlayToggle =
        { state := { (SlideshowComponent.play { c with slideshowAutoplay := some marked }).state
            with autoplayButtonIsSetToPlay := some true },
          effects := [], error := none } := by
      unfold SlideshowComponent.autoPlayToggle
      simp [hset, htoggle, hpe]
    rw [hrun]
    exact ⟨rfl, hp.2, rfl⟩

/-- Witness of C17 (amended): the slideshow with a control, paused by a hover over a slide. -/
theorem focusIn_on_control_and_toggle_witness :
    (truthy hoverPaused.autoplayButtonIsSetToPlay = true →
      (hoverPaused.focusInHandling ⟨true, false⟩).error = none ∧
      (hoverPaused.focusInHandling ⟨true, false⟩).state.isPlaying = true) ∧
    (truthy hoverPaused.autoplayButtonIsSetToPlay = false →
      hoverPaused.focusInHandling ⟨true, false⟩ = ⟨hoverPaused, [], none⟩) ∧
    (truthy hoverPaused.autoplayButtonIsSetToPlay = true →
      (hoverPaused.autoPlayToggle).error = none ∧
      (hoverPaused.autoPlayToggle).state.isPlaying = false ∧
      (hoverPaused.autoPlayToggle).state.autoplayButtonIsSetToPlay = some false) ∧
    (truthy hoverPaused.autoplayButtonIsSetToPlay = false →
      (hoverPaused.autoPlayToggle).error = none ∧
      (hoverPaused.autoPlayToggle).state.isPlaying = true ∧
      (hoverPaused.autoPlayToggle).state.autoplayButtonIsSetToPlay = some true) :=
  focusIn_on_control_and_toggle hoverPaused ⟨200, 0⟩ ⟨false, none⟩ ⟨true, false⟩ (by decide!)
    (by unfold SlideshowComponent.AutoplayInv; decide!) (by decide!) (by decide!) rfl

/-- C17 (counterexample): a slideshow with a play/pause control set to play, paused by a
hover over a slide. A hover-in on the control calls `play()`: the controller was paused
before `focusInHandling` and is playing after it. -/
theorem focusIn_on_control_resumes :
    hoverPaused.sliderAutoplayButton = true ∧
    hoverPaused.isPlaying = false ∧
    (hoverPaused.focusInHandling ⟨true, false⟩).error = none ∧
    (hoverPaused.focusInHandling ⟨true, false⟩).state.isPlaying = true := by
  decide!

/-- C18: `setAutoPlay()` with a play/pause control in the document leaves the controller
playing; without one (the media query list existing) it leaves it playing exactly when
reduced motion is not active and no manual arrow has been clicked, and paused otherwise. -/
theorem setAutoPlay_initial_state (c : SlideshowComponent) (s : SliderElement)
    (hs : c.slider = some s) (hinv : SlideshowComponent.AutoplayInv c) :
    (∀ button, c.slideshowAutoplay = some button →
      (c.setAutoPlay).error = none ∧ (c.setAutoPlay).state.isPlaying = true) ∧
    (c.slideshowAutoplay = none → c.reducedMotion = true →
      (c.setAutoPlay).error = none ∧
      ((c.setAutoPlay).state.isPlaying = true ↔
        (c.prefersReducedMotion = false ∧
          truthy c.announcementBarArrowButtonWasClicked = false))) := by
  refine ⟨?_, ?_⟩
  · intro button hbutton
    have : c.setAutoPlay = SlideshowComponent.play
        { c with autoplaySpeed := mul c.dataSpeed (num 1000), sliderAutoplayButton := true,
                 autoplayButtonIsSetToPlay := some true } := by
      unfold SlideshowComponent.setAutoPlay
      simp [hs, hbutton]
    rw [this]
    exact SlideshowComponent.play_isPlaying _ s hs
  · intro hnone hmq
    have hinv' : SlideshowComponent.AutoplayInv
        { c with autoplaySpeed := mul c.dataSpeed (num 1000) } :=
      SlideshowComponent.AutoplayInv_congr c _ rfl rfl hinv
    have hplay := SlideshowComponent.play_isPlaying
      { c with autoplaySpeed := mul c.dataSpeed (num 1000) } s hs
    have hpause := SlideshowComponent.pause_isPlaying
      { c with autoplaySpeed := mul c.dataSpeed (num 1000) } s hs hinv'
    by_cases hgate : c.prefersReducedMotion = false ∧
        truthy c.announcementBarArrowButtonWasClicked = false
    · have : c.setAutoPlay = SlideshowComponent.play
          { c with autoplaySpeed := mul c.dataSpeed (num 1000) } := by
        unfold SlideshowComponent.setAutoPlay
        simp [hs, hnone, hmq, hgate.1, hgate.2]
      rw [this]
      refine ⟨hplay.1, ?_⟩
      rw [hplay.2]
      exact ⟨fun _ => hgate, fun _ => rfl⟩
    · have : c.setAutoPlay = SlideshowComponent.pause
          { c with autoplaySpeed := mul c.dataSpeed (num 1000) } := by
        unfold SlideshowComponent.setAutoPlay
        simp only [hs, hnone, hmq]
        by_cases h1 : c.prefersReducedMotion = false
        · have h2 : truthy c.announcementBarArrowButtonWasClicked = true := by
            by_contra hne
            exact hgate ⟨h1, by simpa using hne⟩
          simp [h1, h2]
        · simp [h1]
      rw [this]
      refine ⟨hpause.1, ?_⟩
      rw [hpause.2]
      exact ⟨fun h => absurd h (by simp), fun h => absurd h hgate⟩

/-- Witness of C18: the announcement bar under the reduced-motion preference starts paused. -/
theorem setAutoPlay_initial_state_witness :
    (∀ button, (announcementBar true).slideshowAutoplay = some button →
      ((announcementBar true).setAutoPlay).error = none ∧
      ((announcementBar true).setAutoPlay).state.isPlaying = true) ∧
    ((announcementBar true).slideshowAutoplay = none →
      (announcementBar true).reducedMotion = true →
      ((announcementBar true).setAutoPlay).error = none ∧
      (((announcementBar true).setAutoPlay).state.isPlaying = true ↔
        ((announcementBar true).prefersReducedMotion = false ∧
          truthy (announcementBar true).announcementBarArrowButtonWasClicked = false))) :=
  setAutoPlay_initial_state (announcementBar true) ⟨200, 0⟩ (by decide!)
    (by unfold SlideshowComponent.AutoplayInv; decide!)

/-- C19: in the slideshow, after the calls `setSlidePosition(p1)`, ..., `setSlidePosition(pn)`
made in a row before any of their timers fires, exactly one scroll transition is pending, the
one to the last position `pn`; when it fires it scrolls to `pn` and no scroll transition is
left. -/
theorem requestPositions_last_wins (c : SlideshowComponent) (s : SliderElement)
    (positions : List JSVal) (position : JSVal) (hs : c.slider = some s)
    (hinv : SlideshowComponent.PositionInv c) :
    ((c.requestPositions (positions ++ [position])).timers.scrollTimers.map
      fun timer => timer.action) = [TimerAction.scrollTo position] ∧
    ∀ timer ∈ (c.requestPositions (positions ++ [position])).timers.scrollTimers,
      ((c.requestPositions (positions ++ [position])).fireTimer timer).effects
        = [Effect.scrollTo position] ∧
      ((c.requestPositions (positions ++ [position])).fireTimer timer).state.timers.scrollTimers
        = [] := by
  have hprev := SlideshowComponent.requestPositions_inv positions c hinv
  have hscroll := SlideshowComponent.setSlidePosition_scrollTimers
    (c.requestPositions positions) position hprev
  rw [SlideshowComponent.requestPositions_append]
  refine ⟨by rw [hscroll]; rfl, ?_⟩
  intro timer hmem
  have hslider : (SlideshowComponent.setSlidePosition (c.requestPositions positions)
      position).state.slider = some s := by
    have h1 := SlideshowComponent.setSlidePosition_toSliderComponent
      (c.requestPositions positions) position
    have h2 := SlideshowComponent.requestPositions_toSliderComponent positions c
    show (SlideshowComponent.setSlidePosition (c.requestPositions positions)
      position).state.toSliderComponent.slider = some s
    rw [h1, h2]
    exact hs
  have honly := hscroll
  rw [hscroll, List.mem_singleton] at hmem
  rw [← hmem] at honly
  have := SlideshowComponent.fireTimer_scroll _ s timer position hslider
    (by rw [hmem]) (by rw [hmem]) honly
  exact ⟨this.1, this.2.2⟩

/-- Witness of C19: two requests in a row on the announcement bar, to 200 and then to 400. -/
theorem requestPositions_last_wins_witness :
    (((announcementBar false).requestPositions ([num 200] ++ [num 400])).timers.scrollTimers.map
      fun timer => timer.action) = [TimerAction.scrollTo (num 400)] ∧
    ∀ timer ∈
        ((announcementBar false).requestPositions ([num 200] ++ [num 400])).timers.scrollTimers,
      (((announcementBar false).requestPositions ([num 200] ++ [num 400])).fireTimer
        timer).effects = [Effect.scrollTo (num 400)] ∧
      (((announcementBar false).requestPositions ([num 200] ++ [num 400])).fireTimer
        timer).state.timers.scrollTimers = [] :=
  requestPositions_last_wins (announcementBar false) ⟨200, 0⟩ [num 200] (num 400) (by decide!)
    (by unfold SlideshowComponent.PositionInv; decide!)

/-- C20: after any sequence of `play()` and `pause()` calls at most one autoplay interval is
pending, none when the last call is `pause()` and exactly one when it is `play()`; after any
number of `AddToCartButton.resetTimer()` calls at most one add-to-cart timeout is pending,
exactly one after at least one call. -/
theorem at_most_one_timer (c : SlideshowComponent) (s : SliderElement)
    (calls : List SlideshowComponent.AutoplayCall) (b : AddToCartButton) (n : Nat)
    (hs : c.slider = some s) (hc : SlideshowComponent.AutoplayInv c)
    (hb : AddToCartButton.TimeoutInv b) :
    (c.runAutoplayCalls calls).timers.autoplayTimers.length ≤ 1 ∧
    (calls.getLast? = some SlideshowComponent.AutoplayCall.pause →
      (c.runAutoplayCalls calls).timers.autoplayTimers = []) ∧
    (calls.getLast? = some SlideshowComponent.AutoplayCall.play →
      (c.runAutoplayCalls calls).timers.autoplayTimers.length = 1) ∧
    (b.resetTimerTimes n).timers.addToCartTimers.length ≤ 1 ∧
    (0 < n → (b.resetTimerTimes n).timers.addToCartTimers.length = 1) := by
  refine ⟨(SlideshowComponent.runAutoplayCalls_inv calls c hc).1.1, ?_, ?_,
    (AddToCartButton.resetTimerTimes_inv b hb n).1, ?_⟩
  · intro hlast
    obtain ⟨init, rfl⟩ := List.getLast?_eq_some_iff.mp hlast
    obtain ⟨hinv, hsl⟩ := SlideshowComponent.runAutoplayCalls_inv init c hc
    rw [SlideshowComponent.runAutoplayCalls_append]
    exact SlideshowComponent.pause_autoplayTimers _ s (hsl.trans hs) hinv
  · intro hlast
    obtain ⟨init, rfl⟩ := List.getLast?_eq_some_iff.mp hlast
    obtain ⟨hinv, hsl⟩ := SlideshowComponent.runAutoplayCalls_inv init c hc
    rw [SlideshowComponent.runAutoplayCalls_append]
    show ((SlideshowComponent.play _).state.timers.autoplayTimers).length = 1
    rw [SlideshowComponent.play_autoplayTimers _ s (hsl.trans hs) hinv]
    rfl
  · intro hn
    obtain ⟨m, rfl⟩ : ∃ m, n = m + 1 := ⟨n - 1, by omega⟩
    show (AddToCartButton.resetTimer (b.resetTimerTimes m)).timers.addToCartTimers.length = 1
    rw [AddToCartButton.resetTimer_timers _ (AddToCartButton.resetTimerTimes_inv b hb m)]
    rfl

/-- Witness of C20: `play(); play(); pause()` on the announcement bar and three
`resetTimer()` calls on a fresh add-to-cart button. -/
theorem at_most_one_timer_witness :
    ((announcementBar false).runAutoplayCalls
      [.play, .play, .pause]).timers.autoplayTimers.length ≤ 1 ∧
    (([.play, .play, .pause] : List SlideshowComponent.AutoplayCall).getLast?
        = some SlideshowComponent.AutoplayCall.pause →
      ((announcementBar false).runAutoplayCalls
        [.play, .play, .pause]).timers.autoplayTimers = []) ∧
    (([.play, .play, .pause] : List SlideshowComponent.AutoplayCall).getLast?
        = some SlideshowComponent.AutoplayCall.play →
      ((announcementBar false).runAutoplayCalls
        [.play, .play, .pause]).timers.autoplayTimers.length = 1) ∧
    (freshAddToCart.resetTimerTimes 3).timers.addToCartTimers.length ≤ 1 ∧
    (0 < 3 → (freshAddToCart.resetTimerTimes 3).timers.addToCartTimers.length = 1) :=
  at_most_one_timer (announcementBar false) ⟨200, 0⟩ [.play, .play, .pause] freshAddToCart 3
    (by decide!) (by unfold SlideshowComponent.AutoplayInv; decide!)
    (by unfold AddToCartButton.TimeoutInv; decide!)

/-! ## Lemmas on the dots and the recomputation of the pager state -/

/-- Shape of `updateDots`: only the dots change. -/
theorem updateDots_exists (c : SliderComponent) :
    ∃ ds, updateDots c = { c with dots := ds } :=
  ⟨_, updateDots_eq c⟩

/-- The counter texts do not depend on the dots. -/
theorem updateCounter_congr (c : SliderComponent) (ds : Option (List Dot)) :
    updateCounter { c with dots := ds } = { updateCounter c with dots := ds } := by
  unfold updateCounter
  dsimp only
  split <;> rfl

/-- The toggling of the buttons does not depend on the dots. -/
theorem updateButtons_congr (c : SliderComponent) (ds : Option (List Dot)) (s : SliderElement)
    (effs : List Effect) :
    updateButtons { c with dots := ds } s effs =
      ⟨{ (updateButtons c s effs).state with dots := ds }, (updateButtons c s effs).effects,
        (updateButtons c s effs).error⟩ := by
  unfold updateButtons
  dsimp only
  repeat' split
  all_goals rfl

/-- Apart from the dots themselves, `update()` does not depend on the dots. -/
theorem update_congr (c : SliderComponent) (ds : Option (List Dot)) :
    ∃ ds', update { c with dots := ds } =
      ⟨{ (update c).state with dots := ds' }, (update c).effects, (update c).error⟩ := by
  unfold update
  dsimp only
  split
  · exact ⟨ds, rfl⟩
  · exact ⟨ds, rfl⟩
  · obtain ⟨d1, h1⟩ := updateDots_exists { c with
      currentPage := add (round (div (num (‹SliderElement›).scrollLeft) c.sliderItemOffset)) (num 1) }
    obtain ⟨d2, h2⟩ := updateDots_exists { c with
      dots := ds, currentPage := add (round (div (num (‹SliderElement›).scrollLeft) c.sliderItemOffset)) (num 1) }
    rw [h1, h2]
    have e1 := updateCounter_congr { c with
      currentPage := add (round (div (num (‹SliderElement›).scrollLeft) c.sliderItemOffset)) (num 1) } d1
    have e2 := updateCounter_congr { c with
      currentPage := add (round (div (num (‹SliderElement›).scrollLeft) c.sliderItemOffset)) (num 1) } d2
    rw [e1, e2]
    refine ⟨d2, ?_⟩
    dsimp only
    repeat' split
    all_goals first
      | rfl
      | (rw [updateButtons_congr, updateButtons_congr _ d1])

/-! ## Claims on guards, recomputation and dots -/

/-- C21: if the slider element or the next button is absent, `update()` is a silent no-op:
it returns without an error, leaves every field of the component (so `currentPage`,
`totalPages` and both buttons) as it was, and dispatches no event. -/
theorem update_noop_of_absent (c : SliderComponent)
    (h : c.slider = none ∨ c.nextButton = none) :
    update c = ⟨c, [], none⟩ := by
  unfold update
  split
  · rfl
  · rfl
  · simp_all

/-- Witness of C21: the five-slide component without its next button. -/
theorem update_noop_of_absent_witness :
    update { fiveSlides with nextButton := none }
      = ⟨{ fiveSlides with nextButton := none }, [], none⟩ :=
  update_noop_of_absent { fiveSlides with nextButton := none } (Or.inr rfl)

/-- C22: with the slider present and at least two visible slides, let `c'` be `c` with other
prior values `o`, `p`, `t`, `q` of `sliderItemOffset`, `slidesPerPage`, `totalPages`,
`currentPage` (and another prior `sliderItemsToShow`), dot creation terminating for both.
After `initPages()` the two components hold the same `sliderItemOffset`, `slidesPerPage` and
`totalPages`; and when the prior `currentPage` is the same (`q = c.currentPage`), the two runs
agree on the error, on the dispatched events and on every field of the resulting state other
than the dot elements. -/
theorem initPages_recomputes (c : SliderComponent) (s : SliderElement)
    (first second : Slide) (rest : List Slide) (o p t q : JSVal) (items : Option (List Slide))
    (hs : c.slider = some s)
    (hvis : c.sliderItems.filter isShown = first :: second :: rest)
    (hc : c.dotsContainer = true → c.totalPages ≠ posInf)
    (ht : c.dotsContainer = true → t ≠ posInf) :
    (initPages (withPriorState c o p t q items)).state.sliderItemOffset
      = (initPages c).state.sliderItemOffset ∧
    (initPages (withPriorState c o p t q items)).state.slidesPerPage
      = (initPages c).state.slidesPerPage ∧
    (initPages (withPriorState c o p t q items)).state.totalPages
      = (initPages c).state.totalPages ∧
    (q = c.currentPage →
      (initPages (withPriorState c o p t q items)).error = (initPages c).error ∧
      (initPages (withPriorState c o p t q items)).effects = (initPages c).effects ∧
      { (initPages (withPriorState c o p t q items)).state with
        dots := (initPages c).state.dots } = (initPages c).state) := by
  obtain ⟨ds, h⟩ := initPages_of_two c s first second rest hs hvis hc
  obtain ⟨ds', h'⟩ := initPages_of_two (withPriorState c o p t q items) s first second rest hs hvis ht
  refine ⟨by rw [h, h']; simp, by rw [h, h']; simp, by rw [h, h']; simp, ?_⟩
  intro hq
  subst hq
  obtain ⟨ds'', h''⟩ := update_congr { c with
    sliderItemsToShow := some (first :: second :: rest),
    sliderItemOffset := num ((second.offsetLeft - first.offsetLeft : Int) : ℚ),
    slidesPerPage := floor (div (num ((s.clientWidth - first.offsetLeft : Int) : ℚ)) (num ((second.offsetLeft - first.offsetLeft : Int) : ℚ))),
    dots := ds,
    totalPages := add (sub (num ((first :: second :: rest).length : ℚ)) (floor (div (num ((s.clientWidth - first.offsetLeft : Int) : ℚ)) (num ((second.offsetLeft - first.offsetLeft : Int) : ℚ))))) (num 1) } ds'
  have hfull : initPages (withPriorState c o p t c.currentPage items) =
      ⟨{ (initPages c).state with dots := ds'' }, (initPages c).effects, (initPages c).error⟩ := by
    rw [h, h']
    exact h''
  rw [hfull]
  exact ⟨rfl, rfl, rfl⟩

/-- Witness of C22: the five-slide component, fresh and with stale pager values. -/
theorem initPages_recomputes_witness :
    (initPages (withPriorState fiveSlides (num 7) (num 9) (num 3) JSVal.undefined
        none)).state.sliderItemOffset
      = (initPages fiveSlides).state.sliderItemOffset ∧
    (initPages (withPriorState fiveSlides (num 7) (num 9) (num 3) JSVal.undefined none)).state.slidesPerPage
      = (initPages fiveSlides).state.slidesPerPage ∧
    (initPages (withPriorState fiveSlides (num 7) (num 9) (num 3) JSVal.undefined none)).state.totalPages
      = (initPages fiveSlides).state.totalPages ∧
    (JSVal.undefined = fiveSlides.currentPage →
      (initPages (withPriorState fiveSlides (num 7) (num 9) (num 3) JSVal.undefined none)).error = (initPages fiveSlides).error ∧
      (initPages (withPriorState fiveSlides (num 7) (num 9) (num 3) JSVal.undefined none)).effects = (initPages fiveSlides).effects ∧
      { (initPages (withPriorState fiveSlides (num 7) (num 9) (num 3) JSVal.undefined none)).state with
        dots := (initPages fiveSlides).state.dots } = (initPages fiveSlides).state) :=
  initPages_recomputes fiveSlides ⟨200, 0⟩ ⟨0, 0, 100⟩ ⟨1, 100, 100⟩
    [⟨2, 200, 100⟩, ⟨3, 300, 100⟩, ⟨4, 400, 100⟩] (num 7) (num 9) (num 3) JSVal.undefined none
    rfl (by decide) (by decide) (by decide)

/-- C26 (failing input): five slides of width 100 in a viewport of width 200 with a dots
container, paged and given their dots as the constructor does (four pages, four dots); after
the viewport has grown to 300 a re-run of `initPages()` leaves `totalPages = 3` but four
dots, because the dots are rebuilt before `totalPages` is assigned. -/
theorem initPages_dots_stale :
    (fiveSlidesWithDots.totalPages = num 4 ∧
      fiveSlidesWithDots.dots.map List.length = some 4) ∧
    (initPages fiveSlidesResized).error = none ∧
    (initPages fiveSlidesResized).state.totalPages = num 3 ∧
    (initPages fiveSlidesResized).state.dots.map List.length = some 4 := by
  decide!

/-! ## Lemmas on the remainder and on the index of the next slide -/

/-- JavaScript `a % b` on a non-negative integer `a` and a positive integer `b`. -/
theorem JSVal.mod_natCast (a b : Nat) (hb : 0 < b) :
    mod (num (a : ℚ)) (num (b : ℚ)) = num ((a % b : Nat) : ℚ) := by
  have hbq : (b : ℚ) ≠ 0 := by exact_mod_cast hb.ne'
  have hnn : (0 : ℚ) ≤ (a : ℚ) / (b : ℚ) := by positivity
  have hfl : ⌊(a : ℚ) / (b : ℚ)⌋ = ((a / b : Nat) : Int) := by
    have h := Rat.floor_intCast_div_natCast (a : Int) b
    rw [Int.cast_natCast] at h
    rw [h]
    norm_cast
  simp only [mod, if_neg hbq, if_pos hnn, hfl]
  congr 1
  have h := Nat.mod_add_div a b
  have hq : ((a % b : Nat) : ℚ) + (b : ℚ) * ((a / b : Nat) : ℚ) = (a : ℚ) := by exact_mod_cast h
  rw [Int.cast_natCast]
  linarith

/-- JavaScript `-1 % n` for a positive integer `n`: `-0` when `n = 1`, else `-1`. -/
theorem JSVal.mod_neg_one (n : Nat) (hn : 0 < n) :
    mod (num (-1)) (num (n : ℚ)) = if n = 1 then num 0 else num (-1) := by
  have hnq : (n : ℚ) ≠ 0 := by exact_mod_cast hn.ne'
  have hneg : ¬ (0 : ℚ) ≤ -1 / (n : ℚ) := by
    rw [not_le]
    apply div_neg_of_neg_of_pos (by norm_num)
    exact_mod_cast hn
  simp only [mod, if_neg hnq, if_neg hneg]
  by_cases h1 : n = 1
  · subst h1
    have hc : ⌈(-1 : ℚ)⌉ = -1 := by
      rw [Int.ceil_eq_iff]
      norm_num
    simp [hc]
  · rw [if_neg h1]
    have hc : ⌈(-1 : ℚ) / (n : ℚ)⌉ = 0 := by
      rw [Int.ceil_eq_iff]
      have h2 : (2 : ℚ) ≤ n := by exact_mod_cast (by omega : 2 ≤ n)
      have hpos : (0 : ℚ) < n := by linarith
      constructor
      · rw [lt_div_iff₀ hpos]
        push_cast
        linarith
      · push_cast
        apply le_of_lt
        apply div_neg_of_neg_of_pos (by norm_num) hpos
    rw [hc]
    simp

namespace SlideshowComponent

/-- The index `nextIndex` for the button "next", from a page inside the item list. -/
theorem nextIndex_next (c : SlideshowComponent) (k : Nat)
    (hk : k < c.sliderItems.length) (hcur : c.currentPage = num ((k : ℚ) + 1)) :
    c.nextIndex ButtonName.next = num (((k + 1) % c.sliderItems.length : Nat) : ℚ) := by
  have hn : 0 < c.sliderItems.length := by omega
  have e : add (sub (num ((k : ℚ) + 1)) (num 1)) (num 1) = num ((k + 1 : Nat) : ℚ) := by
    simp [sub, add, neg]
  have hne : ((((k + 1) % c.sliderItems.length : Nat) : ℚ)) ≠ -1 := by
    have : (0 : ℚ) ≤ (((k + 1) % c.sliderItems.length : Nat) : ℚ) := Nat.cast_nonneg _
    linarith
  unfold nextIndex
  simp only [hcur, if_true, e, JSVal.mod_natCast _ _ hn]
  simp [strictEq, hne]

/-- The index `nextIndex` for the button "previous", from a page inside the item list. -/
theorem nextIndex_previous (c : SlideshowComponent) (k : Nat)
    (hk : k < c.sliderItems.length) (hcur : c.currentPage = num ((k : ℚ) + 1)) :
    c.nextIndex ButtonName.previous =
      num ((((k : Int) - 1) % (c.sliderItems.length : Int) : Int) : ℚ) := by
  have hn : 0 < c.sliderItems.length := by omega
  unfold nextIndex
  simp only [hcur]
  cases k with
  | zero =>
    have e : add (sub (num (((0 : Nat) : ℚ) + 1)) (num 1)) (num (-1)) = num (-1) := by
      simp [sub, add, neg]
    have hmod : ((0 : Nat) : Int) - 1 = -1 := by norm_num
    simp only [if_neg (by decide : ¬ ButtonName.previous = ButtonName.next), e,
      JSVal.mod_neg_one _ hn, hmod]
    by_cases h1 : c.sliderItems.length = 1
    · rw [if_pos h1, h1]
      simp [strictEq]
    · rw [if_neg h1]
      have h2 : (-1 : Int) % (c.sliderItems.length : Int) = (c.sliderItems.length : Int) - 1 := by
        rw [← Int.add_emod_self]
        exact Int.emod_eq_of_lt (by omega) (by omega)
      rw [h2]
      simp [strictEq, sub, add, neg]
      ring
  | succ j =>
    have e : add (sub (num (((j + 1 : Nat) : ℚ) + 1)) (num 1)) (num (-1)) = num ((j : Nat) : ℚ) := by
      simp [sub, add, neg]
    have hmod : (((j + 1 : Nat) : Int) - 1) % (c.sliderItems.length : Int) = (j : Int) := by
      rw [Int.emod_eq_of_lt (by omega) (by omega)]
      omega
    simp only [if_neg (by decide : ¬ ButtonName.previous = ButtonName.next), e,
      JSVal.mod_natCast _ _ hn, hmod, Nat.mod_eq_of_lt (by omega : j < c.sliderItems.length)]
    simp [strictEq]
    intro h
    have : (0 : ℚ) ≤ (j : ℚ) := Nat.cast_nonneg _
    linarith

end SlideshowComponent

/-! ## Lemmas on `split` -/

namespace SectionId

/-- A string without the separator is a single piece. -/
theorem splitOnPair_of_not_infix (a b : Char) (s : List Char) (hs : ¬ [a, b] <:+: s) :
    splitOnPair a b s = [s] := by
  induction s with
  | nil => rfl
  | cons c cs ih =>
    cases cs with
    | nil => rfl
    | cons d ds =>
      have hcd : ¬ (c = a ∧ d = b) := by
        rintro ⟨rfl, rfl⟩
        exact hs ⟨[], ds, rfl⟩
      have htail : ¬ [a, b] <:+: d :: ds := by
        rintro ⟨l, r, h⟩
        exact hs ⟨c :: l, r, by rw [← h]; rfl⟩
      rw [splitOnPair, if_neg hcd, ih htail]

/-- The first piece of `s ++ sep ++ n` is `s` when `s` neither contains the separator nor
ends in its first character. -/
theorem splitOnPair_append (a b : Char) (s n : List Char) (hs : ¬ [a, b] <:+: s)
    (hend : s.getLast? ≠ some a) :
    splitOnPair a b (s ++ a :: b :: n) = s :: splitOnPair a b n := by
  induction s with
  | nil => simp [splitOnPair]
  | cons c cs ih =>
    cases cs with
    | nil =>
      have hca : c ≠ a := by
        intro h
        apply hend
        simp [h]
      simp [splitOnPair, hca]
    | cons d ds =>
      have hcd : ¬ (c = a ∧ d = b) := by
        rintro ⟨rfl, rfl⟩
        exact hs ⟨[], ds, rfl⟩
      have htail : ¬ [a, b] <:+: d :: ds := by
        rintro ⟨l, r, h⟩
        exact hs ⟨c :: l, r, by rw [← h]; rfl⟩
      have hlast : (d :: ds).getLast? ≠ some a := by
        intro h
        apply hend
        rw [List.getLast?_cons_cons]
        exact h
      have e := ih htail hlast
      rw [List.cons_append] at e
      rw [List.cons_append, List.cons_append, splitOnPair, if_neg hcd, e]

/-- The two pieces of a qualified section id. -/
theorem split_getIdForSection (s n : String)
    (hs : ¬ separator.data <:+: s.data) (hn : ¬ separator.data <:+: n.data)
    (hend : s.data.getLast? ≠ some '_') :
    split (getIdForSection s n) = [s, n] := by
  unfold split getIdForSection
  rw [String.data_append, String.data_append, List.append_assoc]
  have hsep : separator.data ++ n.data = '_' :: '_' :: n.data := rfl
  rw [hsep, splitOnPair_append _ _ _ _ hs hend, splitOnPair_of_not_infix _ _ _ hn]
  rfl

end SectionId

namespace AddToCartButton

/-- The quantity after a click on `#increase`. -/
theorem onIncreaseClick_quantity (b : AddToCartButton) :
    (onIncreaseClick b).quantity = b.quantity + 1 := rfl

/-- The quantity after a click on `#decrease`. -/
theorem onDecreaseClick_quantity (b : AddToCartButton) :
    (onDecreaseClick b).quantity = if b.quantity > 1 then b.quantity - 1 else b.quantity := by
  unfold onDecreaseClick
  split <;> rfl

/-- A sequence of clicks keeps the quantity at `1` or above. -/
theorem clicks_quantity_pos (b : AddToCartButton) (hq : 1 ≤ b.quantity) (cs : List QtyClick) :
    1 ≤ (b.clicks cs).quantity := by
  induction cs generalizing b with
  | nil => exact hq
  | cons click rest ih =>
    cases click with
    | decrease =>
      apply ih
      rw [onDecreaseClick_quantity]
      split <;> omega
    | increase =>
      apply ih
      rw [onIncreaseClick_quantity]
      omega

end AddToCartButton

/-! ## Claims on the looping index, section ids, the focus trap and the quantity selector -/

/-- C23: with `n ≥ 1` items and the current index `k = currentPage - 1` inside the list
(`0 ≤ k < n`), the `nextIndex` of `applyAnimationToAnnouncementBar` is `(k + 1) mod n` for
"next" and `(k - 1) mod n` for "previous", so `n - 1` from index `0`; for either button it is
an index `j` with `0 ≤ j < n`. -/
theorem nextIndex_wraps (c : SlideshowComponent) (k : Nat)
    (hk : k < c.sliderItems.length) (hcur : c.currentPage = num ((k : ℚ) + 1)) :
    c.nextIndex ButtonName.next =
      num ((((k : Int) + 1) % (c.sliderItems.length : Int) : Int) : ℚ) ∧
    c.nextIndex ButtonName.previous =
      num ((((k : Int) - 1) % (c.sliderItems.length : Int) : Int) : ℚ) ∧
    (k = 0 → c.nextIndex ButtonName.previous = num ((c.sliderItems.length : ℚ) - 1)) ∧
    ∀ button, ∃ j : Nat, j < c.sliderItems.length ∧ c.nextIndex button = num (j : ℚ) := by
  have hn : (0 : Int) < (c.sliderItems.length : Int) := by omega
  have hnext := SlideshowComponent.nextIndex_next c k hk hcur
  have hprev := SlideshowComponent.nextIndex_previous c k hk hcur
  have hj : ((((k : Int) - 1) % (c.sliderItems.length : Int)).toNat : Int)
      = ((k : Int) - 1) % (c.sliderItems.length : Int) :=
    Int.toNat_of_nonneg (Int.emod_nonneg _ hn.ne')
  refine ⟨?_, hprev, ?_, ?_⟩
  · rw [hnext]
    congr 1
  · intro h0
    subst h0
    rw [hprev]
    congr 1
    have h2 : (((0 : Nat) : Int) - 1) % (c.sliderItems.length : Int)
        = (c.sliderItems.length : Int) - 1 := by
      rw [← Int.add_emod_self]
      exact Int.emod_eq_of_lt (by omega) (by omega)
    rw [h2]
    push_cast
    ring
  · intro button
    cases button with
    | next => exact ⟨(k + 1) % c.sliderItems.length, Nat.mod_lt _ (by omega), hnext⟩
    | previous =>
      refine ⟨(((k : Int) - 1) % (c.sliderItems.length : Int)).toNat, ?_, ?_⟩
      · have hlt := Int.emod_lt_of_pos ((k : Int) - 1) hn
        omega
      · rw [hprev]
        congr 1
        rw [← hj]
        norm_cast

/-- Witness of C23: the announcement bar of three slides on its first page. -/
theorem nextIndex_wraps_witness :
    (announcementBar false).nextIndex ButtonName.next =
      num (((((0 : Nat) : Int) + 1) % ((announcementBar false).sliderItems.length : Int) : Int) : ℚ) ∧
    (announcementBar false).nextIndex ButtonName.previous =
      num (((((0 : Nat) : Int) - 1) % ((announcementBar false).sliderItems.length : Int) : Int) : ℚ) ∧
    ((0 : Nat) = 0 → (announcementBar false).nextIndex ButtonName.previous
      = num (((announcementBar false).sliderItems.length : ℚ) - 1)) ∧
    ∀ button, ∃ j : Nat, j < (announcementBar false).sliderItems.length ∧
      (announcementBar false).nextIndex button = num (j : ℚ) :=
  nextIndex_wraps (announcementBar false) 0 (by decide) (by decide!)

/-- C24 (amended): for a section id `s` and a section name `n` that do not contain the
separator `__`, with `s` not ending in `_`, `parseId` and `parseSectionName` give `s` and `n`
back from `getIdForSection(s, n)`. -/
theorem parse_getIdForSection (s n : String)
    (hs : ¬ SectionId.separator.data <:+: s.data)
    (hn : ¬ SectionId.separator.data <:+: n.data)
    (hend : s.data.getLast? ≠ some '_') :
    SectionId.parseId (SectionId.getIdForSection s n) = some s ∧
    SectionId.parseSectionName (SectionId.getIdForSection s n) = some n := by
  unfold SectionId.parseId SectionId.parseSectionName
  rw [SectionId.split_getIdForSection s n hs hn hend]
  exact ⟨rfl, rfl⟩

/-- Witness of C24: the section id and name of the comments in the source. -/
theorem parse_getIdForSection_witness :
    SectionId.parseId (SectionId.getIdForSection "template--22224696705326" "main")
      = some "template--22224696705326" ∧
    SectionId.parseSectionName (SectionId.getIdForSection "template--22224696705326" "main")
      = some "main" :=
  parse_getIdForSection "template--22224696705326" "main" (by decide) (by decide) (by decide)

/-- C24 (counterexample): the section id `a_` and the name `b` do not contain `__`, the
qualified id is `a___b`, and `split` cuts it at the first `__`: `parseId` gives `a`, not
`a_`, and `parseSectionName` gives `_b`, not `b`. -/
theorem parseId_loses_trailing_underscore :
    ¬ SectionId.separator.data <:+: "a_".data ∧
    ¬ SectionId.separator.data <:+: "b".data ∧
    SectionId.getIdForSection "a_" "b" = "a___b" ∧
    SectionId.parseId (SectionId.getIdForSection "a_" "b") = some "a" ∧
    SectionId.parseId (SectionId.getIdForSection "a_" "b") ≠ some "a_" ∧
    SectionId.parseSectionName (SectionId.getIdForSection "a_" "b") = some "_b" ∧
    SectionId.parseSectionName (SectionId.getIdForSection "a_" "b") ≠ some "b" := by
  decide

/-- C25: in a focus trap with focusable elements (`first` and `last` exist), a Tab `keydown`
on `last` without Shift prevents the default and focuses `first`; a Tab `keydown` with Shift on
`first` or on the container prevents the default and focuses `last`; every other key or target
focuses nothing and does not prevent the default. No case throws. -/
theorem keydown_cycles (t : TrapFocus) (event : KeyboardEvent) (first last : Nat)
    (hfirst : t.first = some first) (hlast : t.last = some last) :
    (event.isTab = true → event.target = last → event.shiftKey = false →
      t.keydown event = ⟨true, [first], none⟩) ∧
    (event.isTab = true → (event.target = first ∨ event.target = t.container) →
      event.shiftKey = true → t.keydown event = ⟨true, [last], none⟩) ∧
    (¬ (event.isTab = true ∧ ((event.target = last ∧ event.shiftKey = false) ∨
        ((event.target = first ∨ event.target = t.container) ∧ event.shiftKey = true))) →
      t.keydown event = ⟨false, [], none⟩) := by
  obtain ⟨isTab, shiftKey, target⟩ := event
  cases isTab <;> cases shiftKey <;> simp [TrapFocus.keydown, hfirst, hlast]
  · constructor <;> intro h <;> simp [h]
  · tauto

/-- Witness of C25: Tab without Shift on the last of three focusable elements. -/
theorem keydown_cycles_witness :
    (⟨0, [1, 2, 3]⟩ : TrapFocus).keydown ⟨true, false, 3⟩ = ⟨true, [1], none⟩ :=
  (keydown_cycles ⟨0, [1, 2, 3]⟩ ⟨true, false, 3⟩ 1 3 rfl rfl).1 rfl rfl rfl

/-- C30: from a quantity of at least `1`, every sequence of clicks on `#increase` and
`#decrease` leaves the quantity at `1` or above; a click on `#increase` adds exactly `1`, a
click on `#decrease` subtracts exactly `1` above `1` and leaves the quantity `1` as it is. -/
theorem clicks_keep_quantity (b : AddToCartButton) (hq : 1 ≤ b.quantity)
    (cs : List AddToCartButton.QtyClick) :
    1 ≤ (b.clicks cs).quantity ∧
    ((b.clicks cs).onIncreaseClick).quantity = (b.clicks cs).quantity + 1 ∧
    (1 < (b.clicks cs).quantity →
      ((b.clicks cs).onDecreaseClick).quantity = (b.clicks cs).quantity - 1) ∧
    ((b.clicks cs).quantity = 1 → ((b.clicks cs).onDecreaseClick).quantity = 1) := by
  refine ⟨AddToCartButton.clicks_quantity_pos b hq cs,
    AddToCartButton.onIncreaseClick_quantity _, ?_, ?_⟩
  · intro h
    rw [AddToCartButton.onDecreaseClick_quantity, if_pos h]
  · intro h
    rw [AddToCartButton.onDecreaseClick_quantity, h]
    rfl

/-- Witness of C30: a decrease at quantity `1`, then an increase and another decrease. -/
theorem clicks_keep_quantity_witness :
    1 ≤ (freshAddToCart.clicks [.decrease, .increase, .decrease]).quantity ∧
    ((freshAddToCart.clicks [.decrease, .increase, .decrease]).onIncreaseClick).quantity
      = (freshAddToCart.clicks [.decrease, .increase, .decrease]).quantity + 1 ∧
    (1 < (freshAddToCart.clicks [.decrease, .increase, .decrease]).quantity →
      ((freshAddToCart.clicks [.decrease, .increase, .decrease]).onDecreaseClick).quantity
        = (freshAddToCart.clicks [.decrease, .increase, .decrease]).quantity - 1) ∧
    ((freshAddToCart.clicks [.decrease, .increase, .decrease]).quantity = 1 →
      ((freshAddToCart.clicks [.decrease, .increase, .decrease]).onDecreaseClick).quantity = 1) :=
  clicks_keep_quantity freshAddToCart (by decide) [.decrease, .increase, .decrease]

/-! ## Lemmas on `throttle` -/

namespace Throttled

/-- A call keeps `fn` and `delay`. -/
theorem call_delay {α β : Type} (t : Throttled α β) (now : Int) (args : α) :
    (t.call now args).1.delay = t.delay := by
  unfold call
  split <;> rfl

/-- A call that invokes `fn` stores its time in `lastCall` and is at least `delay` after the
previous value. -/
theorem call_isSome {α β : Type} (t : Throttled α β) (now : Int) (args : α)
    (h : (t.call now args).2.isSome = true) :
    (t.call now args).1.lastCall = now ∧ t.delay ≤ ((now - t.lastCall : Int) : ℚ) := by
  unfold call at h ⊢
  split
  · rename_i hlt
    rw [if_pos hlt] at h
    exact absurd h (by simp)
  · rename_i hlt
    exact ⟨rfl, not_lt.mp hlt⟩

/-- A call that does not invoke `fn` changes nothing. -/
theorem call_not_isSome {α β : Type} (t : Throttled α β) (now : Int) (args : α)
    (h : ¬ (t.call now args).2.isSome = true) : (t.call now args).1 = t := by
  unfold call at h ⊢
  split
  · rfl
  · rename_i hlt
    rw [if_neg hlt] at h
    exact absurd rfl h

/-- Consecutive invocations, the value of `lastCall` before them included, are at least
`delay` apart. -/
theorem invocations_chain {α β : Type} (t : Throttled α β) (calls : List (Int × α)) :
    List.Chain (fun a b : Int => t.delay ≤ ((b - a : Int) : ℚ)) t.lastCall
      (t.invocations calls) := by
  induction calls generalizing t with
  | nil => exact List.Chain.nil
  | cons call rest ih =>
    obtain ⟨now, args⟩ := call
    unfold invocations
    split
    · rename_i h
      obtain ⟨h1, h2⟩ := call_isSome t now args h
      have e := ih (t.call now args).1
      rw [h1, call_delay] at e
      exact List.Chain.cons h2 e
    · rename_i h
      rw [call_not_isSome t now args h]
      exact ih t

/-- After a sequence of calls `lastCall` is the time of the last invocation. -/
theorem after_lastCall {α β : Type} (t : Throttled α β) (calls : List (Int × α)) :
    (t.after calls).lastCall = ((t.invocations calls).getLast?).getD t.lastCall := by
  induction calls generalizing t with
  | nil => rfl
  | cons call rest ih =>
    obtain ⟨now, args⟩ := call
    unfold after invocations
    rw [ih]
    split
    · rename_i h
      rw [(call_isSome t now args h).1]
      cases hinv : invocations (t.call now args).1 rest with
      | nil => rfl
      | cons x xs =>
        rw [List.getLast?_cons_cons, List.getLast?_eq_getLast _ (List.cons_ne_nil x xs)]
        rfl
    · rename_i h
      rw [call_not_isSome t now args h]

/-- A sequence of calls keeps `delay`. -/
theorem after_delay {α β : Type} (t : Throttled α β) (calls : List (Int × α)) :
    (t.after calls).delay = t.delay := by
  induction calls generalizing t with
  | nil => rfl
  | cons call rest ih =>
    obtain ⟨now, args⟩ := call
    unfold after
    rw [ih, call_delay]

end Throttled

/-! ## Claims on `throttle` -/

/-- C29 (amended): for `delay > 0` and every sequence of calls of `throttle(fn, delay)`, a
first call at a time of at least `delay` invokes `fn`; any two invocations of `fn` are at
least `delay` apart; and a call less than `delay` after the last invocation is dropped: it
returns `undefined` and changes nothing. -/
theorem throttle_spacing {α β : Type} (fn : α → β) (delay : ℚ) (hdelay : 0 < delay)
    (calls : List (Int × α)) :
    (∀ (now : Int) (args : α), delay ≤ ((now : Int) : ℚ) →
      (throttle fn delay).call now args = (⟨fn, delay, now⟩, some (fn args))) ∧
    List.Pairwise (fun a b : Int => delay ≤ ((b - a : Int) : ℚ))
      ((throttle fn delay).invocations calls) ∧
    (∀ last now args, ((throttle fn delay).invocations calls).getLast? = some last →
      ((now - last : Int) : ℚ) < delay →
      ((throttle fn delay).after calls).call now args = ((throttle fn delay).after calls, none)) := by
  refine ⟨?_, ?_, ?_⟩
  · intro now args hnow
    unfold Throttled.call throttle
    rw [if_neg]
    simpa using hnow
  · have hchain : List.Chain (fun a b : Int => delay ≤ ((b - a : Int) : ℚ)) 0
        ((throttle fn delay).invocations calls) :=
      Throttled.invocations_chain (throttle fn delay) calls
    have htrans : ∀ a b c : Int, delay ≤ ((b - a : Int) : ℚ) → delay ≤ ((c - b : Int) : ℚ) →
        delay ≤ ((c - a : Int) : ℚ) := by
      intro a b c h1 h2
      push_cast at h1 h2 ⊢
      linarith
    haveI : IsTrans Int (fun a b : Int => delay ≤ ((b - a : Int) : ℚ)) := ⟨htrans⟩
    have hp := List.Chain.pairwise hchain
    exact (List.pairwise_cons.mp hp).2
  · intro last now args hlast hlt
    unfold Throttled.call
    rw [if_pos]
    rw [Throttled.after_lastCall, Throttled.after_delay, hlast]
    exact hlt

/-- Witness of C29: calls at the times 1000, 1400 and 2100 with a delay of 1000. -/
theorem throttle_spacing_witness :
    List.Pairwise (fun a b : Int => (1000 : ℚ) ≤ ((b - a : Int) : ℚ))
      ((throttle (fun n : Nat => n + 1) 1000).invocations [(1000, 0), (1400, 1), (2100, 2)]) :=
  (throttle_spacing (fun n : Nat => n + 1) 1000 (by simp)
    [(1000, 0), (1400, 1), (2100, 2)]).2.1

/-- C29 (counterexample): with a delay of `2 * 10 ^ 12` milliseconds, a first call at the
time `1.8 * 10 ^ 12` (a date in 2027) is less than `delay` after the initial `lastCall = 0`:
it returns `undefined` and `fn` is not invoked. -/
theorem throttle_drops_first_call :
    (0 : ℚ) < 2000000000000 ∧
    ((throttle (fun n : Nat => n + 1) 2000000000000).call 1800000000000 0).2 = none ∧
    (throttle (fun n : Nat => n + 1) 2000000000000).invocations [(1800000000000, 0)] = [] := by
  decide!

/-! ## Lemmas on `BulkAdd` -/

/-- JavaScript `q % k != 0` on integers with `k` non-zero: `k` does not divide `q`. -/
theorem JSVal.looseNe_mod_intCast (q k : Int) (hk : k ≠ 0) :
    looseNe (mod (num (q : ℚ)) (num (k : ℚ))) (num 0) = true ↔ ¬ k ∣ q := by
  have hkq : (k : ℚ) ≠ 0 := by exact_mod_cast hk
  simp only [mod, if_neg hkq, looseNe, strictEq, Bool.not_eq_true', decide_eq_false_iff_not,
    JSVal.num.injEq]
  apply not_congr
  constructor
  · intro h
    refine ⟨if 0 ≤ (q : ℚ) / (k : ℚ) then ⌊(q : ℚ) / (k : ℚ)⌋ else ⌈(q : ℚ) / (k : ℚ)⌉, ?_⟩
    have h' : (q : ℚ) = (k : ℚ) *
        ((if 0 ≤ (q : ℚ) / (k : ℚ) then ⌊(q : ℚ) / (k : ℚ)⌋ else ⌈(q : ℚ) / (k : ℚ)⌉ : Int) : ℚ) := by
      linarith
    exact_mod_cast h'
  · rintro ⟨j, rfl⟩
    have hdiv : ((k * j : Int) : ℚ) / (k : ℚ) = (j : ℚ) := by
      push_cast
      field_simp
    rw [hdiv]
    simp

namespace BulkAdd

/-- The step of the `forEach` loop of `sendRequest`. -/
theorem foldl_setItem_append (items : ItemMap) (pre post : List QueueItem) (e : QueueItem) :
    (pre ++ e :: post).foldl (fun items queueItem => setItem items queueItem.id queueItem.quantity)
        items
      = post.foldl (fun items queueItem => setItem items queueItem.id queueItem.quantity)
        (setItem (pre.foldl
          (fun items queueItem => setItem items queueItem.id queueItem.quantity) items)
          e.id e.quantity) := by
  rw [List.foldl_append, List.foldl_cons]

/-- Entries with other ids leave the value under a key as it is. -/
theorem foldl_setItem_of_ne (items : ItemMap) (queue : List QueueItem) (k : Nat)
    (h : ∀ e ∈ queue, e.id ≠ k) :
    queue.foldl (fun items queueItem => setItem items queueItem.id queueItem.quantity) items k
      = items k := by
  induction queue generalizing items with
  | nil => rfl
  | cons e rest ih =>
    rw [List.foldl_cons, ih _ (fun e' he' => h e' (List.mem_cons_of_mem _ he'))]
    unfold setItem
    rw [if_neg (fun hk => h e (List.mem_cons_self _ _) hk.symm)]

/-- The keys set by the loop are the keys set before and the ids of the entries. -/
theorem foldl_setItem_keys (items : ItemMap) (queue : List QueueItem) (k : Nat) :
    queue.foldl (fun items queueItem => setItem items queueItem.id queueItem.quantity) items k
        ≠ none
      ↔ items k ≠ none ∨ ∃ e ∈ queue, e.id = k := by
  induction queue generalizing items with
  | nil => simp
  | cons e rest ih =>
    rw [List.foldl_cons, ih]
    unfold setItem
    by_cases hk : k = e.id
    · subst hk
      simp
    · have hk' : ¬ e.id = k := fun h => hk h.symm
      simp [hk, hk']

/-- A change of an input that keeps its `id` attribute does not change what `querySelector`
finds. -/
theorem querySelector_modify (b : BulkAdd) (f : QuantityInput → QuantityInput) (n id : Nat)
    (hf : ∀ input, (f input).quantityId = input.quantityId) :
    querySelector { b with inputs := b.inputs.modify f n } id = querySelector b id := by
  unfold querySelector
  congr 1
  show (b.inputs.modify f n).map (fun input => input.quantityId)
    = b.inputs.map (fun input => input.quantityId)
  generalize b.inputs = l
  induction l generalizing n with
  | nil => rw [List.modify_nil]
  | cons a l ih =>
    cases n with
    | zero => simp [List.modify_zero_cons, hf]
    | succ n => simp [List.modify_succ_cons, ih]

end BulkAdd

/-! ## Claims on `BulkAdd` -/

/-- C27: for an input holding the integer `q`, with numbers `lo`, `hi` as `min`, `max` and a
non-zero integer `k` as `step`, and with the input `#Quantity-index` on the page:
`validateQuantity` queues the entry `(index, q)` (it clears the message, stores `q` in the
`value` attribute and sets the interval) when `lo ≤ q ≤ hi` and `k` divides `q`; in every
other case the queue stays as it is, no interval is set, the target gets a validation message
that is reported, and the input `#Quantity-index` gets its `value` attribute back as value. -/
theorem validateQuantity_queues_iff (b : BulkAdd) (target position : Nat)
    (input : QuantityInput) (q k : Int) (lo hi : ℚ)
    (htarget : b.inputs[target]? = some input)
    (hvalue : input.value = num (q : ℚ)) (hmin : input.min = num lo)
    (hmax : input.max = num hi) (hstep : input.step = num (k : ℚ)) (hk : k ≠ 0)
    (hfound : b.querySelector input.index = some position) :
    ((lo ≤ (q : ℚ) ∧ (q : ℚ) ≤ hi ∧ k ∣ q) →
      (b.validateQuantity target).state.queue
        = b.queue ++ [⟨b.allocated, input.index, num (q : ℚ)⟩] ∧
      (b.validateQuantity target).effects
        = [BulkEffect.reportValidity target, BulkEffect.setInterval (num 250)] ∧
      (b.validateQuantity target).error = none ∧
      (b.validateQuantity target).state.inputs = b.inputs.modify
        (fun input => { input with customValidity := none, valueAttribute := num (q : ℚ) })
        target) ∧
    (¬ (lo ≤ (q : ℚ) ∧ (q : ℚ) ≤ hi ∧ k ∣ q) →
      (b.validateQuantity target).state.queue = b.queue ∧
      (b.validateQuantity target).effects
        = [BulkEffect.reportValidity target, BulkEffect.select target] ∧
      (b.validateQuantity target).error = none ∧
      ∃ message, (b.validateQuantity target).state.inputs =
        (b.inputs.modify (fun input => { input with customValidity := some message })
          target).modify (fun input => { input with value := input.valueAttribute })
          position) := by
  have hreset : ∀ message : Option ValidationError,
      b.setValidity target input.index message =
        ⟨{ b with
            inputs := (b.inputs.modify (fun input => { input with customValidity := message })
              target).modify (fun input => { input with value := input.valueAttribute })
              position,
            isEnterPressed := some false },
          [BulkEffect.reportValidity target, BulkEffect.select target], none⟩ := by
    intro message
    have hq := BulkAdd.querySelector_modify b
      (fun input => { input with customValidity := message }) target input.index
      (fun _ => rfl)
    rw [hfound] at hq
    unfold BulkAdd.setValidity BulkAdd.resetQuantityInput
    simp only [hq]
  have hstepIff := JSVal.looseNe_mod_intCast q k hk
  unfold BulkAdd.validateQuantity
  simp only [htarget, hvalue, hmin, hmax, hstep]
  constructor
  · rintro ⟨h1, h2, h3⟩
    have c1 : ¬ (lt (num (q : ℚ)) (num lo) = true) := by simp [lt, h1]
    have c2 : ¬ (lt (num hi) (num (q : ℚ)) = true) := by simp [lt, h2]
    have c3 : ¬ (looseNe (mod (num (q : ℚ)) (num (k : ℚ))) (num 0) = true) := by
      rw [hstepIff]
      exact not_not.mpr h3
    rw [if_neg c1, if_neg c2, if_neg c3]
    exact ⟨rfl, rfl, rfl, rfl⟩
  · intro hinvalid
    by_cases c1 : lt (num (q : ℚ)) (num lo) = true
    · rw [if_pos c1, hreset]
      exact ⟨rfl, rfl, rfl, _, rfl⟩
    · rw [if_neg c1]
      by_cases c2 : lt (num hi) (num (q : ℚ)) = true
      · rw [if_pos c2, hreset]
        exact ⟨rfl, rfl, rfl, _, rfl⟩
      · rw [if_neg c2]
        have c3 : looseNe (mod (num (q : ℚ)) (num (k : ℚ))) (num 0) = true := by
          rw [hstepIff]
          intro hdvd
          apply hinvalid
          simp only [lt, decide_eq_true_eq, not_lt] at c1 c2
          exact ⟨c1, c2, hdvd⟩
        rw [if_pos c3, hreset]
        exact ⟨rfl, rfl, rfl, _, rfl⟩

/-- Witness of C27: `4` entered in the input `#Quantity-7` (from `2` to `10` in steps of `2`)
is queued. -/
theorem validateQuantity_queues_iff_witness :
    (twoInputs.validateQuantity 0).state.queue = twoInputs.queue ++ [⟨0, 7, num 4⟩] :=
  ((validateQuantity_queues_iff twoInputs 0 0 ⟨some 7, num 4, num 2, 7, num 2, num 10, num 2, none⟩
    4 2 2 10 rfl (by simp) rfl rfl (by simp) (by decide) (by decide)).1
      ⟨by norm_num, by norm_num, by decide⟩).1

/-- C28: `sendRequest(queue)` hands `updateMultipleQty` a map `items` whose keys are exactly
the ids of the entries of `queue`, each with the quantity of the last entry of that id;
afterwards the pending queue holds its former entries that are not in `queue` (none when
`queue` is the pending queue itself) and `requestStarted` is `true`. -/
theorem sendRequest_batches (b : BulkAdd) (queue : List QueueItem) :
    ∃ items : ItemMap,
      (b.sendRequest queue).effects = [BulkEffect.updateMultipleQty items] ∧
      (∀ k, items k ≠ none ↔ ∃ e ∈ queue, e.id = k) ∧
      (∀ pre e post, queue = pre ++ e :: post → (∀ e' ∈ post, e'.id ≠ e.id) →
        items e.id = some e.quantity) ∧
      (∀ e, e ∈ (b.sendRequest queue).state.queue ↔ e ∈ b.queue ∧ e ∉ queue) ∧
      (queue = b.queue → (b.sendRequest queue).state.queue = []) ∧
      (b.sendRequest queue).state.requestStarted = true ∧
      (b.sendRequest queue).error = none := by
  refine ⟨_, rfl, ?_, ?_, ?_, ?_, rfl, rfl⟩
  · intro k
    rw [BulkAdd.foldl_setItem_keys]
    simp
  · intro pre e post hq hpost
    rw [hq, BulkAdd.foldl_setItem_append, BulkAdd.foldl_setItem_of_ne _ _ _ hpost]
    simp [BulkAdd.setItem]
  · intro e
    simp [BulkAdd.sendRequest, List.mem_filter]
  · intro hq
    subst hq
    simp [BulkAdd.sendRequest]

end Slider
